import Mathlib

/-!
Channel coupling of the EEZ PSU firmware.

A shallow embedding of `eez_psu_sketch/channel_coupling.cpp`.

* `float` values are exact rationals (`ℚ`).
* The global `g_channelCoupling`, the channel table behind `Channel::get(i)`, the
  table `temperature::sensors[]` and the sequence of calls made on the external
  collaborators form an explicit `State` that every operation threads through.
* A `Channel &channel` argument is the position `i` of that channel in the
  channel table, so `channel` and `Channel::get(i)` alias as they do in C++.
* The firmware build is embedded: the blocks under `EEZ_PSU_SIMULATOR` are left out.
-/

namespace channel_coupling

/-! ## Data model -/

/-- The enum `Type` of `channel_coupling.h`. -/
inductive CouplingType where
  | TYPE_NONE
  | TYPE_PARALLEL
  | TYPE_SERIES
  deriving DecidableEq, Repr

/-- Modelled from the spec: the class `Channel` is not part of the sources at hand.
`Channel::Value` holds the fields `set, mon, mon_dac, min, max, def` read through
`channel.u` and `channel.i` (`def` is written `def_`). -/
structure Value where
  set : ℚ
  mon : ℚ
  mon_dac : ℚ
  min : ℚ
  max : ℚ
  def_ : ℚ
  deriving DecidableEq, Repr

/-- Modelled from the spec: `prot_conf.flags` of a channel. A flag keeps the integer
that is assigned to it; the code reads it as a C truth value. -/
structure ProtFlags where
  u_state : Int
  i_state : Int
  p_state : Int
  deriving DecidableEq, Repr

/-- Modelled from the spec: `prot_conf` of a channel, OVP {state, level, delay},
OCP {state, delay}, OPP {state, level, delay}. -/
structure ProtectionConfiguration where
  flags : ProtFlags
  u_level : ℚ
  u_delay : ℚ
  i_delay : ℚ
  p_level : ℚ
  p_delay : ℚ
  deriving DecidableEq, Repr

/-- Modelled from the spec: the physical channel (class `Channel`, absent from the
sources at hand) with the members that `channel_coupling.cpp` touches: voltage and
current values, the limits behind `getVoltageLimit()`, `getVoltageMaxLimit()`,
`getCurrentLimit()`, `getMaxCurrentLimit()` and `getPowerLimit()`, the power ceiling
and OPP levels, the protection configuration, the capability bitmask behind
`getFeatures()`, the health behind `isOk()`, and the switches driven by
`outputEnable`, `remoteProgrammingEnable`, `lowRippleEnable`, `lowRippleAutoEnable`
and the protection trip cleared by `clearProtection`. -/
structure Channel where
  u : Value
  i : Value
  u_limit : ℚ
  u_max_limit : ℚ
  i_limit : ℚ
  i_max_limit : ℚ
  p_limit : ℚ
  PTOT : ℚ
  OPP_MIN_LEVEL : ℚ
  OPP_MAX_LEVEL : ℚ
  OPP_DEFAULT_LEVEL : ℚ
  prot_conf : ProtectionConfiguration
  features : Nat
  ok : Bool
  output_enabled : Bool
  rprog_enabled : Bool
  lripple_enabled : Bool
  lripple_auto_enabled : Bool
  prot_tripped : Bool
  deriving DecidableEq, Repr

/-- Modelled from the spec: the protection entry {state, level, delay} of a
temperature sensor (`temperature::sensors[k].prot_conf`). -/
structure TempSensorProtConf where
  state : Bool
  level : ℚ
  delay : ℚ
  deriving DecidableEq, Repr

/-- Modelled from the spec: an element of `temperature::sensors[]`, its protection
entry and the trip that `clearProtection()` clears. -/
structure TempSensorTemperature where
  prot_conf : TempSensorProtConf
  prot_tripped : Bool
  deriving DecidableEq, Repr

/-- A call made on an external collaborator: a method of the physical channel `ch`,
`clearProtection()` of a temperature sensor, or `bp::switchChannelCoupling`. -/
inductive Call where
  | outputEnable (ch : Nat) (enable : Bool)
  | remoteProgrammingEnable (ch : Nat) (enable : Bool)
  | lowRippleEnable (ch : Nat) (enable : Bool)
  | lowRippleAutoEnable (ch : Nat) (enable : Bool)
  | setVoltage (ch : Nat) (voltage : ℚ)
  | setCurrent (ch : Nat) (current : ℚ)
  | setVoltageLimit (ch : Nat) (limit : ℚ)
  | setCurrentLimit (ch : Nat) (limit : ℚ)
  | setPowerLimit (ch : Nat) (limit : ℚ)
  | clearProtection (ch : Nat)
  | disableProtection (ch : Nat)
  | sensorClearProtection (sensor : Nat)
  | switchChannelCoupling (value : CouplingType)
  deriving DecidableEq, Repr

/-- The program state: the static `g_channelCoupling`, the number of channels
`CH_NUM`, the channel table read by `Channel::get(i)`, `temperature::sensors[]`,
and the calls made so far on the external collaborators, oldest first. -/
structure State where
  g_channelCoupling : CouplingType
  CH_NUM : Nat
  channels : Nat → Channel
  sensors : Nat → TempSensorTemperature
  calls : List Call

/-! ## External collaborators -/

/-- Modelled from the spec: the capability bit of low-ripple support. The enum is
absent from the sources at hand; only that it is one bit, other than
`CH_FEATURE_RPROG`, matters. -/
def CH_FEATURE_LRIPPLE : Nat := 64

/-- Modelled from the spec: the capability bit of remote-programming support. -/
def CH_FEATURE_RPROG : Nat := 128

/-- Modelled from the spec: `temp_sensor::CH1`, the sensor tied to channel 0. The
enum is absent from the sources at hand. -/
def CH1 : Nat := 1

/-- Modelled from the spec: `temp_sensor::CH2`, the sensor tied to channel 1; the
two pair sensors are one-to-one with the channel pair, so it follows `CH1`. -/
def CH2 : Nat := 2

/-- Modelled from the spec: `channel.index` of `Channel::get(i)`, the 1-based
channel number (`scpi_debug.cpp` prints it as `CH%d`). -/
def index (channel : Nat) : Nat := channel + 1

/-- The macro `min(a,b)` of the Arduino core, `((a)<(b)?(a):(b))`. -/
def min_ (a b : ℚ) : ℚ := if a < b then a else b

/-- The macro `max(a,b)` of the Arduino core, `((a)>(b)?(a):(b))`. -/
def max_ (a b : ℚ) : ℚ := if a > b then a else b

/-- The C expression `a || b ? 1 : 0` on two integer flags. -/
def or_ (a b : Int) : Int := if a ≠ 0 ∨ b ≠ 0 then 1 else 0

namespace Channel

/-- C truth value of `getFeatures() & bit`. -/
def hasFeature (ch : Channel) (bit : Nat) : Bool := (ch.features &&& bit) != 0

/-- Modelled from the spec: `isOk()`, the operational-health predicate. -/
def isOk (ch : Channel) : Bool := ch.ok

/-- Modelled from the spec: `getVoltageLimit()`. -/
def getVoltageLimit (ch : Channel) : ℚ := ch.u_limit

/-- Modelled from the spec: `getVoltageMaxLimit()`. -/
def getVoltageMaxLimit (ch : Channel) : ℚ := ch.u_max_limit

/-- Modelled from the spec: `getCurrentLimit()`. -/
def getCurrentLimit (ch : Channel) : ℚ := ch.i_limit

/-- Modelled from the spec: `getMaxCurrentLimit()`. -/
def getMaxCurrentLimit (ch : Channel) : ℚ := ch.i_max_limit

/-- Modelled from the spec: `getPowerLimit()`. -/
def getPowerLimit (ch : Channel) : ℚ := ch.p_limit

/-- Modelled from the spec: the physical `setVoltage` stores the value it is given
as the voltage set point. -/
def setVoltage (ch : Channel) (voltage : ℚ) : Channel :=
  { ch with u := { ch.u with set := voltage } }

/-- Modelled from the spec: the physical `setCurrent` stores the value it is given
as the current set point. -/
def setCurrent (ch : Channel) (current : ℚ) : Channel :=
  { ch with i := { ch.i with set := current } }

/-- Modelled from the spec: the physical `setVoltageLimit` stores the limit. -/
def setVoltageLimit (ch : Channel) (limit : ℚ) : Channel := { ch with u_limit := limit }

/-- Modelled from the spec: the physical `setCurrentLimit` stores the limit. -/
def setCurrentLimit (ch : Channel) (limit : ℚ) : Channel := { ch with i_limit := limit }

/-- Modelled from the spec: the physical `setPowerLimit` stores the limit. -/
def setPowerLimit (ch : Channel) (limit : ℚ) : Channel := { ch with p_limit := limit }

/-- Modelled from the spec: the physical `outputEnable` sets the output-enable flag. -/
def outputEnable (ch : Channel) (enable : Bool) : Channel :=
  { ch with output_enabled := enable }

/-- Modelled from the spec: the physical `remoteProgrammingEnable`. -/
def remoteProgrammingEnable (ch : Channel) (enable : Bool) : Channel :=
  { ch with rprog_enabled := enable }

/-- Modelled from the spec: the physical `lowRippleEnable`; on hardware lacking the
feature it reports false and mutates nothing. -/
def lowRippleEnable (ch : Channel) (enable : Bool) : Bool × Channel :=
  if ch.hasFeature CH_FEATURE_LRIPPLE then (true, { ch with lripple_enabled := enable })
  else (false, ch)

/-- Modelled from the spec: the physical `lowRippleAutoEnable`. -/
def lowRippleAutoEnable (ch : Channel) (enable : Bool) : Channel :=
  { ch with lripple_auto_enabled := enable }

/-- Modelled from the spec: the physical `clearProtection` clears the trip. -/
def clearProtection (ch : Channel) : Channel := { ch with prot_tripped := false }

/-- Modelled from the spec: the physical `disableProtection` switches the OVP, OCP
and OPP state flags off. -/
def disableProtection (ch : Channel) : Channel :=
  { ch with prot_conf := { ch.prot_conf with flags := ⟨0, 0, 0⟩ } }

/-- Assignment `channel.prot_conf.flags.u_state = x`. -/
def set_u_state (ch : Channel) (x : Int) : Channel :=
  { ch with prot_conf := { ch.prot_conf with flags := { ch.prot_conf.flags with u_state := x } } }

/-- Assignment `channel.prot_conf.flags.i_state = x`. -/
def set_i_state (ch : Channel) (x : Int) : Channel :=
  { ch with prot_conf := { ch.prot_conf with flags := { ch.prot_conf.flags with i_state := x } } }

/-- Assignment `channel.prot_conf.flags.p_state = x`. -/
def set_p_state (ch : Channel) (x : Int) : Channel :=
  { ch with prot_conf := { ch.prot_conf with flags := { ch.prot_conf.flags with p_state := x } } }

/-- Assignment `channel.prot_conf.u_level = x`. -/
def set_u_level (ch : Channel) (x : ℚ) : Channel :=
  { ch with prot_conf := { ch.prot_conf with u_level := x } }

/-- Assignment `channel.prot_conf.u_delay = x`. -/
def set_u_delay (ch : Channel) (x : ℚ) : Channel :=
  { ch with prot_conf := { ch.prot_conf with u_delay := x } }

/-- Assignment `channel.prot_conf.i_delay = x`. -/
def set_i_delay (ch : Channel) (x : ℚ) : Channel :=
  { ch with prot_conf := { ch.prot_conf with i_delay := x } }

/-- Assignment `channel.prot_conf.p_level = x`. -/
def set_p_level (ch : Channel) (x : ℚ) : Channel :=
  { ch with prot_conf := { ch.prot_conf with p_level := x } }

/-- Assignment `channel.prot_conf.p_delay = x`. -/
def set_p_delay (ch : Channel) (x : ℚ) : Channel :=
  { ch with prot_conf := { ch.prot_conf with p_delay := x } }

end Channel

namespace TempSensorTemperature

/-- Assignment `sensor.prot_conf.state = x`. -/
def set_state (t : TempSensorTemperature) (x : Bool) : TempSensorTemperature :=
  { t with prot_conf := { t.prot_conf with state := x } }

/-- Assignment `sensor.prot_conf.level = x`. -/
def set_level (t : TempSensorTemperature) (x : ℚ) : TempSensorTemperature :=
  { t with prot_conf := { t.prot_conf with level := x } }

/-- Assignment `sensor.prot_conf.delay = x`. -/
def set_delay (t : TempSensorTemperature) (x : ℚ) : TempSensorTemperature :=
  { t with prot_conf := { t.prot_conf with delay := x } }

/-- Modelled from the spec: `clearProtection()` of a sensor clears its trip. -/
def clearProtection (t : TempSensorTemperature) : TempSensorTemperature :=
  { t with prot_tripped := false }

end TempSensorTemperature

namespace State

/-- A write to a member of `Channel::get(i)`. -/
def assign (s : State) (i : Nat) (f : Channel → Channel) : State :=
  { s with channels := Function.update s.channels i (f (s.channels i)) }

/-- A write to a member of `temperature::sensors[k]`. -/
def assignSensor (s : State) (k : Nat) (f : TempSensorTemperature → TempSensorTemperature) :
    State :=
  { s with sensors := Function.update s.sensors k (f (s.sensors k)) }

/-- A method call on `Channel::get(i)`: the channel changes as the method says and
the call is recorded. -/
def invoke (s : State) (i : Nat) (c : Call) (f : Channel → Channel) : State :=
  { s with channels := Function.update s.channels i (f (s.channels i)),
           calls := s.calls ++ [c] }

/-- A call of `clearProtection()` on `temperature::sensors[k]`. -/
def invokeSensor (s : State) (k : Nat) : State :=
  { s with sensors := Function.update s.sensors k (s.sensors k).clearProtection,
           calls := s.calls ++ [Call.sensorClearProtection k] }

/-- A call of `bp::switchChannelCoupling(value)`, the topology notifier. -/
def switchChannelCoupling (s : State) (value : CouplingType) : State :=
  { s with calls := s.calls ++ [Call.switchChannelCoupling value] }

/-- A call of the physical `lowRippleEnable` on `Channel::get(i)`, with its result. -/
def invokeLowRippleEnable (s : State) (i : Nat) (enable : Bool) : Bool × State :=
  (((s.channels i).lowRippleEnable enable).1,
   s.invoke i (Call.lowRippleEnable i enable) (fun ch => (ch.lowRippleEnable enable).2))

end State

open CouplingType

/-! ## Reads of `channel_coupling.cpp` -/

/-- Source `getType`. -/
def getType (s : State) : CouplingType := s.g_channelCoupling

/-- Source `getUSet`. -/
def getUSet (s : State) (channel : Nat) : ℚ :=
  if s.g_channelCoupling = TYPE_SERIES then (s.channels 0).u.set + (s.channels 1).u.set
  else (s.channels channel).u.set

/-- Source `getUMon`. -/
def getUMon (s : State) (channel : Nat) : ℚ :=
  if s.g_channelCoupling = TYPE_SERIES then (s.channels 0).u.mon + (s.channels 1).u.mon
  else (s.channels channel).u.mon

/-- Source `getUMonDac`. -/
def getUMonDac (s : State) (channel : Nat) : ℚ :=
  if s.g_channelCoupling = TYPE_SERIES then (s.channels 0).u.mon_dac + (s.channels 1).u.mon_dac
  else (s.channels channel).u.mon_dac

/-- Source `getULimit`. -/
def getULimit (s : State) (channel : Nat) : ℚ :=
  if s.g_channelCoupling = TYPE_SERIES then
    2 * min_ (s.channels 0).getVoltageLimit (s.channels 1).getVoltageLimit
  else (s.channels channel).getVoltageLimit

/-- Source `getUMaxLimit`. -/
def getUMaxLimit (s : State) (channel : Nat) : ℚ :=
  if s.g_channelCoupling = TYPE_SERIES then
    2 * min_ (s.channels 0).getVoltageMaxLimit (s.channels 1).getVoltageMaxLimit
  else (s.channels channel).getVoltageMaxLimit

/-- Source `getUMin`. -/
def getUMin (s : State) (channel : Nat) : ℚ :=
  if s.g_channelCoupling = TYPE_SERIES then 2 * max_ (s.channels 0).u.min (s.channels 1).u.min
  else (s.channels channel).u.min

/-- Source `getUDef`. -/
def getUDef (s : State) (channel : Nat) : ℚ :=
  if s.g_channelCoupling = TYPE_SERIES then (s.channels 0).u.def_ + (s.channels 1).u.def_
  else (s.channels channel).u.def_

/-- Source `getUMax`. -/
def getUMax (s : State) (channel : Nat) : ℚ :=
  if s.g_channelCoupling = TYPE_SERIES then 2 * min_ (s.channels 0).u.max (s.channels 1).u.max
  else (s.channels channel).u.max

/-- Source `getUProtectionLevel`. -/
def getUProtectionLevel (s : State) (channel : Nat) : ℚ :=
  if s.g_channelCoupling = TYPE_SERIES then
    (s.channels 0).prot_conf.u_level + (s.channels 1).prot_conf.u_level
  else (s.channels channel).prot_conf.u_level

/-- Source `getISet`. -/
def getISet (s : State) (channel : Nat) : ℚ :=
  if s.g_channelCoupling = TYPE_PARALLEL then (s.channels 0).i.set + (s.channels 1).i.set
  else (s.channels channel).i.set

/-- Source `getIMon`. -/
def getIMon (s : State) (channel : Nat) : ℚ :=
  if s.g_channelCoupling = TYPE_PARALLEL then (s.channels 0).i.mon + (s.channels 1).i.mon
  else (s.channels channel).i.mon

/-- Source `getIMonDac`. -/
def getIMonDac (s : State) (channel : Nat) : ℚ :=
  if s.g_channelCoupling = TYPE_PARALLEL then
    (s.channels 0).i.mon_dac + (s.channels 1).i.mon_dac
  else (s.channels channel).i.mon_dac

/-- Source `getILimit`. -/
def getILimit (s : State) (channel : Nat) : ℚ :=
  if s.g_channelCoupling = TYPE_PARALLEL then
    2 * min_ (s.channels 0).getCurrentLimit (s.channels 1).getCurrentLimit
  else (s.channels channel).getCurrentLimit

/-- Source `getIMaxLimit`. -/
def getIMaxLimit (s : State) (channel : Nat) : ℚ :=
  if s.g_channelCoupling = TYPE_PARALLEL then
    2 * min_ (s.channels 0).getMaxCurrentLimit (s.channels 1).getMaxCurrentLimit
  else (s.channels channel).getMaxCurrentLimit

/-- Source `getIMin`. -/
def getIMin (s : State) (channel : Nat) : ℚ :=
  if s.g_channelCoupling = TYPE_PARALLEL then 2 * max_ (s.channels 0).i.min (s.channels 1).i.min
  else (s.channels channel).i.min

/-- Source `getIDef`. -/
def getIDef (s : State) (channel : Nat) : ℚ :=
  if s.g_channelCoupling = TYPE_PARALLEL then (s.channels 0).i.def_ + (s.channels 1).i.def_
  else (s.channels channel).i.def_

/-- Source `getIMax`. -/
def getIMax (s : State) (channel : Nat) : ℚ :=
  if s.g_channelCoupling = TYPE_PARALLEL then 2 * min_ (s.channels 0).i.max (s.channels 1).i.max
  else (s.channels channel).i.max

/-- Source `getPowerLimit`. -/
def getPowerLimit (s : State) (channel : Nat) : ℚ :=
  if s.g_channelCoupling ≠ TYPE_NONE then
    2 * min_ (s.channels 0).getPowerLimit (s.channels 1).getPowerLimit
  else (s.channels channel).getPowerLimit

/-- Source `getPowerMinLimit`. -/
def getPowerMinLimit (s : State) (_channel : Nat) : ℚ :=
  if s.g_channelCoupling ≠ TYPE_NONE then 0 else 0

/-- Source `getPowerMaxLimit`. -/
def getPowerMaxLimit (s : State) (channel : Nat) : ℚ :=
  if s.g_channelCoupling ≠ TYPE_NONE then 2 * min_ (s.channels 0).PTOT (s.channels 1).PTOT
  else (s.channels channel).PTOT

/-- Source `getPowerDefaultLimit`. -/
def getPowerDefaultLimit (s : State) (channel : Nat) : ℚ := getPowerMaxLimit s channel

/-- Source `getPowerProtectionLevel`. -/
def getPowerProtectionLevel (s : State) (channel : Nat) : ℚ :=
  if s.g_channelCoupling ≠ TYPE_NONE then
    (s.channels 0).prot_conf.p_level + (s.channels 1).prot_conf.p_level
  else (s.channels channel).prot_conf.p_level

/-- Source `getOppMinLevel`. -/
def getOppMinLevel (s : State) (channel : Nat) : ℚ :=
  if s.g_channelCoupling ≠ TYPE_NONE then
    2 * max_ (s.channels 0).OPP_MIN_LEVEL (s.channels 1).OPP_MIN_LEVEL
  else (s.channels channel).OPP_MIN_LEVEL

/-- Source `getOppMaxLevel`. -/
def getOppMaxLevel (s : State) (channel : Nat) : ℚ :=
  if s.g_channelCoupling ≠ TYPE_NONE then
    2 * min_ (s.channels 0).OPP_MAX_LEVEL (s.channels 1).OPP_MAX_LEVEL
  else (s.channels channel).OPP_MAX_LEVEL

/-- Source `getOppDefaultLevel`. -/
def getOppDefaultLevel (s : State) (channel : Nat) : ℚ :=
  if s.g_channelCoupling ≠ TYPE_NONE then
    (s.channels 0).OPP_DEFAULT_LEVEL + (s.channels 1).OPP_DEFAULT_LEVEL
  else (s.channels channel).OPP_DEFAULT_LEVEL

/-- Source `isLowRippleAllowed`. -/
def isLowRippleAllowed (s : State) (channel : Nat) : Bool :=
  if s.g_channelCoupling ≠ TYPE_NONE then
    (s.channels 0).hasFeature CH_FEATURE_LRIPPLE && (s.channels 1).hasFeature CH_FEATURE_LRIPPLE
  else
    if (s.channels channel).hasFeature CH_FEATURE_LRIPPLE then true else false

/-! ## The mode transition -/

/-- Lines 48 to 57 of `setType`, the first statements of the loop body for
`Channel &channel = Channel::get(i)`: output off, remote programming and low ripple
off where the feature is present, voltage and current to `getUMin` and `getIMin`. -/
def setTypeReset (s : State) (i : Nat) : State :=
  let s := s.invoke i (Call.outputEnable i false) (fun ch => ch.outputEnable false)
  let s := if (s.channels i).hasFeature CH_FEATURE_RPROG then
      s.invoke i (Call.remoteProgrammingEnable i false) (fun ch => ch.remoteProgrammingEnable false)
    else s
  let s := if (s.channels i).hasFeature CH_FEATURE_LRIPPLE then
      (s.invokeLowRippleEnable i false).2
    else s
  let s := s.invoke i (Call.setVoltage i (getUMin s i)) (fun ch => ch.setVoltage (getUMin s i))
  s.invoke i (Call.setCurrent i (getIMin s i)) (fun ch => ch.setCurrent (getIMin s i))

/-- Lines 59 to 61 of `setType`: the three OVP assignments of the loop body, each
reading `Channel::get(0)` and `Channel::get(1)` as they are when it runs. -/
def setTypeMergeOvp (s : State) (i : Nat) : State :=
  let s := s.assign i (fun ch => ch.set_u_state
    (or_ (s.channels 0).prot_conf.flags.u_state (s.channels 1).prot_conf.flags.u_state))
  let s := s.assign i (fun ch => ch.set_u_level
    (min_ (s.channels 0).prot_conf.u_level (s.channels 1).prot_conf.u_level))
  s.assign i (fun ch => ch.set_u_delay
    (min_ (s.channels 0).prot_conf.u_delay (s.channels 1).prot_conf.u_delay))

/-- Lines 63 and 64 of `setType`: the two OCP assignments of the loop body. -/
def setTypeMergeOcp (s : State) (i : Nat) : State :=
  let s := s.assign i (fun ch => ch.set_i_state
    (or_ (s.channels 0).prot_conf.flags.i_state (s.channels 1).prot_conf.flags.i_state))
  s.assign i (fun ch => ch.set_i_delay
    (min_ (s.channels 0).prot_conf.i_delay (s.channels 1).prot_conf.i_delay))

/-- Lines 66 to 68 of `setType`: the three OPP assignments of the loop body. -/
def setTypeMergeOpp (s : State) (i : Nat) : State :=
  let s := s.assign i (fun ch => ch.set_p_state
    (or_ (s.channels 0).prot_conf.flags.p_state (s.channels 1).prot_conf.flags.p_state))
  let s := s.assign i (fun ch => ch.set_p_level
    (min_ (s.channels 0).prot_conf.p_level (s.channels 1).prot_conf.p_level))
  s.assign i (fun ch => ch.set_p_delay
    (min_ (s.channels 0).prot_conf.p_delay (s.channels 1).prot_conf.p_delay))

/-- Lines 70 to 80 of `setType`: the three assignments to
`temperature::sensors[temp_sensor::CH1 + channel.index - 1].prot_conf`. -/
def setTypeMergeOtp (s : State) (i : Nat) : State :=
  let s := s.assignSensor (CH1 + index i - 1) (fun t => t.set_state
    ((s.sensors CH1).prot_conf.state || (s.sensors CH2).prot_conf.state))
  let s := s.assignSensor (CH1 + index i - 1) (fun t => t.set_level
    (min_ (s.sensors CH1).prot_conf.level (s.sensors CH2).prot_conf.level))
  s.assignSensor (CH1 + index i - 1) (fun t => t.set_delay
    (min_ (s.sensors CH1).prot_conf.delay (s.sensors CH2).prot_conf.delay))

/-- The body of the loop of `setType` for `Channel &channel = Channel::get(i)`: its
statements in source order, each reading the state left by the one before. -/
def setTypeChannel (s : State) (i : Nat) : State :=
  let s := setTypeReset s i
  let s := setTypeMergeOvp s i
  let s := setTypeMergeOcp s i
  let s := setTypeMergeOpp s i
  setTypeMergeOtp s i

/-- Source `setType`: the returned flag and the state it leaves. -/
def setType (s : State) (value : CouplingType) : Bool × State :=
  if s.g_channelCoupling ≠ value then
    if s.CH_NUM < 2 then (false, s)
    else if (!(s.channels 0).isOk || !(s.channels 1).isOk) then (false, s)
    else
      let s := { s with g_channelCoupling := value }
      let s := (List.range 2).foldl setTypeChannel s
      let s := s.switchChannelCoupling s.g_channelCoupling
      (true, s)
  else (true, s)

/-! ## Writes of `channel_coupling.cpp` -/

/-- Source `setVoltage`. -/
def setVoltage (s : State) (channel : Nat) (voltage : ℚ) : State :=
  if s.g_channelCoupling = TYPE_SERIES then
    let s := s.invoke 0 (Call.setVoltage 0 (voltage / 2)) (fun ch => ch.setVoltage (voltage / 2))
    s.invoke 1 (Call.setVoltage 1 (voltage / 2)) (fun ch => ch.setVoltage (voltage / 2))
  else if s.g_channelCoupling = TYPE_PARALLEL then
    let s := s.invoke 0 (Call.setVoltage 0 voltage) (fun ch => ch.setVoltage voltage)
    s.invoke 1 (Call.setVoltage 1 voltage) (fun ch => ch.setVoltage voltage)
  else
    s.invoke channel (Call.setVoltage channel voltage) (fun ch => ch.setVoltage voltage)

/-- Source `setVoltageLimit`. -/
def setVoltageLimit (s : State) (channel : Nat) (limit : ℚ) : State :=
  if s.g_channelCoupling = TYPE_SERIES then
    let s := s.invoke 0 (Call.setVoltageLimit 0 (limit / 2))
      (fun ch => ch.setVoltageLimit (limit / 2))
    s.invoke 1 (Call.setVoltageLimit 1 (limit / 2)) (fun ch => ch.setVoltageLimit (limit / 2))
  else if s.g_channelCoupling = TYPE_PARALLEL then
    let s := s.invoke 0 (Call.setVoltageLimit 0 limit) (fun ch => ch.setVoltageLimit limit)
    s.invoke 1 (Call.setVoltageLimit 1 limit) (fun ch => ch.setVoltageLimit limit)
  else
    s.invoke channel (Call.setVoltageLimit channel limit) (fun ch => ch.setVoltageLimit limit)

/-- Source `setOvpParameters`. -/
def setOvpParameters (s : State) (channel : Nat) (state : Int) (level delay : ℚ) : State :=
  if s.g_channelCoupling ≠ TYPE_NONE then
    let s := s.assign 0 (fun ch => ch.set_u_state state)
    let s := s.assign 0 (fun ch => ch.set_u_level (level / 2))
    let s := s.assign 0 (fun ch => ch.set_u_delay delay)
    let s := s.assign 1 (fun ch => ch.set_u_state state)
    let s := s.assign 1 (fun ch => ch.set_u_level (level / 2))
    s.assign 1 (fun ch => ch.set_u_delay delay)
  else
    let s := s.assign channel (fun ch => ch.set_u_state state)
    let s := s.assign channel (fun ch => ch.set_u_level level)
    s.assign channel (fun ch => ch.set_u_delay delay)

/-- Source `setOvpState`. -/
def setOvpState (s : State) (channel : Nat) (state : Int) : State :=
  if s.g_channelCoupling ≠ TYPE_NONE then
    let s := s.assign 0 (fun ch => ch.set_u_state state)
    s.assign 1 (fun ch => ch.set_u_state state)
  else
    s.assign channel (fun ch => ch.set_u_state state)

/-- Source `setOvpLevel`. -/
def setOvpLevel (s : State) (channel : Nat) (level : ℚ) : State :=
  if s.g_channelCoupling ≠ TYPE_NONE then
    let s := s.assign 0 (fun ch => ch.set_u_level (level / 2))
    s.assign 1 (fun ch => ch.set_u_level (level / 2))
  else
    s.assign channel (fun ch => ch.set_u_level level)

/-- Source `setOvpDelay`. -/
def setOvpDelay (s : State) (channel : Nat) (delay : ℚ) : State :=
  if s.g_channelCoupling ≠ TYPE_NONE then
    let s := s.assign 0 (fun ch => ch.set_u_delay delay)
    s.assign 1 (fun ch => ch.set_u_delay delay)
  else
    s.assign channel (fun ch => ch.set_u_delay delay)

/-- Source `setCurrent`. -/
def setCurrent (s : State) (channel : Nat) (current : ℚ) : State :=
  if s.g_channelCoupling = TYPE_PARALLEL then
    let s := s.invoke 0 (Call.setCurrent 0 (current / 2)) (fun ch => ch.setCurrent (current / 2))
    s.invoke 1 (Call.setCurrent 1 (current / 2)) (fun ch => ch.setCurrent (current / 2))
  else if s.g_channelCoupling = TYPE_SERIES then
    let s := s.invoke 0 (Call.setCurrent 0 current) (fun ch => ch.setCurrent current)
    s.invoke 1 (Call.setCurrent 1 current) (fun ch => ch.setCurrent current)
  else
    s.invoke channel (Call.setCurrent channel current) (fun ch => ch.setCurrent current)

/-- Source `setCurrentLimit`. -/
def setCurrentLimit (s : State) (channel : Nat) (limit : ℚ) : State :=
  if s.g_channelCoupling = TYPE_PARALLEL then
    let s := s.invoke 0 (Call.setCurrentLimit 0 (limit / 2))
      (fun ch => ch.setCurrentLimit (limit / 2))
    s.invoke 1 (Call.setCurrentLimit 1 (limit / 2)) (fun ch => ch.setCurrentLimit (limit / 2))
  else if s.g_channelCoupling = TYPE_SERIES then
    let s := s.invoke 0 (Call.setCurrentLimit 0 limit) (fun ch => ch.setCurrentLimit limit)
    s.invoke 1 (Call.setCurrentLimit 1 limit) (fun ch => ch.setCurrentLimit limit)
  else
    s.invoke channel (Call.setCurrentLimit channel limit) (fun ch => ch.setCurrentLimit limit)

/-- Source `setOcpParameters`. -/
def setOcpParameters (s : State) (channel : Nat) (state : Int) (delay : ℚ) : State :=
  if s.g_channelCoupling ≠ TYPE_NONE then
    let s := s.assign 0 (fun ch => ch.set_i_state state)
    let s := s.assign 0 (fun ch => ch.set_i_delay delay)
    let s := s.assign 1 (fun ch => ch.set_i_state state)
    s.assign 1 (fun ch => ch.set_i_delay delay)
  else
    let s := s.assign channel (fun ch => ch.set_i_state state)
    s.assign channel (fun ch => ch.set_i_delay delay)

/-- Source `setOcpState`. -/
def setOcpState (s : State) (channel : Nat) (state : Int) : State :=
  if s.g_channelCoupling ≠ TYPE_NONE then
    let s := s.assign 0 (fun ch => ch.set_i_state state)
    s.assign 1 (fun ch => ch.set_i_state state)
  else
    s.assign channel (fun ch => ch.set_i_state state)

/-- Source `setOcpDelay`. -/
def setOcpDelay (s : State) (channel : Nat) (delay : ℚ) : State :=
  if s.g_channelCoupling ≠ TYPE_NONE then
    let s := s.assign 0 (fun ch => ch.set_i_delay delay)
    s.assign 1 (fun ch => ch.set_i_delay delay)
  else
    s.assign channel (fun ch => ch.set_i_delay delay)

/-- Source `setPowerLimit`. -/
def setPowerLimit (s : State) (channel : Nat) (limit : ℚ) : State :=
  if s.g_channelCoupling ≠ TYPE_NONE then
    let s := s.invoke 0 (Call.setPowerLimit 0 (limit / 2)) (fun ch => ch.setPowerLimit (limit / 2))
    s.invoke 1 (Call.setPowerLimit 1 (limit / 2)) (fun ch => ch.setPowerLimit (limit / 2))
  else
    s.invoke channel (Call.setPowerLimit channel limit) (fun ch => ch.setPowerLimit limit)

/-- Source `setOppParameters`. -/
def setOppParameters (s : State) (channel : Nat) (state : Int) (level delay : ℚ) : State :=
  if s.g_channelCoupling ≠ TYPE_NONE then
    let s := s.assign 0 (fun ch => ch.set_p_state state)
    let s := s.assign 0 (fun ch => ch.set_p_level (level / 2))
    let s := s.assign 0 (fun ch => ch.set_p_delay delay)
    let s := s.assign 1 (fun ch => ch.set_p_state state)
    let s := s.assign 1 (fun ch => ch.set_p_level (level / 2))
    s.assign 1 (fun ch => ch.set_p_delay delay)
  else
    let s := s.assign channel (fun ch => ch.set_p_state state)
    let s := s.assign channel (fun ch => ch.set_p_level level)
    s.assign channel (fun ch => ch.set_p_delay delay)

/-- Source `setOppState`. -/
def setOppState (s : State) (channel : Nat) (state : Int) : State :=
  if s.g_channelCoupling ≠ TYPE_NONE then
    let s := s.assign 0 (fun ch => ch.set_p_state state)
    s.assign 1 (fun ch => ch.set_p_state state)
  else
    s.assign channel (fun ch => ch.set_p_state state)

/-- Source `setOppLevel`. -/
def setOppLevel (s : State) (channel : Nat) (level : ℚ) : State :=
  if s.g_channelCoupling ≠ TYPE_NONE then
    let s := s.assign 0 (fun ch => ch.set_p_level (level / 2))
    s.assign 1 (fun ch => ch.set_p_level (level / 2))
  else
    s.assign channel (fun ch => ch.set_p_level level)

/-- Source `setOppDelay`. -/
def setOppDelay (s : State) (channel : Nat) (delay : ℚ) : State :=
  if s.g_channelCoupling ≠ TYPE_NONE then
    let s := s.assign 0 (fun ch => ch.set_p_delay delay)
    s.assign 1 (fun ch => ch.set_p_delay delay)
  else
    s.assign channel (fun ch => ch.set_p_delay delay)

/-- Source `outputEnable`. -/
def outputEnable (s : State) (channel : Nat) (enable : Bool) : State :=
  if s.g_channelCoupling ≠ TYPE_NONE then
    let s := s.invoke 0 (Call.outputEnable 0 enable) (fun ch => ch.outputEnable enable)
    s.invoke 1 (Call.outputEnable 1 enable) (fun ch => ch.outputEnable enable)
  else
    s.invoke channel (Call.outputEnable channel enable) (fun ch => ch.outputEnable enable)

/-- Source `lowRippleEnable`; the `&&` of C evaluates its right operand only when
the left one is true. -/
def lowRippleEnable (s : State) (channel : Nat) (enable : Bool) : Bool × State :=
  if s.g_channelCoupling ≠ TYPE_NONE then
    let r0 := s.invokeLowRippleEnable 0 enable
    if r0.1 then r0.2.invokeLowRippleEnable 1 enable else (false, r0.2)
  else
    s.invokeLowRippleEnable channel enable

/-- Source `lowRippleAutoEnable`. -/
def lowRippleAutoEnable (s : State) (channel : Nat) (enable : Bool) : State :=
  if s.g_channelCoupling ≠ TYPE_NONE then
    let s := s.invoke 0 (Call.lowRippleAutoEnable 0 enable)
      (fun ch => ch.lowRippleAutoEnable enable)
    s.invoke 1 (Call.lowRippleAutoEnable 1 enable) (fun ch => ch.lowRippleAutoEnable enable)
  else
    s.invoke channel (Call.outputEnable channel enable) (fun ch => ch.outputEnable enable)

/-- Source `clearProtection`. -/
def clearProtection (s : State) (channel : Nat) : State :=
  if s.g_channelCoupling ≠ TYPE_NONE then
    let s := s.invoke 0 (Call.clearProtection 0) (fun ch => ch.clearProtection)
    s.invoke 1 (Call.clearProtection 1) (fun ch => ch.clearProtection)
  else
    s.invoke channel (Call.clearProtection channel) (fun ch => ch.clearProtection)

/-- Source `disableProtection`. -/
def disableProtection (s : State) (channel : Nat) : State :=
  if s.g_channelCoupling ≠ TYPE_NONE then
    let s := s.invoke 0 (Call.disableProtection 0) (fun ch => ch.disableProtection)
    s.invoke 1 (Call.disableProtection 1) (fun ch => ch.disableProtection)
  else
    s.invoke channel (Call.disableProtection channel) (fun ch => ch.disableProtection)

/-- Source `clearOtpProtection`. -/
def clearOtpProtection (s : State) (sensor : Nat) : State :=
  if (sensor = CH1 ∨ sensor = CH2) ∧ s.g_channelCoupling ≠ TYPE_NONE then
    let s := s.invokeSensor CH1
    s.invokeSensor CH2
  else
    s.invokeSensor sensor

/-- Source `setOtpParameters`; `state ? true : false` is `state ≠ 0`. -/
def setOtpParameters (s : State) (channel : Nat) (state : Int) (level delay : ℚ) : State :=
  if s.g_channelCoupling ≠ TYPE_NONE then
    let s := s.assignSensor CH1 (fun t => t.set_state (decide (state ≠ 0)))
    let s := s.assignSensor CH2 (fun t => t.set_state (decide (state ≠ 0)))
    let s := s.assignSensor CH1 (fun t => t.set_level level)
    let s := s.assignSensor CH2 (fun t => t.set_level level)
    let s := s.assignSensor CH1 (fun t => t.set_delay delay)
    s.assignSensor CH2 (fun t => t.set_delay delay)
  else
    let s := s.assignSensor (CH1 + index channel - 1) (fun t => t.set_state (decide (state ≠ 0)))
    let s := s.assignSensor (CH1 + index channel - 1) (fun t => t.set_level level)
    s.assignSensor (CH1 + index channel - 1) (fun t => t.set_delay delay)

/-- Source `setOtpState`. -/
def setOtpState (s : State) (sensor : Nat) (state : Int) : State :=
  if (sensor = CH1 ∨ sensor = CH2) ∧ s.g_channelCoupling ≠ TYPE_NONE then
    let s := s.assignSensor CH1 (fun t => t.set_state (decide (state ≠ 0)))
    s.assignSensor CH2 (fun t => t.set_state (decide (state ≠ 0)))
  else
    s.assignSensor sensor (fun t => t.set_state (decide (state ≠ 0)))

/-- Source `setOtpLevel`. -/
def setOtpLevel (s : State) (sensor : Nat) (level : ℚ) : State :=
  if (sensor = CH1 ∨ sensor = CH2) ∧ s.g_channelCoupling ≠ TYPE_NONE then
    let s := s.assignSensor CH1 (fun t => t.set_level level)
    s.assignSensor CH2 (fun t => t.set_level level)
  else
    s.assignSensor sensor (fun t => t.set_level level)

/-- Source `setOtpDelay`. -/
def setOtpDelay (s : State) (sensor : Nat) (delay : ℚ) : State :=
  if (sensor = CH1 ∨ sensor = CH2) ∧ s.g_channelCoupling ≠ TYPE_NONE then
    let s := s.assignSensor CH1 (fun t => t.set_delay delay)
    s.assignSensor CH2 (fun t => t.set_delay delay)
  else
    s.assignSensor sensor (fun t => t.set_delay delay)

/-! ## Runs of the module -/

/-- A state-changing operation of the module with its arguments. -/
inductive Op where
  | setType (value : CouplingType)
  | setVoltage (channel : Nat) (voltage : ℚ)
  | setVoltageLimit (channel : Nat) (limit : ℚ)
  | setOvpParameters (channel : Nat) (state : Int) (level delay : ℚ)
  | setOvpState (channel : Nat) (state : Int)
  | setOvpLevel (channel : Nat) (level : ℚ)
  | setOvpDelay (channel : Nat) (delay : ℚ)
  | setCurrent (channel : Nat) (current : ℚ)
  | setCurrentLimit (channel : Nat) (limit : ℚ)
  | setOcpParameters (channel : Nat) (state : Int) (delay : ℚ)
  | setOcpState (channel : Nat) (state : Int)
  | setOcpDelay (channel : Nat) (delay : ℚ)
  | setPowerLimit (channel : Nat) (limit : ℚ)
  | setOppParameters (channel : Nat) (state : Int) (level delay : ℚ)
  | setOppState (channel : Nat) (state : Int)
  | setOppLevel (channel : Nat) (level : ℚ)
  | setOppDelay (channel : Nat) (delay : ℚ)
  | outputEnable (channel : Nat) (enable : Bool)
  | lowRippleEnable (channel : Nat) (enable : Bool)
  | lowRippleAutoEnable (channel : Nat) (enable : Bool)
  | clearProtection (channel : Nat)
  | disableProtection (channel : Nat)
  | clearOtpProtection (sensor : Nat)
  | setOtpParameters (channel : Nat) (state : Int) (level delay : ℚ)
  | setOtpState (sensor : Nat) (state : Int)
  | setOtpLevel (sensor : Nat) (level : ℚ)
  | setOtpDelay (sensor : Nat) (delay : ℚ)
  deriving DecidableEq, Repr

/-- The state an operation leaves. -/
def step (s : State) : Op → State
  | .setType value => (setType s value).2
  | .setVoltage c v => setVoltage s c v
  | .setVoltageLimit c l => setVoltageLimit s c l
  | .setOvpParameters c st l d => setOvpParameters s c st l d
  | .setOvpState c st => setOvpState s c st
  | .setOvpLevel c l => setOvpLevel s c l
  | .setOvpDelay c d => setOvpDelay s c d
  | .setCurrent c v => setCurrent s c v
  | .setCurrentLimit c l => setCurrentLimit s c l
  | .setOcpParameters c st d => setOcpParameters s c st d
  | .setOcpState c st => setOcpState s c st
  | .setOcpDelay c d => setOcpDelay s c d
  | .setPowerLimit c l => setPowerLimit s c l
  | .setOppParameters c st l d => setOppParameters s c st l d
  | .setOppState c st => setOppState s c st
  | .setOppLevel c l => setOppLevel s c l
  | .setOppDelay c d => setOppDelay s c d
  | .outputEnable c e => outputEnable s c e
  | .lowRippleEnable c e => (lowRippleEnable s c e).2
  | .lowRippleAutoEnable c e => lowRippleAutoEnable s c e
  | .clearProtection c => clearProtection s c
  | .disableProtection c => disableProtection s c
  | .clearOtpProtection k => clearOtpProtection s k
  | .setOtpParameters c st l d => setOtpParameters s c st l d
  | .setOtpState k st => setOtpState s k st
  | .setOtpLevel k l => setOtpLevel s k l
  | .setOtpDelay k d => setOtpDelay s k d

/-- The state a sequence of operations leaves, first operation first. -/
def run (s : State) (ops : List Op) : State := ops.foldl step s

/-- The states the module can be in: it starts with `g_channelCoupling = TYPE_NONE`
(the static initialiser) and moves by its operations. -/
inductive Reachable : State → Prop where
  | init (s : State) (h : s.g_channelCoupling = TYPE_NONE) : Reachable s
  | step (s : State) (op : Op) (h : Reachable s) : Reachable (step s op)

/-- Whether the operation is the mode transition `setType`. -/
def Op.isSetType : Op → Bool
  | .setType _ => true
  | _ => false

/-! ## The two-phase merge of the specification -/

/-- The protection values of the pair after a merge: state = OR, level = MIN,
delay = MIN, for OVP, OCP, OPP and the pair temperature sensors. -/
structure MergedProtection where
  u_state : Int
  u_level : ℚ
  u_delay : ℚ
  i_state : Int
  i_delay : ℚ
  p_state : Int
  p_level : ℚ
  p_delay : ℚ
  t_state : Bool
  t_level : ℚ
  t_delay : ℚ
  deriving DecidableEq, Repr

/-- First phase of the merge as the specification words it: the merged values are
computed from a snapshot of both channels and both pair sensors, before any write. -/
def mergeSnapshot (s : State) : MergedProtection :=
  let c0 := (s.channels 0).prot_conf
  let c1 := (s.channels 1).prot_conf
  let t1 := (s.sensors CH1).prot_conf
  let t2 := (s.sensors CH2).prot_conf
  { u_state := if c0.flags.u_state ≠ 0 ∨ c1.flags.u_state ≠ 0 then 1 else 0,
    u_level := min c0.u_level c1.u_level,
    u_delay := min c0.u_delay c1.u_delay,
    i_state := if c0.flags.i_state ≠ 0 ∨ c1.flags.i_state ≠ 0 then 1 else 0,
    i_delay := min c0.i_delay c1.i_delay,
    p_state := if c0.flags.p_state ≠ 0 ∨ c1.flags.p_state ≠ 0 then 1 else 0,
    p_level := min c0.p_level c1.p_level,
    p_delay := min c0.p_delay c1.p_delay,
    t_state := t1.state || t2.state,
    t_level := min t1.level t2.level,
    t_delay := min t1.delay t2.delay }

/-- Second phase of the merge as the specification words it: the captured values are
written to channel `i` and to its temperature sensor. -/
def applyMerged (s : State) (m : MergedProtection) (i : Nat) : State :=
  let s := s.assign i (fun ch =>
    { ch with prot_conf :=
      { flags := ⟨m.u_state, m.i_state, m.p_state⟩,
        u_level := m.u_level, u_delay := m.u_delay, i_delay := m.i_delay,
        p_level := m.p_level, p_delay := m.p_delay } })
  s.assignSensor (CH1 + i) (fun t =>
    { t with prot_conf := { state := m.t_state, level := m.t_level, delay := m.t_delay } })

/-- The mode transition with the two-phase merge of the specification: the guards,
the resets (`setTypeReset`) and the notification of `setType`, with the merged
protection values taken from a snapshot of the pre-transition state. -/
def setTypeTwoPhase (s : State) (value : CouplingType) : Bool × State :=
  if s.g_channelCoupling = value then (true, s)
  else if s.CH_NUM < 2 ∨ (s.channels 0).isOk = false ∨ (s.channels 1).isOk = false then
    (false, s)
  else
    let snapshot := mergeSnapshot s
    let s := { s with g_channelCoupling := value }
    let s := applyMerged (setTypeReset s 0) snapshot 0
    let s := applyMerged (setTypeReset s 1) snapshot 1
    (true, s.switchChannelCoupling value)


/-! ## Predicates used in the statements -/

/-- The protection configurations of the pair agree: channel 0 and channel 1 have the
same OVP {state, level, delay}, OCP {state, delay} and OPP {state, level, delay}, and
the sensors CH1 and CH2 have the same {state, level, delay}. -/
def ProtectionSynced (s : State) : Prop :=
  (s.channels 0).prot_conf = (s.channels 1).prot_conf ∧
  (s.sensors CH1).prot_conf = (s.sensors CH2).prot_conf

/-- The effect of a cascaded channel write that took `s` to `t` when channel `c` was
addressed: coupled, channels 0 and 1 both become `coupled` of what they were and no
other channel changes; uncoupled, channel `c` becomes `single` of what it was and no
other channel changes. -/
def WritesPair (s t : State) (c : Nat) (coupled single : Channel → Channel) : Prop :=
  (s.g_channelCoupling ≠ TYPE_NONE →
    t.channels 0 = coupled (s.channels 0) ∧ t.channels 1 = coupled (s.channels 1) ∧
    ∀ j, j ≠ 0 → j ≠ 1 → t.channels j = s.channels j) ∧
  (s.g_channelCoupling = TYPE_NONE →
    t.channels c = single (s.channels c) ∧ ∀ j, j ≠ c → t.channels j = s.channels j)

/-- The channel `Channel::get(i)` as the first statements of the loop body of `setType`
(`setTypeReset`) leave it, in terms of the state `s` at their start. -/
def resetResult (s : State) (i : Nat) : Channel :=
  { s.channels i with
    u := { (s.channels i).u with set := getUMin s i },
    i := { (s.channels i).i with set := getIMin s i },
    output_enabled := false,
    rprog_enabled :=
      if (s.channels i).hasFeature CH_FEATURE_RPROG then false else (s.channels i).rprog_enabled,
    lripple_enabled :=
      if (s.channels i).hasFeature CH_FEATURE_LRIPPLE then false
      else (s.channels i).lripple_enabled }

/-- The calls that the first statements of the loop body of `setType` (`setTypeReset`)
make on `Channel::get(i)`, in order, in terms of the state `s` at their start. -/
def resetCalls (s : State) (i : Nat) : List Call :=
  [Call.outputEnable i false] ++
  (if (s.channels i).hasFeature CH_FEATURE_RPROG then [Call.remoteProgrammingEnable i false]
    else []) ++
  (if (s.channels i).hasFeature CH_FEATURE_LRIPPLE then [Call.lowRippleEnable i false]
    else []) ++
  [Call.setVoltage i (getUMin s i), Call.setCurrent i (getIMin s i)]

/-- The calls of a mode transition to `m` that goes through from state `s`: the reset
calls on channel 0, the reset calls on channel 1, then the notification. -/
def transitionCalls (s : State) (m : CouplingType) : List Call :=
  resetCalls { s with g_channelCoupling := m } 0 ++
  resetCalls { s with g_channelCoupling := m } 1 ++
  [Call.switchChannelCoupling m]

/-- The effect of an OTP write that took `s` to `t` when sensor `k` was addressed: if
`k` is CH1 or CH2 and the mode is not None, both pair sensors become `f` of what they
were and no other sensor changes; otherwise sensor `k` becomes `f` of what it was and
no other sensor changes. No channel changes either way. -/
def WritesSensors (s t : State) (k : Nat)
    (f : TempSensorTemperature → TempSensorTemperature) : Prop :=
  ((k = CH1 ∨ k = CH2) ∧ s.g_channelCoupling ≠ TYPE_NONE →
    t.sensors CH1 = f (s.sensors CH1) ∧ t.sensors CH2 = f (s.sensors CH2) ∧
    ∀ j, j ≠ CH1 → j ≠ CH2 → t.sensors j = s.sensors j) ∧
  (¬ ((k = CH1 ∨ k = CH2) ∧ s.g_channelCoupling ≠ TYPE_NONE) →
    t.sensors k = f (s.sensors k) ∧ ∀ j, j ≠ k → t.sensors j = s.sensors j) ∧
  t.channels = s.channels

/-- The events that the topology notifier has received: the arguments of the calls of
`bp::switchChannelCoupling` among the recorded calls, oldest first. -/
def notifications (calls : List Call) : List CouplingType :=
  calls.filterMap (fun c =>
    match c with
    | Call.switchChannelCoupling value => some value
    | _ => none)

/-- The state at start-up: the static initialiser `g_channelCoupling = TYPE_NONE` of
line 28, the channels and sensors as their owners created them, no call made yet. -/
def initialState (CH_NUM : Nat) (channels : Nat → Channel)
    (sensors : Nat → TempSensorTemperature) : State :=
  { g_channelCoupling := TYPE_NONE, CH_NUM := CH_NUM, channels := channels,
    sensors := sensors, calls := [] }

/-! ## The mode transition, statement by statement -/

/-- The statements of the loop body of `setType` for `Channel &channel = Channel::get(i)`,
lines 48 to 80, in source order, each as the state change it makes: the five statements
of `setTypeReset`, the three OVP, two OCP and three OPP assignments, and the three
assignments to `temperature::sensors[temp_sensor::CH1 + channel.index - 1].prot_conf`. -/
def setTypeBodyStatements (i : Nat) : List (State → State) :=
  [ fun s => s.invoke i (Call.outputEnable i false) (fun ch => ch.outputEnable false),
    fun s => if (s.channels i).hasFeature CH_FEATURE_RPROG then
        s.invoke i (Call.remoteProgrammingEnable i false)
          (fun ch => ch.remoteProgrammingEnable false)
      else s,
    fun s => if (s.channels i).hasFeature CH_FEATURE_LRIPPLE then
        (s.invokeLowRippleEnable i false).2
      else s,
    fun s => s.invoke i (Call.setVoltage i (getUMin s i)) (fun ch => ch.setVoltage (getUMin s i)),
    fun s => s.invoke i (Call.setCurrent i (getIMin s i)) (fun ch => ch.setCurrent (getIMin s i)),
    fun s => s.assign i (fun ch => ch.set_u_state
      (or_ (s.channels 0).prot_conf.flags.u_state (s.channels 1).prot_conf.flags.u_state)),
    fun s => s.assign i (fun ch => ch.set_u_level
      (min_ (s.channels 0).prot_conf.u_level (s.channels 1).prot_conf.u_level)),
    fun s => s.assign i (fun ch => ch.set_u_delay
      (min_ (s.channels 0).prot_conf.u_delay (s.channels 1).prot_conf.u_delay)),
    fun s => s.assign i (fun ch => ch.set_i_state
      (or_ (s.channels 0).prot_conf.flags.i_state (s.channels 1).prot_conf.flags.i_state)),
    fun s => s.assign i (fun ch => ch.set_i_delay
      (min_ (s.channels 0).prot_conf.i_delay (s.channels 1).prot_conf.i_delay)),
    fun s => s.assign i (fun ch => ch.set_p_state
      (or_ (s.channels 0).prot_conf.flags.p_state (s.channels 1).prot_conf.flags.p_state)),
    fun s => s.assign i (fun ch => ch.set_p_level
      (min_ (s.channels 0).prot_conf.p_level (s.channels 1).prot_conf.p_level)),
    fun s => s.assign i (fun ch => ch.set_p_delay
      (min_ (s.channels 0).prot_conf.p_delay (s.channels 1).prot_conf.p_delay)),
    fun s => s.assignSensor (CH1 + index i - 1) (fun t => t.set_state
      ((s.sensors CH1).prot_conf.state || (s.sensors CH2).prot_conf.state)),
    fun s => s.assignSensor (CH1 + index i - 1) (fun t => t.set_level
      (min_ (s.sensors CH1).prot_conf.level (s.sensors CH2).prot_conf.level)),
    fun s => s.assignSensor (CH1 + index i - 1) (fun t => t.set_delay
      (min_ (s.sensors CH1).prot_conf.delay (s.sensors CH2).prot_conf.delay)) ]

/-- The statements of `setType(value)` that come before the notification, once the
guards have passed: the assignment of line 40 and the loop body for channel 0 and for
channel 1. -/
def setTypeWrites (value : CouplingType) : List (State → State) :=
  [fun s => { s with g_channelCoupling := value }] ++
  setTypeBodyStatements 0 ++ setTypeBodyStatements 1

/-- The statements that `setType(value)` executes once the guards have passed, in
source order: `setTypeWrites`, then `bp::switchChannelCoupling(g_channelCoupling)` of
line 88. -/
def setTypeStatements (value : CouplingType) : List (State → State) :=
  setTypeWrites value ++ [fun s => s.switchChannelCoupling s.g_channelCoupling]

/-- The state a list of statements leaves when they run in order. -/
def runStatements (s : State) (fs : List (State → State)) : State :=
  fs.foldl (fun st f => f st) s

/-- The states a list of statements passes through when they run in order: the start
state and the state after each statement. These are the states an observer placed
between two statements sees. -/
def statesThrough (s : State) : List (State → State) → List State
  | [] => [s]
  | f :: fs => s :: statesThrough (f s) fs

/-- The states that a call of `setType(value)` passes through: the pre-state alone when
the requested mode is in force or a guard refuses, and otherwise the states through
`setTypeStatements`. -/
def setTypeStates (s : State) (value : CouplingType) : List State :=
  if s.g_channelCoupling ≠ value then
    if s.CH_NUM < 2 then [s]
    else if (!(s.channels 0).isOk || !(s.channels 1).isOk) then [s]
    else statesThrough s (setTypeStatements value)
  else [s]

/-! ## Concrete states -/

/-- A healthy channel with both optional features, OVP {on, 20, 1}. -/
def exampleChannel0 : Channel :=
  { u := { set := 10, mon := 10, mon_dac := 10, min := 0, max := 40, def_ := 0 },
    i := { set := 1, mon := 1, mon_dac := 1, min := 0, max := 5, def_ := 0 },
    u_limit := 40, u_max_limit := 40, i_limit := 5, i_max_limit := 5, p_limit := 155,
    PTOT := 155, OPP_MIN_LEVEL := 0, OPP_MAX_LEVEL := 155, OPP_DEFAULT_LEVEL := 155,
    prot_conf := { flags := { u_state := 1, i_state := 0, p_state := 1 },
                   u_level := 20, u_delay := 1, i_delay := 3, p_level := 100, p_delay := 10 },
    features := 192, ok := true, output_enabled := true, rprog_enabled := true,
    lripple_enabled := true, lripple_auto_enabled := false, prot_tripped := false }

/-- A healthy channel of a smaller rating without the optional features,
OVP {off, 15, 2}. -/
def exampleChannel1 : Channel :=
  { u := { set := 12, mon := 11, mon_dac := 13, min := 1, max := 30, def_ := 2 },
    i := { set := 2, mon := 3, mon_dac := 4, min := 1 / 10, max := 3, def_ := 1 },
    u_limit := 30, u_max_limit := 35, i_limit := 2, i_max_limit := 3, p_limit := 80,
    PTOT := 90, OPP_MIN_LEVEL := 1, OPP_MAX_LEVEL := 90, OPP_DEFAULT_LEVEL := 80,
    prot_conf := { flags := { u_state := 0, i_state := 1, p_state := 0 },
                   u_level := 15, u_delay := 2, i_delay := 1, p_level := 70, p_delay := 20 },
    features := 0, ok := true, output_enabled := true, rprog_enabled := false,
    lripple_enabled := false, lripple_auto_enabled := false, prot_tripped := false }

/-- A two-channel system in the given mode with `exampleChannel0` as channel 0 and
`exampleChannel1` as every other entry of the channel table. -/
def exampleState (mode : CouplingType) : State :=
  { g_channelCoupling := mode, CH_NUM := 2,
    channels := fun i => if i = 0 then exampleChannel0 else exampleChannel1,
    sensors := fun k => if k = 1 then ⟨⟨true, 70, 10⟩, false⟩ else ⟨⟨false, 60, 30⟩, false⟩,
    calls := [] }

/-- The state `exampleState mode` with channel 1 reporting unhealthy. -/
def unhealthyState (mode : CouplingType) : State :=
  { exampleState mode with
    channels := fun i => if i = 0 then exampleChannel0 else { exampleChannel1 with ok := false } }

/-- The example pair right after a transition from None to Series, no setter called. -/
def seriesCoupledExample : State := run (setType (exampleState TYPE_NONE) TYPE_SERIES).2 []

/-- The example pair right after a transition from None to Parallel, no setter called. -/
def parallelCoupledExample : State :=
  run (setType (exampleState TYPE_NONE) TYPE_PARALLEL).2 []

/-- A two-channel system in the given mode whose channel 0 lacks the low-ripple
feature (`exampleChannel1`) while every other entry of the channel table has it and
has low ripple switched on (`exampleChannel0`). -/
def swappedState (mode : CouplingType) : State :=
  { exampleState mode with
    channels := fun i => if i = 0 then exampleChannel1 else exampleChannel0 }
/-! ## Basic facts -/

theorem min__eq_min (a b : ℚ) : min_ a b = min a b := by
  unfold min_
  split_ifs with h
  · exact (min_eq_left h.le).symm
  · exact (min_eq_right (not_lt.mp h)).symm

theorem max__eq_max (a b : ℚ) : max_ a b = max a b := by
  unfold max_
  split_ifs with h
  · exact (max_eq_left h.le).symm
  · exact (max_eq_right (not_lt.mp h)).symm

theorem or__absorb (a b : Int) : or_ (or_ a b) b = or_ a b := by
  unfold or_
  by_cases ha : a = 0 <;> by_cases hb : b = 0 <;> simp [ha, hb]

theorem range_two : List.range 2 = [0, 1] := rfl

@[simp]
theorem State.assign_channels (s : State) (i : Nat) (f : Channel → Channel) :
    (s.assign i f).channels = Function.update s.channels i (f (s.channels i)) := rfl

@[simp]
theorem State.assign_sensors (s : State) (i : Nat) (f : Channel → Channel) :
    (s.assign i f).sensors = s.sensors := rfl

@[simp]
theorem State.assign_calls (s : State) (i : Nat) (f : Channel → Channel) :
    (s.assign i f).calls = s.calls := rfl

@[simp]
theorem State.assign_coupling (s : State) (i : Nat) (f : Channel → Channel) :
    (s.assign i f).g_channelCoupling = s.g_channelCoupling := rfl

@[simp]
theorem State.assign_CH_NUM (s : State) (i : Nat) (f : Channel → Channel) :
    (s.assign i f).CH_NUM = s.CH_NUM := rfl

theorem State.ext_fields {s t : State} (h1 : s.g_channelCoupling = t.g_channelCoupling)
    (h2 : s.CH_NUM = t.CH_NUM) (h3 : s.channels = t.channels) (h4 : s.sensors = t.sensors)
    (h5 : s.calls = t.calls) : s = t := by
  cases s; cases t; simp_all

@[simp]
theorem State.assignSensor_channels (s : State) (k : Nat)
    (f : TempSensorTemperature → TempSensorTemperature) :
    (s.assignSensor k f).channels = s.channels := rfl

@[simp]
theorem State.assignSensor_sensors (s : State) (k : Nat)
    (f : TempSensorTemperature → TempSensorTemperature) :
    (s.assignSensor k f).sensors = Function.update s.sensors k (f (s.sensors k)) := rfl

@[simp]
theorem State.assignSensor_calls (s : State) (k : Nat)
    (f : TempSensorTemperature → TempSensorTemperature) :
    (s.assignSensor k f).calls = s.calls := rfl

@[simp]
theorem State.assignSensor_coupling (s : State) (k : Nat)
    (f : TempSensorTemperature → TempSensorTemperature) :
    (s.assignSensor k f).g_channelCoupling = s.g_channelCoupling := rfl

@[simp]
theorem State.assignSensor_CH_NUM (s : State) (k : Nat)
    (f : TempSensorTemperature → TempSensorTemperature) :
    (s.assignSensor k f).CH_NUM = s.CH_NUM := rfl

@[simp]
theorem State.invoke_channels (s : State) (i : Nat) (c : Call) (f : Channel → Channel) :
    (s.invoke i c f).channels = Function.update s.channels i (f (s.channels i)) := rfl

@[simp]
theorem State.invoke_sensors (s : State) (i : Nat) (c : Call) (f : Channel → Channel) :
    (s.invoke i c f).sensors = s.sensors := rfl

@[simp]
theorem State.invoke_calls (s : State) (i : Nat) (c : Call) (f : Channel → Channel) :
    (s.invoke i c f).calls = s.calls ++ [c] := rfl

@[simp]
theorem State.invoke_coupling (s : State) (i : Nat) (c : Call) (f : Channel → Channel) :
    (s.invoke i c f).g_channelCoupling = s.g_channelCoupling := rfl

@[simp]
theorem State.invoke_CH_NUM (s : State) (i : Nat) (c : Call) (f : Channel → Channel) :
    (s.invoke i c f).CH_NUM = s.CH_NUM := rfl

@[simp]
theorem State.invokeSensor_channels (s : State) (k : Nat) :
    (s.invokeSensor k).channels = s.channels := rfl

@[simp]
theorem State.invokeSensor_sensors (s : State) (k : Nat) :
    (s.invokeSensor k).sensors = Function.update s.sensors k (s.sensors k).clearProtection := rfl

@[simp]
theorem State.invokeSensor_calls (s : State) (k : Nat) :
    (s.invokeSensor k).calls = s.calls ++ [Call.sensorClearProtection k] := rfl

@[simp]
theorem State.invokeSensor_coupling (s : State) (k : Nat) :
    (s.invokeSensor k).g_channelCoupling = s.g_channelCoupling := rfl

@[simp]
theorem State.invokeSensor_CH_NUM (s : State) (k : Nat) :
    (s.invokeSensor k).CH_NUM = s.CH_NUM := rfl

@[simp]
theorem State.invokeLowRippleEnable_snd (s : State) (i : Nat) (e : Bool) :
    (s.invokeLowRippleEnable i e).2 =
      s.invoke i (Call.lowRippleEnable i e) (fun ch => (ch.lowRippleEnable e).2) := rfl

@[simp]
theorem State.invokeLowRippleEnable_fst (s : State) (i : Nat) (e : Bool) :
    (s.invokeLowRippleEnable i e).1 = ((s.channels i).lowRippleEnable e).1 := rfl

/-- The physical methods used by the reset leave `prot_conf` alone. -/
theorem Channel.lowRippleEnable_prot_conf (ch : Channel) (e : Bool) :
    (ch.lowRippleEnable e).2.prot_conf = ch.prot_conf := by
  unfold Channel.lowRippleEnable
  split_ifs <;> rfl

/-- Reading a channel of a table in which entry `i` was replaced by a channel with
the same protection configuration. -/
theorem prot_conf_update (g : Nat → Channel) (i j : Nat) (c : Channel)
    (h : c.prot_conf = (g i).prot_conf) :
    (Function.update g i c j).prot_conf = (g j).prot_conf := by
  by_cases hj : j = i
  · subst hj
    simp [h]
  · simp [Function.update_noteq hj]

theorem setTypeReset_sensors (s : State) (i : Nat) : (setTypeReset s i).sensors = s.sensors := by
  unfold setTypeReset
  simp only [State.invoke_sensors, State.invokeLowRippleEnable_snd]
  split_ifs <;> simp

theorem setTypeReset_coupling (s : State) (i : Nat) :
    (setTypeReset s i).g_channelCoupling = s.g_channelCoupling := by
  unfold setTypeReset
  simp only [State.invoke_coupling, State.invokeLowRippleEnable_snd]
  split_ifs <;> simp

theorem setTypeReset_CH_NUM (s : State) (i : Nat) : (setTypeReset s i).CH_NUM = s.CH_NUM := by
  unfold setTypeReset
  simp only [State.invoke_CH_NUM, State.invokeLowRippleEnable_snd]
  split_ifs <;> simp

theorem setTypeReset_channels_ne (s : State) (i j : Nat) (h : j ≠ i) :
    (setTypeReset s i).channels j = s.channels j := by
  unfold setTypeReset
  simp only [State.invoke_channels, State.invokeLowRippleEnable_snd]
  split_ifs <;> simp [Function.update_noteq h]

theorem setTypeReset_prot_conf (s : State) (i j : Nat) :
    ((setTypeReset s i).channels j).prot_conf = (s.channels j).prot_conf := by
  by_cases h : j = i
  · subst h
    unfold setTypeReset
    simp only [State.invoke_channels, State.invokeLowRippleEnable_snd]
    split_ifs <;> simp [Channel.setCurrent, Channel.setVoltage, Channel.outputEnable,
      Channel.remoteProgrammingEnable, Channel.lowRippleEnable_prot_conf]
  · rw [setTypeReset_channels_ne s i j h]

theorem sensor_index (i : Nat) : CH1 + index i - 1 = CH1 + i := by
  simp [index]

/-- One pass of the loop body is a two-phase merge from the state at its start. -/
theorem setTypeChannel_eq (s : State) (i : Nat) :
    setTypeChannel s i = applyMerged (setTypeReset s i) (mergeSnapshot s) i := by
  have hp : ∀ j, ((setTypeReset s i).channels j).prot_conf = (s.channels j).prot_conf :=
    setTypeReset_prot_conf s i
  have hs : (setTypeReset s i).sensors = s.sensors := setTypeReset_sensors s i
  unfold setTypeChannel applyMerged setTypeMergeOtp setTypeMergeOpp setTypeMergeOcp
    setTypeMergeOvp
  generalize setTypeReset s i = r at hp hs ⊢
  simp only [sensor_index]
  apply State.ext_fields
  · simp
  · simp
  · simp only [State.assign_channels, State.assignSensor_channels]
    by_cases h0 : i = 0
    · subst h0
      simp [Channel.set_u_state, Channel.set_u_level, Channel.set_u_delay, Channel.set_i_state,
        Channel.set_i_delay, Channel.set_p_state, Channel.set_p_level, Channel.set_p_delay,
        hp, mergeSnapshot, min__eq_min, or_]
    · by_cases h1 : i = 1
      · subst h1
        simp [Channel.set_u_state, Channel.set_u_level, Channel.set_u_delay, Channel.set_i_state,
          Channel.set_i_delay, Channel.set_p_state, Channel.set_p_level, Channel.set_p_delay,
          hp, mergeSnapshot, min__eq_min, or_]
      · simp [Channel.set_u_state, Channel.set_u_level, Channel.set_u_delay, Channel.set_i_state,
          Channel.set_i_delay, Channel.set_p_state, Channel.set_p_level, Channel.set_p_delay,
          hp, mergeSnapshot, min__eq_min, or_,
          Function.update_noteq (Ne.symm h0), Function.update_noteq (Ne.symm h1)]
  · simp only [State.assign_sensors, State.assignSensor_sensors]
    by_cases h0 : i = 0
    · subst h0
      simp [TempSensorTemperature.set_state, TempSensorTemperature.set_level,
        TempSensorTemperature.set_delay, hs, mergeSnapshot, min__eq_min, CH1, CH2]
    · by_cases h1 : i = 1
      · subst h1
        simp [TempSensorTemperature.set_state, TempSensorTemperature.set_level,
          TempSensorTemperature.set_delay, hs, mergeSnapshot, min__eq_min, CH1, CH2]
      · have e1 : CH1 ≠ CH1 + i := by simp [CH1]; omega
        have e2 : CH2 ≠ CH1 + i := by simp [CH1, CH2]; omega
        simp [TempSensorTemperature.set_state, TempSensorTemperature.set_level,
          TempSensorTemperature.set_delay, hs, mergeSnapshot, min__eq_min,
          Function.update_noteq e1, Function.update_noteq e2]
  · simp

theorem applyMerged_coupling (s : State) (m : MergedProtection) (i : Nat) :
    (applyMerged s m i).g_channelCoupling = s.g_channelCoupling := rfl

theorem applyMerged_CH_NUM (s : State) (m : MergedProtection) (i : Nat) :
    (applyMerged s m i).CH_NUM = s.CH_NUM := rfl

theorem applyMerged_calls (s : State) (m : MergedProtection) (i : Nat) :
    (applyMerged s m i).calls = s.calls := rfl

theorem applyMerged_channels (s : State) (m : MergedProtection) (i : Nat) :
    (applyMerged s m i).channels = Function.update s.channels i
      { s.channels i with prot_conf :=
        { flags := ⟨m.u_state, m.i_state, m.p_state⟩,
          u_level := m.u_level, u_delay := m.u_delay, i_delay := m.i_delay,
          p_level := m.p_level, p_delay := m.p_delay } } := rfl

theorem applyMerged_sensors (s : State) (m : MergedProtection) (i : Nat) :
    (applyMerged s m i).sensors = Function.update s.sensors (CH1 + i)
      { s.sensors (CH1 + i) with
        prot_conf := { state := m.t_state, level := m.t_level, delay := m.t_delay } } := rfl

/-- The merge is absorbing: once channel 0 and sensor CH1 hold the merged values, a
second merge of the pair computes the same values. -/
theorem mergeSnapshot_after_first (s : State) :
    mergeSnapshot (applyMerged (setTypeReset s 0) (mergeSnapshot s) 0) = mergeSnapshot s := by
  have hp : ∀ j, ((setTypeReset s 0).channels j).prot_conf = (s.channels j).prot_conf :=
    setTypeReset_prot_conf s 0
  have hs : (setTypeReset s 0).sensors = s.sensors := setTypeReset_sensors s 0
  unfold mergeSnapshot
  simp only [applyMerged_channels, applyMerged_sensors, hs]
  simp [hp, CH1, CH2]
  refine ⟨?_, ?_, ?_⟩ <;> split_ifs <;> tauto

theorem mergeSnapshot_coupling (s : State) (m : CouplingType) :
    mergeSnapshot { s with g_channelCoupling := m } = mergeSnapshot s := rfl

/-- The interleaved loop of `setType` computes exactly the two-phase merge. -/
theorem setType_eq_twoPhase (s : State) (m : CouplingType) :
    setType s m = setTypeTwoPhase s m := by
  unfold setType setTypeTwoPhase
  by_cases hm : s.g_channelCoupling = m
  · simp [hm]
  · by_cases hn : s.CH_NUM < 2
    · simp [hm, hn]
    · by_cases h0 : (s.channels 0).isOk = true <;> by_cases h1 : (s.channels 1).isOk = true
      · have key : (List.range 2).foldl setTypeChannel { s with g_channelCoupling := m } =
            applyMerged (setTypeReset (applyMerged (setTypeReset
              { s with g_channelCoupling := m } 0) (mergeSnapshot s) 0) 1) (mergeSnapshot s) 1 := by
          rw [range_two]
          simp only [List.foldl]
          rw [setTypeChannel_eq, setTypeChannel_eq, mergeSnapshot_after_first]
          rfl
        simp [hm, hn, h0, h1, key, applyMerged_coupling, setTypeReset_coupling]
      all_goals simp [hm, hn, h0, h1]

/-- The state left by a mode transition that goes through. -/
theorem setType_success (s : State) (m : CouplingType) (hm : s.g_channelCoupling ≠ m)
    (hn : 2 ≤ s.CH_NUM) (h0 : (s.channels 0).isOk = true) (h1 : (s.channels 1).isOk = true) :
    setType s m = (true, (applyMerged (setTypeReset (applyMerged (setTypeReset
      { s with g_channelCoupling := m } 0) (mergeSnapshot s) 0) 1)
      (mergeSnapshot s) 1).switchChannelCoupling m) := by
  rw [setType_eq_twoPhase]
  unfold setTypeTwoPhase
  have hn2 : ¬ s.CH_NUM < 2 := by omega
  simp [hm, hn2, h0, h1]

theorem setType_success_coupling (s : State) (m : CouplingType) (hm : s.g_channelCoupling ≠ m)
    (hn : 2 ≤ s.CH_NUM) (h0 : (s.channels 0).isOk = true) (h1 : (s.channels 1).isOk = true) :
    (setType s m).2.g_channelCoupling = m := by
  rw [setType_success s m hm hn h0 h1]
  simp [State.switchChannelCoupling, applyMerged_coupling, setTypeReset_coupling]

/-- The protection configuration of channel 0 and of channel 1 after a mode
transition that goes through. -/
theorem setType_success_prot_conf (s : State) (m : CouplingType) (hm : s.g_channelCoupling ≠ m)
    (hn : 2 ≤ s.CH_NUM) (h0 : (s.channels 0).isOk = true) (h1 : (s.channels 1).isOk = true)
    (k : Nat) (hk : k = 0 ∨ k = 1) :
    ((setType s m).2.channels k).prot_conf =
      { flags := ⟨(mergeSnapshot s).u_state, (mergeSnapshot s).i_state, (mergeSnapshot s).p_state⟩,
        u_level := (mergeSnapshot s).u_level, u_delay := (mergeSnapshot s).u_delay,
        i_delay := (mergeSnapshot s).i_delay, p_level := (mergeSnapshot s).p_level,
        p_delay := (mergeSnapshot s).p_delay } := by
  rw [setType_success s m hm hn h0 h1]
  rcases hk with rfl | rfl
  · simp only [State.switchChannelCoupling, applyMerged_channels]
    rw [Function.update_noteq (by decide), setTypeReset_channels_ne _ 1 0 (by decide)]
    simp [applyMerged_channels]
  · simp [State.switchChannelCoupling, applyMerged_channels]

/-- The protection entries of the sensors CH1 and CH2 after a mode transition that
goes through. -/
theorem setType_success_sensors (s : State) (m : CouplingType) (hm : s.g_channelCoupling ≠ m)
    (hn : 2 ≤ s.CH_NUM) (h0 : (s.channels 0).isOk = true) (h1 : (s.channels 1).isOk = true)
    (k : Nat) (hk : k = CH1 ∨ k = CH2) :
    ((setType s m).2.sensors k).prot_conf =
      { state := (mergeSnapshot s).t_state, level := (mergeSnapshot s).t_level,
        delay := (mergeSnapshot s).t_delay } := by
  rw [setType_success s m hm hn h0 h1]
  rcases hk with rfl | rfl
  · simp [State.switchChannelCoupling, applyMerged_sensors, setTypeReset_sensors, CH1]
  · simp [State.switchChannelCoupling, applyMerged_sensors, setTypeReset_sensors, CH1, CH2]

/-! ## C1: the merge of the protection configuration on a mode transition -/

/-- C1: when the requested mode differs from the current one, at least two channels
exist and channels 0 and 1 are healthy, `setType` is exactly the two-phase transition
that merges from a snapshot of the pre-state, and afterwards each of channel 0 and
channel 1 has `u_state`, `i_state`, `p_state` equal to the logical OR of the two
pre-transition flags and `u_level`, `u_delay`, `i_delay`, `p_level`, `p_delay` equal
to the minimum of the two pre-transition values. -/
theorem setType_merge_is_snapshot_merge (s : State) (m : CouplingType)
    (hm : s.g_channelCoupling ≠ m) (hn : 2 ≤ s.CH_NUM)
    (h0 : (s.channels 0).isOk = true) (h1 : (s.channels 1).isOk = true) :
    setType s m = setTypeTwoPhase s m ∧ (setType s m).1 = true ∧
    ∀ k, k = 0 ∨ k = 1 →
      ((setType s m).2.channels k).prot_conf.flags.u_state =
        (if (s.channels 0).prot_conf.flags.u_state ≠ 0 ∨ (s.channels 1).prot_conf.flags.u_state ≠ 0
          then 1 else 0) ∧
      ((setType s m).2.channels k).prot_conf.flags.i_state =
        (if (s.channels 0).prot_conf.flags.i_state ≠ 0 ∨ (s.channels 1).prot_conf.flags.i_state ≠ 0
          then 1 else 0) ∧
      ((setType s m).2.channels k).prot_conf.flags.p_state =
        (if (s.channels 0).prot_conf.flags.p_state ≠ 0 ∨ (s.channels 1).prot_conf.flags.p_state ≠ 0
          then 1 else 0) ∧
      ((setType s m).2.channels k).prot_conf.u_level =
        min (s.channels 0).prot_conf.u_level (s.channels 1).prot_conf.u_level ∧
      ((setType s m).2.channels k).prot_conf.u_delay =
        min (s.channels 0).prot_conf.u_delay (s.channels 1).prot_conf.u_delay ∧
      ((setType s m).2.channels k).prot_conf.i_delay =
        min (s.channels 0).prot_conf.i_delay (s.channels 1).prot_conf.i_delay ∧
      ((setType s m).2.channels k).prot_conf.p_level =
        min (s.channels 0).prot_conf.p_level (s.channels 1).prot_conf.p_level ∧
      ((setType s m).2.channels k).prot_conf.p_delay =
        min (s.channels 0).prot_conf.p_delay (s.channels 1).prot_conf.p_delay := by
  refine ⟨setType_eq_twoPhase s m, ?_, ?_⟩
  · rw [setType_success s m hm hn h0 h1]
  · intro k hk
    rw [setType_success_prot_conf s m hm hn h0 h1 k hk]
    simp [mergeSnapshot]

/-- C1 at the scenario of the specification: channel 0 with OVP {on, 20, 1} and
channel 1 with OVP {off, 15, 2} are coupled in series; both end with OVP {on, 15, 1}. -/
theorem setType_merge_is_snapshot_merge_witness :
    (exampleState TYPE_NONE).g_channelCoupling ≠ TYPE_SERIES ∧
    2 ≤ (exampleState TYPE_NONE).CH_NUM ∧
    (∀ k, k = 0 ∨ k = 1 →
      ((setType (exampleState TYPE_NONE) TYPE_SERIES).2.channels k).prot_conf.flags.u_state = 1 ∧
      ((setType (exampleState TYPE_NONE) TYPE_SERIES).2.channels k).prot_conf.u_level = 15 ∧
      ((setType (exampleState TYPE_NONE) TYPE_SERIES).2.channels k).prot_conf.u_delay = 1) := by
  refine ⟨by decide, by decide, ?_⟩
  intro k hk
  have h := (setType_merge_is_snapshot_merge (exampleState TYPE_NONE) TYPE_SERIES
    (by decide) (by decide) rfl rfl).2.2 k hk
  refine ⟨?_, ?_, ?_⟩
  · rw [h.1]
    norm_num [exampleState, exampleChannel0, exampleChannel1]
  · rw [h.2.2.2.1]
    norm_num [exampleState, exampleChannel0, exampleChannel1]
  · rw [h.2.2.2.2.1]
    norm_num [exampleState, exampleChannel0, exampleChannel1]

/-! ## C2: when the mode transition fails -/

/-- C2: `setType` returns false exactly when the requested mode differs from the
current one and fewer than two channels exist or channel 0 or channel 1 is not
healthy; whenever it returns false the whole state (mode, channels, sensor entries,
recorded calls and with them the notifier) is the pre-state. -/
theorem setType_false_iff_and_unchanged (s : State) (m : CouplingType) :
    ((setType s m).1 = false ↔
      (s.g_channelCoupling ≠ m ∧
        (s.CH_NUM < 2 ∨ (s.channels 0).isOk = false ∨ (s.channels 1).isOk = false))) ∧
    ((setType s m).1 = false → (setType s m).2 = s) := by
  unfold setType
  by_cases hm : s.g_channelCoupling = m
  · simp [hm]
  · by_cases hn : s.CH_NUM < 2
    · simp [hm, hn]
    · by_cases h0 : (s.channels 0).isOk = true <;> by_cases h1 : (s.channels 1).isOk = true <;>
        simp [hm, hn, h0, h1]

/-- C2 at a request to go back to None from Series while channel 1 is unhealthy: the
call returns false and the state is the pre-state. -/
theorem setType_false_iff_and_unchanged_witness :
    (setType (unhealthyState TYPE_SERIES) TYPE_NONE).1 = false ∧
    (setType (unhealthyState TYPE_SERIES) TYPE_NONE).2 = unhealthyState TYPE_SERIES := by
  have hf : (setType (unhealthyState TYPE_SERIES) TYPE_NONE).1 = false :=
    (setType_false_iff_and_unchanged (unhealthyState TYPE_SERIES) TYPE_NONE).1.2
      ⟨by decide, Or.inr (Or.inr rfl)⟩
  exact ⟨hf, (setType_false_iff_and_unchanged (unhealthyState TYPE_SERIES) TYPE_NONE).2 hf⟩

/-! ## C3: dispatch of the set-point writes -/

/-- C3: `setVoltage(c, x)` calls the physical `setVoltage(x / 2)` on channel 0 and on
channel 1 in Series, `setVoltage(x)` on both in Parallel, and `setVoltage(x)` on the
addressed channel alone in None, every other channel staying as it was;
`setCurrent(c, x)` mirrors it: `x / 2` to both in Parallel, `x` to both in Series,
`x` to the addressed channel alone in None. -/
theorem setVoltage_setCurrent_dispatch (s : State) (c : Nat) (x : ℚ) :
    (s.g_channelCoupling = TYPE_SERIES →
      (setVoltage s c x).channels 0 = (s.channels 0).setVoltage (x / 2) ∧
      (setVoltage s c x).channels 1 = (s.channels 1).setVoltage (x / 2) ∧
      (setVoltage s c x).calls =
        s.calls ++ [Call.setVoltage 0 (x / 2), Call.setVoltage 1 (x / 2)] ∧
      (setCurrent s c x).channels 0 = (s.channels 0).setCurrent x ∧
      (setCurrent s c x).channels 1 = (s.channels 1).setCurrent x ∧
      (setCurrent s c x).calls = s.calls ++ [Call.setCurrent 0 x, Call.setCurrent 1 x]) ∧
    (s.g_channelCoupling = TYPE_PARALLEL →
      (setVoltage s c x).channels 0 = (s.channels 0).setVoltage x ∧
      (setVoltage s c x).channels 1 = (s.channels 1).setVoltage x ∧
      (setVoltage s c x).calls = s.calls ++ [Call.setVoltage 0 x, Call.setVoltage 1 x] ∧
      (setCurrent s c x).channels 0 = (s.channels 0).setCurrent (x / 2) ∧
      (setCurrent s c x).channels 1 = (s.channels 1).setCurrent (x / 2) ∧
      (setCurrent s c x).calls =
        s.calls ++ [Call.setCurrent 0 (x / 2), Call.setCurrent 1 (x / 2)]) ∧
    (s.g_channelCoupling = TYPE_NONE →
      (setVoltage s c x).channels c = (s.channels c).setVoltage x ∧
      (∀ j, j ≠ c → (setVoltage s c x).channels j = s.channels j) ∧
      (setVoltage s c x).calls = s.calls ++ [Call.setVoltage c x] ∧
      (setCurrent s c x).channels c = (s.channels c).setCurrent x ∧
      (∀ j, j ≠ c → (setCurrent s c x).channels j = s.channels j) ∧
      (setCurrent s c x).calls = s.calls ++ [Call.setCurrent c x]) := by
  refine ⟨?_, ?_, ?_⟩
  · intro h
    simp [setVoltage, setCurrent, h]
  · intro h
    simp [setVoltage, setCurrent, h]
  · intro h
    simp only [setVoltage, setCurrent, h]
    refine ⟨by simp, ?_, by simp, by simp, ?_, by simp⟩
    · intro j hj
      simp [Function.update_noteq hj]
    · intro j hj
      simp [Function.update_noteq hj]

/-- C3 in Series on the example pair: a voltage of 10 addressed to channel 1 reaches
both channels as 5, and a current of 2 reaches both unhalved. -/
theorem setVoltage_setCurrent_dispatch_witness :
    (setVoltage (exampleState TYPE_SERIES) 1 10).calls =
      [Call.setVoltage 0 (10 / 2), Call.setVoltage 1 (10 / 2)] ∧
    (setCurrent (exampleState TYPE_SERIES) 1 2).calls =
      [Call.setCurrent 0 2, Call.setCurrent 1 2] := by
  have h := (setVoltage_setCurrent_dispatch (exampleState TYPE_SERIES) 1 10).1 rfl
  have h2 := (setVoltage_setCurrent_dispatch (exampleState TYPE_SERIES) 1 2).1 rfl
  exact ⟨by simpa [exampleState] using h.2.2.1, by simpa [exampleState] using h2.2.2.2.2.2⟩

/-! ## C4: writing a set point and reading it back -/

/-- C4: in every mode and for each channel `c` of the pair, with exact arithmetic and
a physical channel that stores the set point it is given, `setVoltage(c, x)`
followed by `getUSet(c)` returns `x`, and `setCurrent(c, x)` followed by
`getISet(c)` returns `x`. -/
theorem set_then_get_round_trip (s : State) (c : Nat) (hc : c = 0 ∨ c = 1) (x : ℚ) :
    getUSet (setVoltage s c x) c = x ∧ getISet (setCurrent s c x) c = x := by
  cases hmode : s.g_channelCoupling <;> rcases hc with rfl | rfl <;>
    simp [getUSet, getISet, setVoltage, setCurrent, hmode, Channel.setVoltage,
      Channel.setCurrent]

/-- C4 at the scenario of the specification: in Series, `setVoltage(channel0, 10)`
leaves 5 on each channel and `getUSet(channel0)` returns 10. -/
theorem set_then_get_round_trip_witness :
    ((setVoltage (exampleState TYPE_SERIES) 0 10).channels 0).u.set = 5 ∧
    ((setVoltage (exampleState TYPE_SERIES) 0 10).channels 1).u.set = 5 ∧
    getUSet (setVoltage (exampleState TYPE_SERIES) 0 10) 0 = 10 := by
  refine ⟨?_, ?_, (set_then_get_round_trip (exampleState TYPE_SERIES) 0 (Or.inl rfl) 10).1⟩
  · norm_num [setVoltage, exampleState, Channel.setVoltage]
  · norm_num [setVoltage, exampleState, Channel.setVoltage]

/-! ## C5, C6, C7: the read table -/

/-- C5: in Series `getUSet`, `getUMon`, `getUMonDac`, `getUDef` and
`getUProtectionLevel` return the sum of the values of channel 0 and channel 1,
`getULimit`, `getUMaxLimit` and `getUMax` return twice the minimum of the two values,
and `getUMin` returns twice the maximum of the two `u.min`; in Parallel and in None
each returns the value of the addressed channel. -/
theorem voltage_reads_table (s : State) (c : Nat) :
    (s.g_channelCoupling = TYPE_SERIES →
      getUSet s c = (s.channels 0).u.set + (s.channels 1).u.set ∧
      getUMon s c = (s.channels 0).u.mon + (s.channels 1).u.mon ∧
      getUMonDac s c = (s.channels 0).u.mon_dac + (s.channels 1).u.mon_dac ∧
      getUDef s c = (s.channels 0).u.def_ + (s.channels 1).u.def_ ∧
      getUProtectionLevel s c =
        (s.channels 0).prot_conf.u_level + (s.channels 1).prot_conf.u_level ∧
      getULimit s c = 2 * min (s.channels 0).getVoltageLimit (s.channels 1).getVoltageLimit ∧
      getUMaxLimit s c =
        2 * min (s.channels 0).getVoltageMaxLimit (s.channels 1).getVoltageMaxLimit ∧
      getUMax s c = 2 * min (s.channels 0).u.max (s.channels 1).u.max ∧
      getUMin s c = 2 * max (s.channels 0).u.min (s.channels 1).u.min) ∧
    (s.g_channelCoupling = TYPE_PARALLEL ∨ s.g_channelCoupling = TYPE_NONE →
      getUSet s c = (s.channels c).u.set ∧
      getUMon s c = (s.channels c).u.mon ∧
      getUMonDac s c = (s.channels c).u.mon_dac ∧
      getUDef s c = (s.channels c).u.def_ ∧
      getUProtectionLevel s c = (s.channels c).prot_conf.u_level ∧
      getULimit s c = (s.channels c).getVoltageLimit ∧
      getUMaxLimit s c = (s.channels c).getVoltageMaxLimit ∧
      getUMax s c = (s.channels c).u.max ∧
      getUMin s c = (s.channels c).u.min) := by
  constructor
  · intro h
    simp [getUSet, getUMon, getUMonDac, getUDef, getUProtectionLevel, getULimit, getUMaxLimit,
      getUMax, getUMin, h, min__eq_min, max__eq_max]
  · intro h
    rcases h with h | h <;>
      simp [getUSet, getUMon, getUMonDac, getUDef, getUProtectionLevel, getULimit, getUMaxLimit,
        getUMax, getUMin, h]

/-- C5 on the example pair (`u.max` 40 and 30): `getUMax` is 60 in Series and the
own 40 of channel 0 in Parallel. -/
theorem voltage_reads_table_witness :
    getUMax (exampleState TYPE_SERIES) 0 = 60 ∧ getUMax (exampleState TYPE_PARALLEL) 0 = 40 := by
  have h1 := ((voltage_reads_table (exampleState TYPE_SERIES) 0).1 rfl).2.2.2.2.2.2.2.1
  have h2 := ((voltage_reads_table (exampleState TYPE_PARALLEL) 0).2 (Or.inl rfl)).2.2.2.2.2.2.2.1
  constructor
  · rw [h1]
    norm_num [exampleState, exampleChannel0, exampleChannel1]
  · rw [h2]
    norm_num [exampleState, exampleChannel0]

/-- C6: in Parallel `getISet`, `getIMon`, `getIMonDac` and `getIDef` return the sum of
the values of channel 0 and channel 1, `getILimit`, `getIMaxLimit` and `getIMax`
return twice the minimum of the two values, and `getIMin` returns twice the maximum
of the two `i.min`; in Series and in None each returns the value of the addressed
channel. -/
theorem current_reads_table (s : State) (c : Nat) :
    (s.g_channelCoupling = TYPE_PARALLEL →
      getISet s c = (s.channels 0).i.set + (s.channels 1).i.set ∧
      getIMon s c = (s.channels 0).i.mon + (s.channels 1).i.mon ∧
      getIMonDac s c = (s.channels 0).i.mon_dac + (s.channels 1).i.mon_dac ∧
      getIDef s c = (s.channels 0).i.def_ + (s.channels 1).i.def_ ∧
      getILimit s c = 2 * min (s.channels 0).getCurrentLimit (s.channels 1).getCurrentLimit ∧
      getIMaxLimit s c =
        2 * min (s.channels 0).getMaxCurrentLimit (s.channels 1).getMaxCurrentLimit ∧
      getIMax s c = 2 * min (s.channels 0).i.max (s.channels 1).i.max ∧
      getIMin s c = 2 * max (s.channels 0).i.min (s.channels 1).i.min) ∧
    (s.g_channelCoupling = TYPE_SERIES ∨ s.g_channelCoupling = TYPE_NONE →
      getISet s c = (s.channels c).i.set ∧
      getIMon s c = (s.channels c).i.mon ∧
      getIMonDac s c = (s.channels c).i.mon_dac ∧
      getIDef s c = (s.channels c).i.def_ ∧
      getILimit s c = (s.channels c).getCurrentLimit ∧
      getIMaxLimit s c = (s.channels c).getMaxCurrentLimit ∧
      getIMax s c = (s.channels c).i.max ∧
      getIMin s c = (s.channels c).i.min) := by
  constructor
  · intro h
    simp [getISet, getIMon, getIMonDac, getIDef, getILimit, getIMaxLimit, getIMax, getIMin, h,
      min__eq_min, max__eq_max]
  · intro h
    rcases h with h | h <;>
      simp [getISet, getIMon, getIMonDac, getIDef, getILimit, getIMaxLimit, getIMax, getIMin, h]

/-- C6 at the scenario of the specification: in Parallel with `i.max` 5 and 3,
`getIMax` returns 6. -/
theorem current_reads_table_witness :
    ((exampleState TYPE_PARALLEL).channels 0).i.max = 5 ∧
    ((exampleState TYPE_PARALLEL).channels 1).i.max = 3 ∧
    getIMax (exampleState TYPE_PARALLEL) 0 = 6 ∧ getIMax (exampleState TYPE_PARALLEL) 1 = 6 := by
  have h0 := ((current_reads_table (exampleState TYPE_PARALLEL) 0).1 rfl).2.2.2.2.2.2.1
  have h1 := ((current_reads_table (exampleState TYPE_PARALLEL) 1).1 rfl).2.2.2.2.2.2.1
  refine ⟨rfl, rfl, ?_, ?_⟩
  · rw [h0]
    norm_num [exampleState, exampleChannel0, exampleChannel1]
  · rw [h1]
    norm_num [exampleState, exampleChannel0, exampleChannel1]

/-- C7: in Series and in Parallel `getPowerLimit` returns twice the minimum of the two
power limits, `getPowerMaxLimit` twice the minimum of the two `PTOT`, and
`getPowerProtectionLevel` the sum of the two `p_level`; in None each returns the
value of the addressed channel; `getPowerMinLimit` returns 0 in every mode. -/
theorem power_reads_table (s : State) (c : Nat) :
    (s.g_channelCoupling = TYPE_SERIES ∨ s.g_channelCoupling = TYPE_PARALLEL →
      getPowerLimit s c = 2 * min (s.channels 0).getPowerLimit (s.channels 1).getPowerLimit ∧
      getPowerMaxLimit s c = 2 * min (s.channels 0).PTOT (s.channels 1).PTOT ∧
      getPowerProtectionLevel s c =
        (s.channels 0).prot_conf.p_level + (s.channels 1).prot_conf.p_level) ∧
    (s.g_channelCoupling = TYPE_NONE →
      getPowerLimit s c = (s.channels c).getPowerLimit ∧
      getPowerMaxLimit s c = (s.channels c).PTOT ∧
      getPowerProtectionLevel s c = (s.channels c).prot_conf.p_level) ∧
    getPowerMinLimit s c = 0 := by
  refine ⟨?_, ?_, ?_⟩
  · intro h
    rcases h with h | h <;>
      simp [getPowerLimit, getPowerMaxLimit, getPowerProtectionLevel, h, min__eq_min]
  · intro h
    simp [getPowerLimit, getPowerMaxLimit, getPowerProtectionLevel, h]
  · simp [getPowerMinLimit]

/-- C7 on the example pair (`PTOT` 155 and 90, `p_level` 100 and 70): coupled in
Series the power ceiling reads 180 and the protection level 170; uncoupled channel 1
reads its own 90. -/
theorem power_reads_table_witness :
    getPowerMaxLimit (exampleState TYPE_SERIES) 0 = 180 ∧
    getPowerProtectionLevel (exampleState TYPE_SERIES) 0 = 170 ∧
    getPowerMaxLimit (exampleState TYPE_NONE) 1 = 90 := by
  have h := (power_reads_table (exampleState TYPE_SERIES) 0).1 (Or.inl rfl)
  have h2 := (power_reads_table (exampleState TYPE_NONE) 1).2.1 rfl
  refine ⟨?_, ?_, ?_⟩
  · rw [h.2.1]
    norm_num [exampleState, exampleChannel0, exampleChannel1]
  · rw [h.2.2]
    norm_num [exampleState, exampleChannel0, exampleChannel1]
  · rw [h2.2.1]
    norm_num [exampleState, exampleChannel1]

/-! ## C8: the protection setters -/

/-- C8: each setter of OVP, OCP and OPP, when the mode is not None, writes the same
values to channel 0 and to channel 1 whichever channel is addressed, the level
halved for the OVP level and the OPP level, state and delay as given; when the mode
is None it writes the values as given to the addressed channel and leaves every
other channel as it was. -/
theorem protection_setters_cascade (s : State) (c : Nat) (state : Int) (level delay : ℚ) :
    WritesPair s (setOvpParameters s c state level delay) c
      (fun ch => ((ch.set_u_state state).set_u_level (level / 2)).set_u_delay delay)
      (fun ch => ((ch.set_u_state state).set_u_level level).set_u_delay delay) ∧
    WritesPair s (setOvpState s c state) c
      (fun ch => ch.set_u_state state) (fun ch => ch.set_u_state state) ∧
    WritesPair s (setOvpLevel s c level) c
      (fun ch => ch.set_u_level (level / 2)) (fun ch => ch.set_u_level level) ∧
    WritesPair s (setOvpDelay s c delay) c
      (fun ch => ch.set_u_delay delay) (fun ch => ch.set_u_delay delay) ∧
    WritesPair s (setOcpParameters s c state delay) c
      (fun ch => (ch.set_i_state state).set_i_delay delay)
      (fun ch => (ch.set_i_state state).set_i_delay delay) ∧
    WritesPair s (setOcpState s c state) c
      (fun ch => ch.set_i_state state) (fun ch => ch.set_i_state state) ∧
    WritesPair s (setOcpDelay s c delay) c
      (fun ch => ch.set_i_delay delay) (fun ch => ch.set_i_delay delay) ∧
    WritesPair s (setOppParameters s c state level delay) c
      (fun ch => ((ch.set_p_state state).set_p_level (level / 2)).set_p_delay delay)
      (fun ch => ((ch.set_p_state state).set_p_level level).set_p_delay delay) ∧
    WritesPair s (setOppState s c state) c
      (fun ch => ch.set_p_state state) (fun ch => ch.set_p_state state) ∧
    WritesPair s (setOppLevel s c level) c
      (fun ch => ch.set_p_level (level / 2)) (fun ch => ch.set_p_level level) ∧
    WritesPair s (setOppDelay s c delay) c
      (fun ch => ch.set_p_delay delay) (fun ch => ch.set_p_delay delay) := by
  refine ⟨?_, ?_, ?_, ?_, ?_, ?_, ?_, ?_, ?_, ?_, ?_⟩ <;>
  · constructor
    · intro h
      refine ⟨?_, ?_, ?_⟩
      · simp [setOvpParameters, setOvpState, setOvpLevel, setOvpDelay, setOcpParameters,
          setOcpState, setOcpDelay, setOppParameters, setOppState, setOppLevel, setOppDelay, h]
      · simp [setOvpParameters, setOvpState, setOvpLevel, setOvpDelay, setOcpParameters,
          setOcpState, setOcpDelay, setOppParameters, setOppState, setOppLevel, setOppDelay, h]
      · intro j h0 h1
        simp [setOvpParameters, setOvpState, setOvpLevel, setOvpDelay, setOcpParameters,
          setOcpState, setOcpDelay, setOppParameters, setOppState, setOppLevel, setOppDelay, h,
          Function.update_noteq h0, Function.update_noteq h1]
    · intro h
      refine ⟨?_, ?_⟩
      · simp [setOvpParameters, setOvpState, setOvpLevel, setOvpDelay, setOcpParameters,
          setOcpState, setOcpDelay, setOppParameters, setOppState, setOppLevel, setOppDelay, h]
      · intro j hj
        simp [setOvpParameters, setOvpState, setOvpLevel, setOvpDelay, setOcpParameters,
          setOcpState, setOcpDelay, setOppParameters, setOppState, setOppLevel, setOppDelay, h,
          Function.update_noteq hj]

/-- C8 on the example pair: in Series `setOvpLevel(channel 1, 30)` stores 15 on both
channels; uncoupled it stores 30 on channel 1 and leaves the 20 of channel 0. -/
theorem protection_setters_cascade_witness :
    ((setOvpLevel (exampleState TYPE_SERIES) 1 30).channels 0).prot_conf.u_level = 15 ∧
    ((setOvpLevel (exampleState TYPE_SERIES) 1 30).channels 1).prot_conf.u_level = 15 ∧
    ((setOvpLevel (exampleState TYPE_NONE) 1 30).channels 1).prot_conf.u_level = 30 ∧
    ((setOvpLevel (exampleState TYPE_NONE) 1 30).channels 0).prot_conf.u_level = 20 := by
  have hs := (protection_setters_cascade (exampleState TYPE_SERIES) 1 0 30 0).2.2.1.1
    (by decide)
  have hn := (protection_setters_cascade (exampleState TYPE_NONE) 1 0 30 0).2.2.1.2 rfl
  refine ⟨?_, ?_, ?_, ?_⟩
  · rw [hs.1]
    norm_num [Channel.set_u_level]
  · rw [hs.2.1]
    norm_num [Channel.set_u_level]
  · rw [hn.1]
    norm_num [Channel.set_u_level]
  · rw [hn.2 0 (by decide)]
    norm_num [exampleState, exampleChannel0]

/-! ## Runs: what every operation keeps -/

/-- The three ways a call of `setType` can end: a no-op on the current mode, a
refusal, or a transition with all its preconditions. -/
theorem setType_cases (s : State) (m : CouplingType) :
    (s.g_channelCoupling = m ∧ setType s m = (true, s)) ∨
    (s.g_channelCoupling ≠ m ∧ setType s m = (false, s)) ∨
    (s.g_channelCoupling ≠ m ∧ 2 ≤ s.CH_NUM ∧ (s.channels 0).isOk = true ∧
      (s.channels 1).isOk = true) := by
  by_cases hm : s.g_channelCoupling = m
  · left
    simp [setType, hm]
  · by_cases hn : s.CH_NUM < 2
    · right; left
      simp [setType, hm, hn]
    · by_cases h0 : (s.channels 0).isOk = true
      · by_cases h1 : (s.channels 1).isOk = true
        · right; right
          exact ⟨hm, by omega, h0, h1⟩
        · right; left
          simp [setType, hm, hn, h0, h1]
      · right; left
        simp [setType, hm, hn, h0]

/-- Only `setType` changes the coupling mode. -/
theorem step_coupling (s : State) (op : Op) (h : op.isSetType = false) :
    (step s op).g_channelCoupling = s.g_channelCoupling := by
  cases op
  case setType v => simp [Op.isSetType] at h
  all_goals
      (simp only [step, setVoltage, setVoltageLimit, setOvpParameters, setOvpState, setOvpLevel,
        setOvpDelay, setCurrent, setCurrentLimit, setOcpParameters, setOcpState, setOcpDelay,
        setPowerLimit, setOppParameters, setOppState, setOppLevel, setOppDelay, outputEnable,
        lowRippleEnable, lowRippleAutoEnable, clearProtection, disableProtection,
        clearOtpProtection, setOtpParameters, setOtpState, setOtpLevel, setOtpDelay]
       split_ifs <;> simp)

/-- While coupled, every operation but `setType` keeps the protection configurations
of the pair in agreement. -/
theorem step_synced (s : State) (op : Op) (h : op.isSetType = false)
    (hc : s.g_channelCoupling ≠ TYPE_NONE) (hs : ProtectionSynced s) :
    ProtectionSynced (step s op) := by
  obtain ⟨hch, hse⟩ := hs
  have hmode : s.g_channelCoupling = TYPE_SERIES ∨ s.g_channelCoupling = TYPE_PARALLEL := by
    cases hg : s.g_channelCoupling <;> simp_all
  unfold ProtectionSynced
  cases op
  case setType v => simp [Op.isSetType] at h
  all_goals
    rcases hmode with hmode | hmode <;>
    (simp only [step, setVoltage, setVoltageLimit, setOvpParameters, setOvpState, setOvpLevel,
        setOvpDelay, setCurrent, setCurrentLimit, setOcpParameters, setOcpState, setOcpDelay,
        setPowerLimit, setOppParameters, setOppState, setOppLevel, setOppDelay, outputEnable,
        lowRippleEnable, lowRippleAutoEnable, clearProtection, disableProtection,
        clearOtpProtection, setOtpParameters, setOtpState, setOtpLevel, setOtpDelay]
     split_ifs <;>
     simp_all [Channel.setVoltage, Channel.setCurrent, Channel.setVoltageLimit,
         Channel.setCurrentLimit, Channel.setPowerLimit, Channel.outputEnable,
         Channel.lowRippleAutoEnable, Channel.clearProtection, Channel.disableProtection,
         Channel.lowRippleEnable_prot_conf,
         Channel.set_u_state, Channel.set_u_level, Channel.set_u_delay, Channel.set_i_state,
         Channel.set_i_delay, Channel.set_p_state, Channel.set_p_level, Channel.set_p_delay,
         TempSensorTemperature.set_state, TempSensorTemperature.set_level,
         TempSensorTemperature.set_delay, TempSensorTemperature.clearProtection, CH1, CH2] <;>
     (rename_i hk
      obtain ⟨e1, e2⟩ := hk
      simp [Function.update_noteq (Ne.symm e1), Function.update_noteq (Ne.symm e2), hse]))

/-- The addressed channel after the reset statements of the loop body. -/
theorem setTypeReset_channel_self (s : State) (i : Nat) :
    (setTypeReset s i).channels i = resetResult s i := by
  unfold setTypeReset resetResult
  by_cases h0 : i = 0
  · subst h0
    by_cases hr : (s.channels 0).hasFeature CH_FEATURE_RPROG = true <;>
    by_cases hl : (s.channels 0).hasFeature CH_FEATURE_LRIPPLE = true <;>
    simp [Channel.hasFeature, Channel.outputEnable, Channel.remoteProgrammingEnable,
      Channel.lowRippleEnable, Channel.setVoltage, Channel.setCurrent, getUMin, getIMin] <;>
    simp_all [Channel.hasFeature]
  · by_cases h1 : i = 1
    · subst h1
      by_cases hr : (s.channels 1).hasFeature CH_FEATURE_RPROG = true <;>
      by_cases hl : (s.channels 1).hasFeature CH_FEATURE_LRIPPLE = true <;>
      simp [Channel.hasFeature, Channel.outputEnable, Channel.remoteProgrammingEnable,
        Channel.lowRippleEnable, Channel.setVoltage, Channel.setCurrent, getUMin, getIMin] <;>
      simp_all [Channel.hasFeature]
    · have e0 : (0 : Nat) ≠ i := Ne.symm h0
      have e1 : (1 : Nat) ≠ i := Ne.symm h1
      by_cases hr : (s.channels i).hasFeature CH_FEATURE_RPROG = true <;>
      by_cases hl : (s.channels i).hasFeature CH_FEATURE_LRIPPLE = true <;>
      simp [Channel.hasFeature, Channel.outputEnable, Channel.remoteProgrammingEnable,
        Channel.lowRippleEnable, Channel.setVoltage, Channel.setCurrent, getUMin, getIMin,
        Function.update_apply, e0, e1] <;>
      simp_all [Channel.hasFeature, Function.update_apply]

/-- Channel 0 and channel 1 after a mode transition that goes through: the reset
channel with the merged protection configuration. -/
theorem setType_success_channel (s : State) (m : CouplingType) (hm : s.g_channelCoupling ≠ m)
    (hn : 2 ≤ s.CH_NUM) (h0 : (s.channels 0).isOk = true) (h1 : (s.channels 1).isOk = true)
    (k : Nat) (hk : k = 0 ∨ k = 1) :
    (setType s m).2.channels k =
      { resetResult { s with g_channelCoupling := m } k with
        prot_conf :=
          { flags := ⟨(mergeSnapshot s).u_state, (mergeSnapshot s).i_state,
              (mergeSnapshot s).p_state⟩,
            u_level := (mergeSnapshot s).u_level, u_delay := (mergeSnapshot s).u_delay,
            i_delay := (mergeSnapshot s).i_delay, p_level := (mergeSnapshot s).p_level,
            p_delay := (mergeSnapshot s).p_delay } } := by
  rw [setType_success s m hm hn h0 h1]
  rcases hk with rfl | rfl
  · simp only [State.switchChannelCoupling, applyMerged_channels]
    rw [Function.update_noteq (by decide), setTypeReset_channels_ne _ 1 0 (by decide)]
    simp [applyMerged_channels, setTypeReset_channel_self]
  · simp only [State.switchChannelCoupling, applyMerged_channels, Function.update_same,
      setTypeReset_channel_self]
    have e : resetResult (applyMerged (setTypeReset { s with g_channelCoupling := m } 0)
        (mergeSnapshot s) 0) 1 = resetResult { s with g_channelCoupling := m } 1 := by
      have c1 : (setTypeReset { s with g_channelCoupling := m } 0).channels 1 = s.channels 1 :=
        setTypeReset_channels_ne _ 0 1 (by decide)
      have c0 := setTypeReset_channel_self { s with g_channelCoupling := m } 0
      unfold resetResult getUMin getIMin
      simp [applyMerged_channels, applyMerged_coupling, setTypeReset_coupling, c1, c0,
        resetResult]
    rw [e]

/-- The mode transition `setType` keeps the agreement of the pair: if the pair agrees
whenever the pre-state is coupled, it agrees whenever the post-state is coupled. -/
theorem setType_synced (s : State) (m : CouplingType)
    (hinv : s.g_channelCoupling ≠ TYPE_NONE → ProtectionSynced s)
    (hc : (setType s m).2.g_channelCoupling ≠ TYPE_NONE) : ProtectionSynced (setType s m).2 := by
  rcases setType_cases s m with ⟨_, h⟩ | ⟨_, h⟩ | ⟨hm, hn, h0, h1⟩
  · rw [h] at hc ⊢
    exact hinv hc
  · rw [h] at hc ⊢
    exact hinv hc
  · constructor
    · rw [setType_success_prot_conf s m hm hn h0 h1 0 (Or.inl rfl),
        setType_success_prot_conf s m hm hn h0 h1 1 (Or.inr rfl)]
    · rw [setType_success_sensors s m hm hn h0 h1 CH1 (Or.inl rfl),
        setType_success_sensors s m hm hn h0 h1 CH2 (Or.inr rfl)]

/-- Every operation keeps the agreement of the pair under coupling. -/
theorem step_invariant (s : State) (op : Op)
    (hinv : s.g_channelCoupling ≠ TYPE_NONE → ProtectionSynced s)
    (hc : (step s op).g_channelCoupling ≠ TYPE_NONE) : ProtectionSynced (step s op) := by
  by_cases hop : op.isSetType = true
  · cases op <;> first
      | exact setType_synced s _ hinv hc
      | simp [Op.isSetType] at hop
  · have hop2 : op.isSetType = false := by simpa using hop
    rw [step_coupling s op hop2] at hc
    exact step_synced s op hop2 hc (hinv hc)

theorem run_nil (s : State) : run s [] = s := rfl

theorem run_cons (s : State) (op : Op) (ops : List Op) :
    run s (op :: ops) = run (step s op) ops := rfl

/-- A run without `setType` keeps the coupling mode. -/
theorem run_coupling (ops : List Op) (s : State) (h : ∀ op ∈ ops, op.isSetType = false) :
    (run s ops).g_channelCoupling = s.g_channelCoupling := by
  induction ops generalizing s with
  | nil => rfl
  | cons op ops ih =>
    rw [run_cons, ih (step s op) (fun o ho => h o (List.mem_cons_of_mem _ ho)),
      step_coupling s op (h op (List.mem_cons_self _ _))]

/-- A run without `setType` from a coupled state in which the pair agrees ends in a
state in which the pair agrees. -/
theorem run_synced (ops : List Op) (s : State) (h : ∀ op ∈ ops, op.isSetType = false)
    (hc : s.g_channelCoupling ≠ TYPE_NONE) (hs : ProtectionSynced s) :
    ProtectionSynced (run s ops) := by
  induction ops generalizing s with
  | nil => exact hs
  | cons op ops ih =>
    have hop := h op (List.mem_cons_self _ _)
    rw [run_cons]
    refine ih (step s op) (fun o ho => h o (List.mem_cons_of_mem _ ho)) ?_
      (step_synced s op hop hc hs)
    rw [step_coupling s op hop]
    exact hc

/-! ## C9: the protection configurations of a coupled pair agree -/

/-- C9: in every state reached from an initial state (mode None) by any sequence of
operations of the module, if the mode is not None then channel 0 and channel 1 have
the same protection configuration (OVP {state, level, delay}, OCP {state, delay},
OPP {state, level, delay}) and the sensors CH1 and CH2 have the same protection
entry {state, level, delay}. -/
theorem reachable_coupled_protection_equal (s : State) (hr : Reachable s)
    (hc : s.g_channelCoupling ≠ TYPE_NONE) :
    (s.channels 0).prot_conf = (s.channels 1).prot_conf ∧
    (s.sensors CH1).prot_conf = (s.sensors CH2).prot_conf := by
  revert hc
  induction hr with
  | init s h => intro hne; exact absurd h hne
  | step s op _ ih => exact step_invariant s op ih

/-- C9 on the example pair: after coupling in Series and a cascaded OVP write the
state is reachable and coupled, and the two channels and the two pair sensors hold
the same protection configuration. -/
theorem reachable_coupled_protection_equal_witness :
    (step (step (exampleState TYPE_NONE) (Op.setType TYPE_SERIES))
      (Op.setOvpLevel 1 30)).g_channelCoupling = TYPE_SERIES ∧
    ((step (step (exampleState TYPE_NONE) (Op.setType TYPE_SERIES))
      (Op.setOvpLevel 1 30)).channels 0).prot_conf =
    ((step (step (exampleState TYPE_NONE) (Op.setType TYPE_SERIES))
      (Op.setOvpLevel 1 30)).channels 1).prot_conf ∧
    ((step (step (exampleState TYPE_NONE) (Op.setType TYPE_SERIES))
      (Op.setOvpLevel 1 30)).sensors CH1).prot_conf =
    ((step (step (exampleState TYPE_NONE) (Op.setType TYPE_SERIES))
      (Op.setOvpLevel 1 30)).sensors CH2).prot_conf := by
  have hmode : (step (step (exampleState TYPE_NONE) (Op.setType TYPE_SERIES))
      (Op.setOvpLevel 1 30)).g_channelCoupling = TYPE_SERIES := by
    rw [step_coupling _ (Op.setOvpLevel 1 30) rfl]
    exact setType_success_coupling (exampleState TYPE_NONE) TYPE_SERIES (by decide) (by decide)
      rfl rfl
  have hne : (step (step (exampleState TYPE_NONE) (Op.setType TYPE_SERIES))
      (Op.setOvpLevel 1 30)).g_channelCoupling ≠ TYPE_NONE := by
    rw [hmode]
    decide
  exact ⟨hmode, reachable_coupled_protection_equal _
    (Reachable.step _ _ (Reachable.step _ _ (Reachable.init _ rfl))) hne⟩

/-! ## C10: reads and the addressed channel -/

/-- C10 fails as stated: on the example pair, right after a transition from None to
Series that goes through, each of the eight current reads differs between channel 0
and channel 1, and right after a transition to Parallel each of the eight voltage
reads that pass through differs. -/
theorem coupled_reads_depend_on_channel :
    (exampleState TYPE_NONE).g_channelCoupling = TYPE_NONE ∧
    (setType (exampleState TYPE_NONE) TYPE_SERIES).1 = true ∧
    getISet seriesCoupledExample 0 ≠ getISet seriesCoupledExample 1 ∧
    getIMon seriesCoupledExample 0 ≠ getIMon seriesCoupledExample 1 ∧
    getIMonDac seriesCoupledExample 0 ≠ getIMonDac seriesCoupledExample 1 ∧
    getILimit seriesCoupledExample 0 ≠ getILimit seriesCoupledExample 1 ∧
    getIMaxLimit seriesCoupledExample 0 ≠ getIMaxLimit seriesCoupledExample 1 ∧
    getIMin seriesCoupledExample 0 ≠ getIMin seriesCoupledExample 1 ∧
    getIDef seriesCoupledExample 0 ≠ getIDef seriesCoupledExample 1 ∧
    getIMax seriesCoupledExample 0 ≠ getIMax seriesCoupledExample 1 ∧
    (setType (exampleState TYPE_NONE) TYPE_PARALLEL).1 = true ∧
    getUSet parallelCoupledExample 0 ≠ getUSet parallelCoupledExample 1 ∧
    getUMon parallelCoupledExample 0 ≠ getUMon parallelCoupledExample 1 ∧
    getUMonDac parallelCoupledExample 0 ≠ getUMonDac parallelCoupledExample 1 ∧
    getULimit parallelCoupledExample 0 ≠ getULimit parallelCoupledExample 1 ∧
    getUMaxLimit parallelCoupledExample 0 ≠ getUMaxLimit parallelCoupledExample 1 ∧
    getUMin parallelCoupledExample 0 ≠ getUMin parallelCoupledExample 1 ∧
    getUDef parallelCoupledExample 0 ≠ getUDef parallelCoupledExample 1 ∧
    getUMax parallelCoupledExample 0 ≠ getUMax parallelCoupledExample 1 := by
  have hs : seriesCoupledExample.g_channelCoupling = TYPE_SERIES :=
    setType_success_coupling (exampleState TYPE_NONE) TYPE_SERIES (by decide) (by decide) rfl rfl
  have s0 : seriesCoupledExample.channels 0 = _ :=
    setType_success_channel (exampleState TYPE_NONE) TYPE_SERIES (by decide) (by decide) rfl rfl
      0 (Or.inl rfl)
  have s1 : seriesCoupledExample.channels 1 = _ :=
    setType_success_channel (exampleState TYPE_NONE) TYPE_SERIES (by decide) (by decide) rfl rfl
      1 (Or.inr rfl)
  have hp : parallelCoupledExample.g_channelCoupling = TYPE_PARALLEL :=
    setType_success_coupling (exampleState TYPE_NONE) TYPE_PARALLEL (by decide) (by decide)
      rfl rfl
  have p0 : parallelCoupledExample.channels 0 = _ :=
    setType_success_channel (exampleState TYPE_NONE) TYPE_PARALLEL (by decide) (by decide)
      rfl rfl 0 (Or.inl rfl)
  have p1 : parallelCoupledExample.channels 1 = _ :=
    setType_success_channel (exampleState TYPE_NONE) TYPE_PARALLEL (by decide) (by decide)
      rfl rfl 1 (Or.inr rfl)
  have t1 : (setType (exampleState TYPE_NONE) TYPE_SERIES).1 = true := by
    rw [setType_success (exampleState TYPE_NONE) TYPE_SERIES (by decide) (by decide) rfl rfl]
  have t2 : (setType (exampleState TYPE_NONE) TYPE_PARALLEL).1 = true := by
    rw [setType_success (exampleState TYPE_NONE) TYPE_PARALLEL (by decide) (by decide) rfl rfl]
  refine ⟨rfl, t1, ?_, ?_, ?_, ?_, ?_, ?_, ?_, ?_, t2, ?_, ?_, ?_, ?_, ?_, ?_, ?_, ?_⟩
  all_goals
    simp only [getISet, getIMon, getIMonDac, getILimit, getIMaxLimit, getIMin, getIDef, getIMax,
      getUSet, getUMon, getUMonDac, getULimit, getUMaxLimit, getUMin, getUDef, getUMax,
      hs, hp, s0, s1, p0, p1]
    simp [resetResult, getIMin, getUMin, exampleState, exampleChannel0, exampleChannel1,
      Channel.getCurrentLimit, Channel.getMaxCurrentLimit, Channel.getVoltageLimit,
      Channel.getVoltageMaxLimit]

/-- C10, amended: in every state reached from an uncoupled state by a `setType` to
Series or Parallel that returns true, followed by any sequence of operations other
than `setType`, the power reads, the OPP level reads, `isLowRippleAllowed` and
`getUProtectionLevel` return the same value for channel 0 and for channel 1; so do
the voltage reads `getUSet` .. `getUMax` in Series and the current reads `getISet` ..
`getIMax` in Parallel. (The reads that pass through, current in Series and voltage in
Parallel, return the value of the addressed channel.) -/
theorem coupled_combined_reads_independent_of_channel (s0 : State) (m : CouplingType)
    (ops : List Op) (hnone : s0.g_channelCoupling = TYPE_NONE)
    (hm : m = TYPE_SERIES ∨ m = TYPE_PARALLEL) (hok : (setType s0 m).1 = true)
    (hops : ∀ op ∈ ops, op.isSetType = false) :
    (getPowerLimit (run (setType s0 m).2 ops) 0 = getPowerLimit (run (setType s0 m).2 ops) 1 ∧
     getPowerMinLimit (run (setType s0 m).2 ops) 0 =
       getPowerMinLimit (run (setType s0 m).2 ops) 1 ∧
     getPowerMaxLimit (run (setType s0 m).2 ops) 0 =
       getPowerMaxLimit (run (setType s0 m).2 ops) 1 ∧
     getPowerDefaultLimit (run (setType s0 m).2 ops) 0 =
       getPowerDefaultLimit (run (setType s0 m).2 ops) 1 ∧
     getPowerProtectionLevel (run (setType s0 m).2 ops) 0 =
       getPowerProtectionLevel (run (setType s0 m).2 ops) 1 ∧
     getOppMinLevel (run (setType s0 m).2 ops) 0 = getOppMinLevel (run (setType s0 m).2 ops) 1 ∧
     getOppMaxLevel (run (setType s0 m).2 ops) 0 = getOppMaxLevel (run (setType s0 m).2 ops) 1 ∧
     getOppDefaultLevel (run (setType s0 m).2 ops) 0 =
       getOppDefaultLevel (run (setType s0 m).2 ops) 1 ∧
     isLowRippleAllowed (run (setType s0 m).2 ops) 0 =
       isLowRippleAllowed (run (setType s0 m).2 ops) 1 ∧
     getUProtectionLevel (run (setType s0 m).2 ops) 0 =
       getUProtectionLevel (run (setType s0 m).2 ops) 1) ∧
    (m = TYPE_SERIES →
     getUSet (run (setType s0 m).2 ops) 0 = getUSet (run (setType s0 m).2 ops) 1 ∧
     getUMon (run (setType s0 m).2 ops) 0 = getUMon (run (setType s0 m).2 ops) 1 ∧
     getUMonDac (run (setType s0 m).2 ops) 0 = getUMonDac (run (setType s0 m).2 ops) 1 ∧
     getULimit (run (setType s0 m).2 ops) 0 = getULimit (run (setType s0 m).2 ops) 1 ∧
     getUMaxLimit (run (setType s0 m).2 ops) 0 = getUMaxLimit (run (setType s0 m).2 ops) 1 ∧
     getUMin (run (setType s0 m).2 ops) 0 = getUMin (run (setType s0 m).2 ops) 1 ∧
     getUDef (run (setType s0 m).2 ops) 0 = getUDef (run (setType s0 m).2 ops) 1 ∧
     getUMax (run (setType s0 m).2 ops) 0 = getUMax (run (setType s0 m).2 ops) 1) ∧
    (m = TYPE_PARALLEL →
     getISet (run (setType s0 m).2 ops) 0 = getISet (run (setType s0 m).2 ops) 1 ∧
     getIMon (run (setType s0 m).2 ops) 0 = getIMon (run (setType s0 m).2 ops) 1 ∧
     getIMonDac (run (setType s0 m).2 ops) 0 = getIMonDac (run (setType s0 m).2 ops) 1 ∧
     getILimit (run (setType s0 m).2 ops) 0 = getILimit (run (setType s0 m).2 ops) 1 ∧
     getIMaxLimit (run (setType s0 m).2 ops) 0 = getIMaxLimit (run (setType s0 m).2 ops) 1 ∧
     getIMin (run (setType s0 m).2 ops) 0 = getIMin (run (setType s0 m).2 ops) 1 ∧
     getIDef (run (setType s0 m).2 ops) 0 = getIDef (run (setType s0 m).2 ops) 1 ∧
     getIMax (run (setType s0 m).2 ops) 0 = getIMax (run (setType s0 m).2 ops) 1) := by
  have hne : m ≠ TYPE_NONE := by rcases hm with rfl | rfl <;> decide
  have hmode0 : (setType s0 m).2.g_channelCoupling = m := by
    rcases setType_cases s0 m with ⟨h, _⟩ | ⟨_, h⟩ | ⟨h, hn, h0, h1⟩
    · exact absurd (hnone.symm.trans h).symm hne
    · rw [h] at hok
      simp at hok
    · exact setType_success_coupling s0 m h hn h0 h1
  have hne0 : (setType s0 m).2.g_channelCoupling ≠ TYPE_NONE := by
    rw [hmode0]
    exact hne
  have hsync0 : ProtectionSynced (setType s0 m).2 :=
    setType_synced s0 m (fun h => absurd hnone h) hne0
  have hmode : (run (setType s0 m).2 ops).g_channelCoupling = m := by
    rw [run_coupling ops _ hops, hmode0]
  have hsync : ProtectionSynced (run (setType s0 m).2 ops) :=
    run_synced ops _ hops hne0 hsync0
  generalize run (setType s0 m).2 ops = s at hmode hsync
  have hu : (s.channels 0).prot_conf.u_level = (s.channels 1).prot_conf.u_level := by
    rw [hsync.1]
  refine ⟨?_, ?_, ?_⟩
  · rcases hm with rfl | rfl <;>
      simp [getPowerLimit, getPowerMinLimit, getPowerMaxLimit, getPowerDefaultLimit,
        getPowerProtectionLevel, getOppMinLevel, getOppMaxLevel, getOppDefaultLevel,
        isLowRippleAllowed, getUProtectionLevel, hmode, hu]
  · intro h
    subst h
    simp [getUSet, getUMon, getUMonDac, getULimit, getUMaxLimit, getUMin, getUDef, getUMax,
      hmode]
  · intro h
    subst h
    simp [getISet, getIMon, getIMonDac, getILimit, getIMaxLimit, getIMin, getIDef, getIMax,
      hmode]

/-- C10, amended, on the example pair coupled in Series and then given a current
limit: the state is of the shape the theorem covers and `getUMax` reads 60 for
channel 0 and for channel 1. -/
theorem coupled_combined_reads_independent_of_channel_witness :
    (exampleState TYPE_NONE).g_channelCoupling = TYPE_NONE ∧
    (setType (exampleState TYPE_NONE) TYPE_SERIES).1 = true ∧
    getUMax (run (setType (exampleState TYPE_NONE) TYPE_SERIES).2 [Op.setCurrentLimit 0 2]) 0 =
      getUMax (run (setType (exampleState TYPE_NONE) TYPE_SERIES).2 [Op.setCurrentLimit 0 2]) 1 := by
  have t1 : (setType (exampleState TYPE_NONE) TYPE_SERIES).1 = true := by
    rw [setType_success (exampleState TYPE_NONE) TYPE_SERIES (by decide) (by decide) rfl rfl]
  exact ⟨rfl, t1, ((coupled_combined_reads_independent_of_channel (exampleState TYPE_NONE)
    TYPE_SERIES [Op.setCurrentLimit 0 2] rfl (Or.inl rfl) t1
    (by simp [Op.isSetType])).2.1 rfl).2.2.2.2.2.2.2⟩

/-! ## C11: writes and the addressed channel -/

/-- C11: in Series and in Parallel every operation of the module that takes a channel
and changes state leaves the same post-state, and `lowRippleEnable` also returns the
same value, whether channel 0 or channel 1 is passed, for every argument. -/
theorem coupled_writes_independent_of_channel (s : State)
    (hm : s.g_channelCoupling = TYPE_SERIES ∨ s.g_channelCoupling = TYPE_PARALLEL)
    (x level delay : ℚ) (state : Int) (enable : Bool) :
    setVoltage s 0 x = setVoltage s 1 x ∧
    setCurrent s 0 x = setCurrent s 1 x ∧
    setVoltageLimit s 0 x = setVoltageLimit s 1 x ∧
    setCurrentLimit s 0 x = setCurrentLimit s 1 x ∧
    setPowerLimit s 0 x = setPowerLimit s 1 x ∧
    setOvpParameters s 0 state level delay = setOvpParameters s 1 state level delay ∧
    setOvpState s 0 state = setOvpState s 1 state ∧
    setOvpLevel s 0 level = setOvpLevel s 1 level ∧
    setOvpDelay s 0 delay = setOvpDelay s 1 delay ∧
    setOcpParameters s 0 state delay = setOcpParameters s 1 state delay ∧
    setOcpState s 0 state = setOcpState s 1 state ∧
    setOcpDelay s 0 delay = setOcpDelay s 1 delay ∧
    setOppParameters s 0 state level delay = setOppParameters s 1 state level delay ∧
    setOppState s 0 state = setOppState s 1 state ∧
    setOppLevel s 0 level = setOppLevel s 1 level ∧
    setOppDelay s 0 delay = setOppDelay s 1 delay ∧
    setOtpParameters s 0 state level delay = setOtpParameters s 1 state level delay ∧
    outputEnable s 0 enable = outputEnable s 1 enable ∧
    lowRippleEnable s 0 enable = lowRippleEnable s 1 enable ∧
    lowRippleAutoEnable s 0 enable = lowRippleAutoEnable s 1 enable ∧
    clearProtection s 0 = clearProtection s 1 ∧
    disableProtection s 0 = disableProtection s 1 := by
  rcases hm with hm | hm <;>
    simp [setVoltage, setCurrent, setVoltageLimit, setCurrentLimit, setPowerLimit,
      setOvpParameters, setOvpState, setOvpLevel, setOvpDelay, setOcpParameters, setOcpState,
      setOcpDelay, setOppParameters, setOppState, setOppLevel, setOppDelay, setOtpParameters,
      outputEnable, lowRippleEnable, lowRippleAutoEnable, clearProtection, disableProtection, hm]

/-- C11 on the example pair coupled in Series: a voltage write and a low-ripple
request give the same result for channel 0 and for channel 1. -/
theorem coupled_writes_independent_of_channel_witness :
    setVoltage (exampleState TYPE_SERIES) 0 10 = setVoltage (exampleState TYPE_SERIES) 1 10 ∧
    lowRippleEnable (exampleState TYPE_SERIES) 0 true =
      lowRippleEnable (exampleState TYPE_SERIES) 1 true := by
  have h := coupled_writes_independent_of_channel (exampleState TYPE_SERIES) (Or.inl rfl)
    10 0 0 0 true
  exact ⟨h.1, h.2.2.2.2.2.2.2.2.2.2.2.2.2.2.2.2.2.2.1⟩

/-! ## C12, C13: `lowRippleEnable` under coupling -/

theorem exampleChannel0_lripple : exampleChannel0.hasFeature CH_FEATURE_LRIPPLE = true := by
  decide

theorem exampleChannel1_lripple : exampleChannel1.hasFeature CH_FEATURE_LRIPPLE = false := by
  decide

/-- C12 on the code: in Series, with a channel 0 whose physical `lowRippleEnable`
returns false and a channel 1 that has low ripple switched on, `lowRippleEnable`
with `enable = false` returns false after a single call, the one on channel 0; no
call is made on channel 1, whose low ripple stays switched on. -/
theorem lowRippleEnable_skips_channel1_after_failure :
    (swappedState TYPE_SERIES).g_channelCoupling = TYPE_SERIES ∧
    (((swappedState TYPE_SERIES).channels 0).lowRippleEnable false).1 = false ∧
    (lowRippleEnable (swappedState TYPE_SERIES) 1 false).1 = false ∧
    (lowRippleEnable (swappedState TYPE_SERIES) 1 false).2.calls =
      [Call.lowRippleEnable 0 false] ∧
    Call.lowRippleEnable 1 false ∉ (lowRippleEnable (swappedState TYPE_SERIES) 1 false).2.calls ∧
    ((swappedState TYPE_SERIES).channels 1).lripple_enabled = true ∧
    ((lowRippleEnable (swappedState TYPE_SERIES) 1 false).2.channels 1).lripple_enabled = true := by
  have h0 : (((swappedState TYPE_SERIES).channels 0).lowRippleEnable false).1 = false := by
    simp [swappedState, Channel.lowRippleEnable, exampleChannel1_lripple]
  have hc : (lowRippleEnable (swappedState TYPE_SERIES) 1 false).2.calls =
      [Call.lowRippleEnable 0 false] := by
    simp [lowRippleEnable, h0]
    simp [swappedState, exampleState]
  refine ⟨rfl, h0, ?_, hc, ?_, ?_, ?_⟩
  · simp [lowRippleEnable, h0]
    simp [swappedState, exampleState]
  · rw [hc]
    decide
  · simp [swappedState, exampleChannel0]
  · simp [lowRippleEnable, h0]
    simp [swappedState, exampleState, exampleChannel0]

/-- C13: when coupled, `lowRippleEnable` first calls the physical `lowRippleEnable` on
channel 0, which changes as that call says. If that call returns true it then calls the
physical `lowRippleEnable` on channel 1, which changes as that call says, and returns
what the call on channel 1 returned; if it returns false, no further call is made,
channel 1 is as it was and the result is false. So the result is true exactly when the
calls on channel 0 and on channel 1 both return true; when channel 0 succeeds and
channel 1 fails the result is false and channel 0 has the requested setting all the
same. When the mode is None the one call made is the physical `lowRippleEnable` on the
addressed channel, the result is its result, the addressed channel changes as it says
and no other channel changes. Nothing else in the state changes in either mode: the
call is the two physical calls in a row, the second on the state the first left, or the
one physical call. -/
theorem lowRippleEnable_result (s : State) (c : Nat) (e : Bool) :
    (s.g_channelCoupling ≠ TYPE_NONE →
      ((lowRippleEnable s c e).1 = true ↔
        ((s.channels 0).lowRippleEnable e).1 = true ∧
        ((s.channels 1).lowRippleEnable e).1 = true) ∧
      (lowRippleEnable s c e).2.channels 0 = ((s.channels 0).lowRippleEnable e).2 ∧
      (∀ j, j ≠ 0 → j ≠ 1 → (lowRippleEnable s c e).2.channels j = s.channels j) ∧
      (lowRippleEnable s c e).2.sensors = s.sensors ∧
      (lowRippleEnable s c e).2.g_channelCoupling = s.g_channelCoupling ∧
      (lowRippleEnable s c e).2.CH_NUM = s.CH_NUM ∧
      (((s.channels 0).lowRippleEnable e).1 = true →
        (lowRippleEnable s c e).1 = ((s.channels 1).lowRippleEnable e).1 ∧
        (lowRippleEnable s c e).2.calls =
          s.calls ++ [Call.lowRippleEnable 0 e, Call.lowRippleEnable 1 e] ∧
        (lowRippleEnable s c e).2.channels 1 = ((s.channels 1).lowRippleEnable e).2 ∧
        ((lowRippleEnable s c e).2.channels 0).lripple_enabled = e ∧
        lowRippleEnable s c e = (s.invokeLowRippleEnable 0 e).2.invokeLowRippleEnable 1 e) ∧
      (((s.channels 0).lowRippleEnable e).1 = false →
        (lowRippleEnable s c e).1 = false ∧
        (lowRippleEnable s c e).2.calls = s.calls ++ [Call.lowRippleEnable 0 e] ∧
        (lowRippleEnable s c e).2.channels 1 = s.channels 1 ∧
        lowRippleEnable s c e = (false, (s.invokeLowRippleEnable 0 e).2)) ∧
      (((s.channels 0).lowRippleEnable e).1 = true →
        ((s.channels 1).lowRippleEnable e).1 = false →
        (lowRippleEnable s c e).1 = false ∧
        (lowRippleEnable s c e).2.channels 0 = ((s.channels 0).lowRippleEnable e).2 ∧
        ((lowRippleEnable s c e).2.channels 0).lripple_enabled = e)) ∧
    (s.g_channelCoupling = TYPE_NONE →
      (lowRippleEnable s c e).1 = ((s.channels c).lowRippleEnable e).1 ∧
      (lowRippleEnable s c e).2.calls = s.calls ++ [Call.lowRippleEnable c e] ∧
      (lowRippleEnable s c e).2.channels c = ((s.channels c).lowRippleEnable e).2 ∧
      (∀ j, j ≠ c → (lowRippleEnable s c e).2.channels j = s.channels j) ∧
      (lowRippleEnable s c e).2.sensors = s.sensors ∧
      (lowRippleEnable s c e).2.g_channelCoupling = s.g_channelCoupling ∧
      (lowRippleEnable s c e).2.CH_NUM = s.CH_NUM ∧
      lowRippleEnable s c e = s.invokeLowRippleEnable c e) := by
  have happlied : ((s.channels 0).lowRippleEnable e).1 = true →
      ((s.channels 0).lowRippleEnable e).2.lripple_enabled = e := by
    intro h0
    have hf : (s.channels 0).hasFeature CH_FEATURE_LRIPPLE = true := by
      by_contra hn
      simp [Channel.lowRippleEnable, hn] at h0
    simp [Channel.lowRippleEnable, hf]
  constructor
  · intro h
    have hch0 : (lowRippleEnable s c e).2.channels 0 = ((s.channels 0).lowRippleEnable e).2 := by
      by_cases h0 : ((s.channels 0).lowRippleEnable e).1 = true
      · simp [lowRippleEnable, h, h0]
      · simp [lowRippleEnable, h, h0]
    refine ⟨?_, hch0, ?_, ?_, ?_, ?_, ?_, ?_, ?_⟩
    · by_cases h0 : ((s.channels 0).lowRippleEnable e).1 = true
      · simp [lowRippleEnable, h, h0]
      · simp [lowRippleEnable, h, h0]
    · intro j hj0 hj1
      by_cases h0 : ((s.channels 0).lowRippleEnable e).1 = true
      · simp [lowRippleEnable, h, h0, Function.update_noteq hj0, Function.update_noteq hj1]
      · simp [lowRippleEnable, h, h0, Function.update_noteq hj0]
    · by_cases h0 : ((s.channels 0).lowRippleEnable e).1 = true
      · simp [lowRippleEnable, h, h0]
      · simp [lowRippleEnable, h, h0]
    · by_cases h0 : ((s.channels 0).lowRippleEnable e).1 = true
      · simp [lowRippleEnable, h, h0]
      · simp [lowRippleEnable, h, h0]
    · by_cases h0 : ((s.channels 0).lowRippleEnable e).1 = true
      · simp [lowRippleEnable, h, h0]
      · simp [lowRippleEnable, h, h0]
    · intro h0
      refine ⟨?_, ?_, ?_, ?_, ?_⟩
      · simp [lowRippleEnable, h, h0]
      · simp [lowRippleEnable, h, h0]
      · simp [lowRippleEnable, h, h0]
      · rw [hch0]
        exact happlied h0
      · simp [lowRippleEnable, h, h0]
    · intro h0
      refine ⟨?_, ?_, ?_, ?_⟩
      · simp [lowRippleEnable, h, h0]
      · simp [lowRippleEnable, h, h0]
      · simp [lowRippleEnable, h, h0]
      · simp [lowRippleEnable, h, h0]
    · intro h0 h1
      refine ⟨?_, hch0, ?_⟩
      · simp [lowRippleEnable, h, h0, h1]
      · rw [hch0]
        exact happlied h0
  · intro h
    refine ⟨?_, ?_, ?_, ?_, ?_, ?_, ?_, ?_⟩
    · simp [lowRippleEnable, h]
    · simp [lowRippleEnable, h]
    · simp [lowRippleEnable, h]
    · intro j hj
      simp [lowRippleEnable, h, Function.update_noteq hj]
    · simp [lowRippleEnable, h]
    · simp [lowRippleEnable, h]
    · simp [lowRippleEnable, h]
    · simp [lowRippleEnable, h]

/-- C13 at the scenario of the specification: coupled in Series, channel 0 supports
low ripple and channel 1 lacks it; switching low ripple off calls channel 0 and then
channel 1, returns false, and channel 0, which had it on, has it off. -/
theorem lowRippleEnable_result_witness :
    ((exampleState TYPE_SERIES).channels 0).lripple_enabled = true ∧
    (lowRippleEnable (exampleState TYPE_SERIES) 0 false).1 = false ∧
    (lowRippleEnable (exampleState TYPE_SERIES) 0 false).2.calls =
      [Call.lowRippleEnable 0 false, Call.lowRippleEnable 1 false] ∧
    ((lowRippleEnable (exampleState TYPE_SERIES) 0 false).2.channels 0).lripple_enabled = false := by
  have h0 : (((exampleState TYPE_SERIES).channels 0).lowRippleEnable false).1 = true := by
    simp [exampleState, Channel.lowRippleEnable, exampleChannel0_lripple]
  have h1 : (((exampleState TYPE_SERIES).channels 1).lowRippleEnable false).1 = false := by
    simp [exampleState, Channel.lowRippleEnable, exampleChannel1_lripple]
  have h := (lowRippleEnable_result (exampleState TYPE_SERIES) 0 false).1 (by decide)
  have hc := (h.2.2.2.2.2.2.1 h0).2.1
  have hp := h.2.2.2.2.2.2.2.2 h0 h1
  refine ⟨by simp [exampleState, exampleChannel0], hp.1, ?_, hp.2.2⟩
  rw [hc]
  rfl

/-! ## C14: repeating a mode request -/

/-- C14 fails as stated: with channel 1 unhealthy and the mode None, `setType(Series)`
is refused, and the second `setType(Series)` that follows it returns false as well. -/
theorem setType_second_call_can_return_false :
    (setType (unhealthyState TYPE_NONE) TYPE_SERIES).1 = false ∧
    (setType (setType (unhealthyState TYPE_NONE) TYPE_SERIES).2 TYPE_SERIES).1 = false := by
  have h : setType (unhealthyState TYPE_NONE) TYPE_SERIES = (false, unhealthyState TYPE_NONE) := by
    rcases setType_cases (unhealthyState TYPE_NONE) TYPE_SERIES with ⟨h, _⟩ | ⟨_, h⟩ | ⟨_, _, _, h⟩
    · exact absurd h (by decide)
    · exact h
    · exact absurd h (by decide)
  rw [h]
  exact ⟨rfl, by rw [h]⟩

/-- C14, amended: `setType(m)` called when the current mode is already `m` returns true
and leaves the whole state as it was, whatever the health of the channels; and for
every pre-state, `setType(m)` followed by `setType(m)` leaves the state that a single
`setType(m)` leaves, the second call returning what the first returned, so true
whenever the first call returned true. -/
theorem setType_same_mode_noop_and_repeat (s : State) (m : CouplingType) :
    (s.g_channelCoupling = m → setType s m = (true, s)) ∧
    (setType (setType s m).2 m).2 = (setType s m).2 ∧
    (setType (setType s m).2 m).1 = (setType s m).1 ∧
    ((setType s m).1 = true → (setType (setType s m).2 m).1 = true) := by
  have hnoop : ∀ t : State, t.g_channelCoupling = m → setType t m = (true, t) := by
    intro t ht
    simp [setType, ht]
  have hrep : (setType (setType s m).2 m).2 = (setType s m).2 ∧
      (setType (setType s m).2 m).1 = (setType s m).1 := by
    rcases setType_cases s m with ⟨_, h⟩ | ⟨_, h⟩ | ⟨hm, hn, h0, h1⟩
    · rw [h]
      simp [h]
    · rw [h]
      simp [h]
    · have hc := setType_success_coupling s m hm hn h0 h1
      rw [hnoop _ hc]
      refine ⟨rfl, ?_⟩
      rw [setType_success s m hm hn h0 h1]
  refine ⟨hnoop s, hrep.1, hrep.2, ?_⟩
  intro h
  rw [hrep.2, h]

/-- C14, amended, with channel 1 unhealthy: a request for the mode already in force
returns true and changes nothing, and after a transition that goes through the
repeated request returns true. -/
theorem setType_same_mode_noop_and_repeat_witness :
    setType (unhealthyState TYPE_SERIES) TYPE_SERIES = (true, unhealthyState TYPE_SERIES) ∧
    (setType (exampleState TYPE_NONE) TYPE_SERIES).1 = true ∧
    (setType (setType (exampleState TYPE_NONE) TYPE_SERIES).2 TYPE_SERIES).1 = true := by
  have t1 : (setType (exampleState TYPE_NONE) TYPE_SERIES).1 = true := by
    rw [setType_success (exampleState TYPE_NONE) TYPE_SERIES (by decide) (by decide) rfl rfl]
  exact ⟨(setType_same_mode_noop_and_repeat (unhealthyState TYPE_SERIES) TYPE_SERIES).1 rfl, t1,
    (setType_same_mode_noop_and_repeat (exampleState TYPE_NONE) TYPE_SERIES).2.2.2 t1⟩

/-! ## C15: the pair temperature sensors on a mode transition -/

/-- The sensors other than CH1 and CH2 after a mode transition that goes through. -/
theorem setType_success_sensors_other (s : State) (m : CouplingType)
    (hm : s.g_channelCoupling ≠ m) (hn : 2 ≤ s.CH_NUM) (h0 : (s.channels 0).isOk = true)
    (h1 : (s.channels 1).isOk = true) (k : Nat) (hk1 : k ≠ CH1) (hk2 : k ≠ CH2) :
    (setType s m).2.sensors k = s.sensors k := by
  rw [setType_success s m hm hn h0 h1]
  have e1 : k ≠ CH1 + 0 := hk1
  have e2 : k ≠ CH1 + 1 := hk2
  simp only [State.switchChannelCoupling, applyMerged_sensors, setTypeReset_sensors]
  rw [Function.update_noteq e2, Function.update_noteq e1]

/-- C15: after every mode-changing `setType` that goes through, the protection entry
of each of the sensors CH1 and CH2 has state = OR, level = MIN and delay = MIN of the
two pre-transition entries, and every other temperature sensor is as it was. -/
theorem setType_merges_pair_sensors (s : State) (m : CouplingType)
    (hm : s.g_channelCoupling ≠ m) (hn : 2 ≤ s.CH_NUM)
    (h0 : (s.channels 0).isOk = true) (h1 : (s.channels 1).isOk = true) :
    (setType s m).1 = true ∧
    (∀ k, k = CH1 ∨ k = CH2 →
      ((setType s m).2.sensors k).prot_conf.state =
        ((s.sensors CH1).prot_conf.state || (s.sensors CH2).prot_conf.state) ∧
      ((setType s m).2.sensors k).prot_conf.level =
        min (s.sensors CH1).prot_conf.level (s.sensors CH2).prot_conf.level ∧
      ((setType s m).2.sensors k).prot_conf.delay =
        min (s.sensors CH1).prot_conf.delay (s.sensors CH2).prot_conf.delay) ∧
    (∀ k, k ≠ CH1 → k ≠ CH2 → (setType s m).2.sensors k = s.sensors k) := by
  refine ⟨?_, ?_, ?_⟩
  · rw [setType_success s m hm hn h0 h1]
  · intro k hk
    rw [setType_success_sensors s m hm hn h0 h1 k hk]
    simp [mergeSnapshot]
  · intro k hk1 hk2
    exact setType_success_sensors_other s m hm hn h0 h1 k hk1 hk2

/-- C15 on the example pair (CH1 {on, 70, 10}, CH2 {off, 60, 30}): after coupling in
Series both sensors hold {on, 60, 10} and sensor 0 is as it was. -/
theorem setType_merges_pair_sensors_witness :
    (∀ k, k = CH1 ∨ k = CH2 →
      ((setType (exampleState TYPE_NONE) TYPE_SERIES).2.sensors k).prot_conf.state = true ∧
      ((setType (exampleState TYPE_NONE) TYPE_SERIES).2.sensors k).prot_conf.level = 60 ∧
      ((setType (exampleState TYPE_NONE) TYPE_SERIES).2.sensors k).prot_conf.delay = 10) ∧
    (setType (exampleState TYPE_NONE) TYPE_SERIES).2.sensors 0 =
      (exampleState TYPE_NONE).sensors 0 := by
  have h := setType_merges_pair_sensors (exampleState TYPE_NONE) TYPE_SERIES (by decide)
    (by decide) rfl rfl
  refine ⟨?_, h.2.2 0 (by decide) (by decide)⟩
  intro k hk
  obtain ⟨a, b, c⟩ := h.2.1 k hk
  refine ⟨?_, ?_, ?_⟩
  · rw [a]
    simp [exampleState, CH1, CH2]
  · rw [b]
    norm_num [exampleState, CH1, CH2]
  · rw [c]
    norm_num [exampleState, CH1, CH2]

/-! ## C16, C17: the reset of the pair on a mode transition -/

/-- The calls recorded by the reset statements of the loop body. -/
theorem setTypeReset_calls (s : State) (i : Nat) :
    (setTypeReset s i).calls = s.calls ++ resetCalls s i := by
  unfold setTypeReset resetCalls
  by_cases h0 : i = 0
  · subst h0
    by_cases hr : (s.channels 0).hasFeature CH_FEATURE_RPROG = true <;>
    by_cases hl : (s.channels 0).hasFeature CH_FEATURE_LRIPPLE = true <;>
    simp [Channel.hasFeature, Channel.outputEnable, Channel.remoteProgrammingEnable,
      Channel.lowRippleEnable, Channel.setVoltage, Channel.setCurrent, getUMin, getIMin] <;>
    simp_all [Channel.hasFeature]
  · by_cases h1 : i = 1
    · subst h1
      by_cases hr : (s.channels 1).hasFeature CH_FEATURE_RPROG = true <;>
      by_cases hl : (s.channels 1).hasFeature CH_FEATURE_LRIPPLE = true <;>
      simp [Channel.hasFeature, Channel.outputEnable, Channel.remoteProgrammingEnable,
        Channel.lowRippleEnable, Channel.setVoltage, Channel.setCurrent, getUMin, getIMin] <;>
      simp_all [Channel.hasFeature]
    · have e0 : (0 : Nat) ≠ i := Ne.symm h0
      have e1 : (1 : Nat) ≠ i := Ne.symm h1
      by_cases hr : (s.channels i).hasFeature CH_FEATURE_RPROG = true <;>
      by_cases hl : (s.channels i).hasFeature CH_FEATURE_LRIPPLE = true <;>
      simp [Channel.hasFeature, Channel.outputEnable, Channel.remoteProgrammingEnable,
        Channel.lowRippleEnable, Channel.setVoltage, Channel.setCurrent, getUMin, getIMin,
        Function.update_apply, e0, e1] <;>
      simp_all [Channel.hasFeature, Function.update_apply]

/-- The reset calls on channel 1 are those computed from the state before channel 0
was reset and merged. -/
theorem resetCalls_second (s : State) (snap : MergedProtection) :
    resetCalls (applyMerged (setTypeReset s 0) snap 0) 1 = resetCalls s 1 := by
  have c1 : (setTypeReset s 0).channels 1 = s.channels 1 :=
    setTypeReset_channels_ne _ 0 1 (by decide)
  have c0 := setTypeReset_channel_self s 0
  unfold resetCalls getUMin getIMin
  simp [applyMerged_channels, applyMerged_coupling, setTypeReset_coupling, c1, c0, resetResult]

/-- The calls recorded by a mode transition that goes through. -/
theorem setType_success_calls (s : State) (m : CouplingType) (hm : s.g_channelCoupling ≠ m)
    (hn : 2 ≤ s.CH_NUM) (h0 : (s.channels 0).isOk = true) (h1 : (s.channels 1).isOk = true) :
    (setType s m).2.calls = s.calls ++ transitionCalls s m := by
  rw [setType_success s m hm hn h0 h1]
  simp only [State.switchChannelCoupling, applyMerged_calls, setTypeReset_calls,
    resetCalls_second, transitionCalls]
  simp

/-- The channels other than 0 and 1 after a mode transition that goes through. -/
theorem setType_success_channels_other (s : State) (m : CouplingType)
    (hm : s.g_channelCoupling ≠ m) (hn : 2 ≤ s.CH_NUM) (h0 : (s.channels 0).isOk = true)
    (h1 : (s.channels 1).isOk = true) (j : Nat) (hj0 : j ≠ 0) (hj1 : j ≠ 1) :
    (setType s m).2.channels j = s.channels j := by
  rw [setType_success s m hm hn h0 h1]
  simp only [State.switchChannelCoupling, applyMerged_channels]
  rw [Function.update_noteq hj1, setTypeReset_channels_ne _ 1 j hj1, applyMerged_channels,
    Function.update_noteq hj0, setTypeReset_channels_ne _ 0 j hj0]

/-- C16: after every mode-changing `setType(m)` that goes through, to Series, Parallel
or None, the mode is `m`; the calls made are the reset calls on channel 0, those on
channel 1 and the notification; on each of channel 0 and channel 1 `outputEnable(false)`
was called and the output is off, `remoteProgrammingEnable(false)` was called exactly
when the feature mask has the remote-programming bit (remote programming is then off,
and as it was otherwise), and `lowRippleEnable(false)` was called exactly when the
feature mask has the low-ripple bit (low ripple is then off, and as it was otherwise);
every channel other than 0 and 1 is as it was. -/
theorem setType_resets_pair (s : State) (m : CouplingType)
    (hm : s.g_channelCoupling ≠ m) (hn : 2 ≤ s.CH_NUM)
    (h0 : (s.channels 0).isOk = true) (h1 : (s.channels 1).isOk = true) :
    (setType s m).1 = true ∧
    (setType s m).2.g_channelCoupling = m ∧
    (setType s m).2.calls = s.calls ++ transitionCalls s m ∧
    (∀ k, k = 0 ∨ k = 1 →
      Call.outputEnable k false ∈ transitionCalls s m ∧
      ((setType s m).2.channels k).output_enabled = false ∧
      (Call.remoteProgrammingEnable k false ∈ transitionCalls s m ↔
        (s.channels k).hasFeature CH_FEATURE_RPROG = true) ∧
      ((setType s m).2.channels k).rprog_enabled =
        (if (s.channels k).hasFeature CH_FEATURE_RPROG then false
         else (s.channels k).rprog_enabled) ∧
      (Call.lowRippleEnable k false ∈ transitionCalls s m ↔
        (s.channels k).hasFeature CH_FEATURE_LRIPPLE = true) ∧
      ((setType s m).2.channels k).lripple_enabled =
        (if (s.channels k).hasFeature CH_FEATURE_LRIPPLE then false
         else (s.channels k).lripple_enabled)) ∧
    (∀ j, j ≠ 0 → j ≠ 1 → (setType s m).2.channels j = s.channels j) := by
  refine ⟨?_, setType_success_coupling s m hm hn h0 h1, setType_success_calls s m hm hn h0 h1,
    ?_, setType_success_channels_other s m hm hn h0 h1⟩
  · rw [setType_success s m hm hn h0 h1]
  · intro k hk
    rw [setType_success_channel s m hm hn h0 h1 k hk]
    rcases hk with rfl | rfl
    · by_cases hr : (s.channels 0).hasFeature CH_FEATURE_RPROG = true <;>
      by_cases hl : (s.channels 0).hasFeature CH_FEATURE_LRIPPLE = true <;>
      by_cases hr1 : (s.channels 1).hasFeature CH_FEATURE_RPROG = true <;>
      by_cases hl1 : (s.channels 1).hasFeature CH_FEATURE_LRIPPLE = true <;>
      simp [transitionCalls, resetCalls, resetResult, hr, hl, hr1, hl1]
    · by_cases hr : (s.channels 0).hasFeature CH_FEATURE_RPROG = true <;>
      by_cases hl : (s.channels 0).hasFeature CH_FEATURE_LRIPPLE = true <;>
      by_cases hr1 : (s.channels 1).hasFeature CH_FEATURE_RPROG = true <;>
      by_cases hl1 : (s.channels 1).hasFeature CH_FEATURE_LRIPPLE = true <;>
      simp [transitionCalls, resetCalls, resetResult, hr, hl, hr1, hl1]

theorem exampleChannel0_rprog : exampleChannel0.hasFeature CH_FEATURE_RPROG = true := by
  decide

theorem exampleChannel1_rprog : exampleChannel1.hasFeature CH_FEATURE_RPROG = false := by
  decide

/-- The calls of the transition of the example pair from None to Series. -/
theorem transitionCalls_example :
    transitionCalls (exampleState TYPE_NONE) TYPE_SERIES =
      [Call.outputEnable 0 false, Call.remoteProgrammingEnable 0 false,
       Call.lowRippleEnable 0 false, Call.setVoltage 0 2, Call.setCurrent 0 0,
       Call.outputEnable 1 false, Call.setVoltage 1 2, Call.setCurrent 1 (1 / 10),
       Call.switchChannelCoupling TYPE_SERIES] := by
  have e0 : (exampleState TYPE_NONE).channels 0 = exampleChannel0 := rfl
  have e1 : (exampleState TYPE_NONE).channels 1 = exampleChannel1 := rfl
  simp only [transitionCalls, resetCalls, getUMin, getIMin, e0, e1, exampleChannel0_rprog,
    exampleChannel0_lripple, exampleChannel1_rprog, exampleChannel1_lripple]
  simp [max_, exampleChannel0, exampleChannel1]

/-- C16 on the example pair coupled in Series: channel 0 has both features and gets the
three switch-off calls, channel 1 has neither and gets `outputEnable(false)` alone. -/
theorem setType_resets_pair_witness :
    (setType (exampleState TYPE_NONE) TYPE_SERIES).2.g_channelCoupling = TYPE_SERIES ∧
    (setType (exampleState TYPE_NONE) TYPE_SERIES).2.calls =
      [Call.outputEnable 0 false, Call.remoteProgrammingEnable 0 false,
       Call.lowRippleEnable 0 false, Call.setVoltage 0 2, Call.setCurrent 0 0,
       Call.outputEnable 1 false, Call.setVoltage 1 2, Call.setCurrent 1 (1 / 10),
       Call.switchChannelCoupling TYPE_SERIES] ∧
    ((setType (exampleState TYPE_NONE) TYPE_SERIES).2.channels 0).output_enabled = false ∧
    ((setType (exampleState TYPE_NONE) TYPE_SERIES).2.channels 1).output_enabled = false := by
  have h := setType_resets_pair (exampleState TYPE_NONE) TYPE_SERIES (by decide) (by decide)
    rfl rfl
  refine ⟨h.2.1, ?_, (h.2.2.2.1 0 (Or.inl rfl)).2.1, (h.2.2.2.1 1 (Or.inr rfl)).2.1⟩
  rw [h.2.2.1, transitionCalls_example]
  rfl

/-- C17: during every mode-changing `setType(m)` that goes through, each of channel 0
and channel 1 gets `setVoltage(getUMin)` and `setCurrent(getIMin)` with the minima
evaluated under the new mode `m`, and holds them as its set points afterwards; so in
Series both channels get the voltage `2 * max(c0.u.min, c1.u.min)` and in Parallel
both get the current `2 * max(c0.i.min, c1.i.min)`. -/
theorem setType_sets_minima (s : State) (m : CouplingType)
    (hm : s.g_channelCoupling ≠ m) (hn : 2 ≤ s.CH_NUM)
    (h0 : (s.channels 0).isOk = true) (h1 : (s.channels 1).isOk = true) :
    (setType s m).2.calls = s.calls ++ transitionCalls s m ∧
    ∀ k, k = 0 ∨ k = 1 →
      Call.setVoltage k (getUMin { s with g_channelCoupling := m } k) ∈ transitionCalls s m ∧
      Call.setCurrent k (getIMin { s with g_channelCoupling := m } k) ∈ transitionCalls s m ∧
      ((setType s m).2.channels k).u.set = getUMin { s with g_channelCoupling := m } k ∧
      ((setType s m).2.channels k).i.set = getIMin { s with g_channelCoupling := m } k ∧
      (m = TYPE_SERIES →
        Call.setVoltage k (2 * max (s.channels 0).u.min (s.channels 1).u.min) ∈
          transitionCalls s m ∧
        ((setType s m).2.channels k).u.set = 2 * max (s.channels 0).u.min (s.channels 1).u.min) ∧
      (m = TYPE_PARALLEL →
        Call.setCurrent k (2 * max (s.channels 0).i.min (s.channels 1).i.min) ∈
          transitionCalls s m ∧
        ((setType s m).2.channels k).i.set =
          2 * max (s.channels 0).i.min (s.channels 1).i.min) := by
  refine ⟨setType_success_calls s m hm hn h0 h1, ?_⟩
  intro k hk
  have hv : Call.setVoltage k (getUMin { s with g_channelCoupling := m } k) ∈
      transitionCalls s m := by
    rcases hk with rfl | rfl <;> simp [transitionCalls, resetCalls]
  have hi : Call.setCurrent k (getIMin { s with g_channelCoupling := m } k) ∈
      transitionCalls s m := by
    rcases hk with rfl | rfl <;> simp [transitionCalls, resetCalls]
  have hu : ((setType s m).2.channels k).u.set = getUMin { s with g_channelCoupling := m } k := by
    rw [setType_success_channel s m hm hn h0 h1 k hk]
    simp [resetResult]
  have hc : ((setType s m).2.channels k).i.set = getIMin { s with g_channelCoupling := m } k := by
    rw [setType_success_channel s m hm hn h0 h1 k hk]
    simp [resetResult]
  refine ⟨hv, hi, hu, hc, ?_, ?_⟩
  · intro hs
    have e : getUMin { s with g_channelCoupling := m } k =
        2 * max (s.channels 0).u.min (s.channels 1).u.min := by
      simp [getUMin, hs, max__eq_max]
    rw [← e]
    exact ⟨hv, hu⟩
  · intro hp
    have e : getIMin { s with g_channelCoupling := m } k =
        2 * max (s.channels 0).i.min (s.channels 1).i.min := by
      simp [getIMin, hp, max__eq_max]
    rw [← e]
    exact ⟨hi, hc⟩

/-- C17 on the example pair (`u.min` 0 and 1): coupled in Series both channels hold the
voltage set point 2. -/
theorem setType_sets_minima_witness :
    ((setType (exampleState TYPE_NONE) TYPE_SERIES).2.channels 0).u.set = 2 ∧
    ((setType (exampleState TYPE_NONE) TYPE_SERIES).2.channels 1).u.set = 2 := by
  have h := (setType_sets_minima (exampleState TYPE_NONE) TYPE_SERIES (by decide) (by decide)
    rfl rfl).2
  have a := ((h 0 (Or.inl rfl)).2.2.2.2.1 rfl).2
  have b := ((h 1 (Or.inr rfl)).2.2.2.2.1 rfl).2
  constructor
  · rw [a]
    norm_num [exampleState, exampleChannel0, exampleChannel1]
  · rw [b]
    norm_num [exampleState, exampleChannel0, exampleChannel1]

/-! ## C18: dispatch of the limit writes -/

/-- C18: `setVoltageLimit(c, l)` calls the physical `setVoltageLimit(l / 2)` on channel 0
and on channel 1 in Series, `setVoltageLimit(l)` on both in Parallel and `setVoltageLimit(l)`
on the addressed channel alone in None; `setCurrentLimit(c, l)` mirrors it, `l / 2` to
both in Parallel, `l` to both in Series, `l` to the addressed channel alone in None;
`setPowerLimit(c, l)` gives `l / 2` to both channels in Series and in Parallel and `l`
to the addressed channel alone in None. In None every other channel is as it was. -/
theorem limit_writes_dispatch (s : State) (c : Nat) (l : ℚ) :
    (s.g_channelCoupling = TYPE_SERIES →
      (setVoltageLimit s c l).channels 0 = (s.channels 0).setVoltageLimit (l / 2) ∧
      (setVoltageLimit s c l).channels 1 = (s.channels 1).setVoltageLimit (l / 2) ∧
      (setVoltageLimit s c l).calls =
        s.calls ++ [Call.setVoltageLimit 0 (l / 2), Call.setVoltageLimit 1 (l / 2)] ∧
      (setCurrentLimit s c l).channels 0 = (s.channels 0).setCurrentLimit l ∧
      (setCurrentLimit s c l).channels 1 = (s.channels 1).setCurrentLimit l ∧
      (setCurrentLimit s c l).calls =
        s.calls ++ [Call.setCurrentLimit 0 l, Call.setCurrentLimit 1 l] ∧
      (setPowerLimit s c l).channels 0 = (s.channels 0).setPowerLimit (l / 2) ∧
      (setPowerLimit s c l).channels 1 = (s.channels 1).setPowerLimit (l / 2) ∧
      (setPowerLimit s c l).calls =
        s.calls ++ [Call.setPowerLimit 0 (l / 2), Call.setPowerLimit 1 (l / 2)]) ∧
    (s.g_channelCoupling = TYPE_PARALLEL →
      (setVoltageLimit s c l).channels 0 = (s.channels 0).setVoltageLimit l ∧
      (setVoltageLimit s c l).channels 1 = (s.channels 1).setVoltageLimit l ∧
      (setVoltageLimit s c l).calls =
        s.calls ++ [Call.setVoltageLimit 0 l, Call.setVoltageLimit 1 l] ∧
      (setCurrentLimit s c l).channels 0 = (s.channels 0).setCurrentLimit (l / 2) ∧
      (setCurrentLimit s c l).channels 1 = (s.channels 1).setCurrentLimit (l / 2) ∧
      (setCurrentLimit s c l).calls =
        s.calls ++ [Call.setCurrentLimit 0 (l / 2), Call.setCurrentLimit 1 (l / 2)] ∧
      (setPowerLimit s c l).channels 0 = (s.channels 0).setPowerLimit (l / 2) ∧
      (setPowerLimit s c l).channels 1 = (s.channels 1).setPowerLimit (l / 2) ∧
      (setPowerLimit s c l).calls =
        s.calls ++ [Call.setPowerLimit 0 (l / 2), Call.setPowerLimit 1 (l / 2)]) ∧
    (s.g_channelCoupling = TYPE_NONE →
      (setVoltageLimit s c l).channels c = (s.channels c).setVoltageLimit l ∧
      (∀ j, j ≠ c → (setVoltageLimit s c l).channels j = s.channels j) ∧
      (setVoltageLimit s c l).calls = s.calls ++ [Call.setVoltageLimit c l] ∧
      (setCurrentLimit s c l).channels c = (s.channels c).setCurrentLimit l ∧
      (∀ j, j ≠ c → (setCurrentLimit s c l).channels j = s.channels j) ∧
      (setCurrentLimit s c l).calls = s.calls ++ [Call.setCurrentLimit c l] ∧
      (setPowerLimit s c l).channels c = (s.channels c).setPowerLimit l ∧
      (∀ j, j ≠ c → (setPowerLimit s c l).channels j = s.channels j) ∧
      (setPowerLimit s c l).calls = s.calls ++ [Call.setPowerLimit c l]) := by
  refine ⟨?_, ?_, ?_⟩
  · intro h
    simp [setVoltageLimit, setCurrentLimit, setPowerLimit, h]
  · intro h
    simp [setVoltageLimit, setCurrentLimit, setPowerLimit, h]
  · intro h
    simp only [setVoltageLimit, setCurrentLimit, setPowerLimit, h]
    refine ⟨by simp, ?_, by simp, by simp, ?_, by simp, by simp, ?_, by simp⟩
    · intro j hj
      simp [Function.update_noteq hj]
    · intro j hj
      simp [Function.update_noteq hj]
    · intro j hj
      simp [Function.update_noteq hj]

/-- C18 on the example pair: in Parallel a power limit of 100 addressed to channel 0
is stored as 50 on both channels; uncoupled, a current limit of 4 addressed to
channel 0 is stored there and channel 1 keeps its own 2. -/
theorem limit_writes_dispatch_witness :
    ((setPowerLimit (exampleState TYPE_PARALLEL) 0 100).channels 0).p_limit = 50 ∧
    ((setPowerLimit (exampleState TYPE_PARALLEL) 0 100).channels 1).p_limit = 50 ∧
    ((setCurrentLimit (exampleState TYPE_NONE) 0 4).channels 0).i_limit = 4 ∧
    ((setCurrentLimit (exampleState TYPE_NONE) 0 4).channels 1).i_limit = 2 := by
  have hp := (limit_writes_dispatch (exampleState TYPE_PARALLEL) 0 100).2.1 rfl
  have hn := (limit_writes_dispatch (exampleState TYPE_NONE) 0 4).2.2 rfl
  refine ⟨?_, ?_, ?_, ?_⟩
  · rw [hp.2.2.2.2.2.2.1]
    norm_num [Channel.setPowerLimit]
  · rw [hp.2.2.2.2.2.2.2.1]
    norm_num [Channel.setPowerLimit]
  · rw [hn.2.2.2.1]
    norm_num [Channel.setCurrentLimit]
  · rw [hn.2.2.2.2.1 1 (by decide)]
    norm_num [exampleState, exampleChannel1]

/-! ## C19: the OTP setters keyed by sensor -/

/-- C19: for `setOtpState`, `setOtpLevel` and `setOtpDelay` with sensor `k`: if `k` is
CH1 or CH2 and the mode is not None, the field of both pair sensors becomes the value
given (the state as the boolean `state ≠ 0`, level and delay as they are) and every
other sensor is as it was; otherwise the field of sensor `k` alone becomes the value
and every other sensor, the other pair sensor included, is as it was. -/
theorem otp_setters_cascade (s : State) (k : Nat) (state : Int) (level delay : ℚ) :
    WritesSensors s (setOtpState s k state) k (fun t => t.set_state (decide (state ≠ 0))) ∧
    WritesSensors s (setOtpLevel s k level) k (fun t => t.set_level level) ∧
    WritesSensors s (setOtpDelay s k delay) k (fun t => t.set_delay delay) := by
  refine ⟨?_, ?_, ?_⟩ <;>
  · refine ⟨?_, ?_, ?_⟩
    · intro h
      simp only [setOtpState, setOtpLevel, setOtpDelay, if_pos h]
      refine ⟨?_, ?_, ?_⟩
      · simp [CH1, CH2]
      · simp [CH1, CH2]
      · intro j h1 h2
        simp [Function.update_noteq h1, Function.update_noteq h2]
    · intro h
      simp only [setOtpState, setOtpLevel, setOtpDelay, if_neg h]
      refine ⟨?_, ?_⟩
      · simp
      · intro j hj
        simp [Function.update_noteq hj]
    · simp only [setOtpState, setOtpLevel, setOtpDelay]
      split_ifs <;> rfl

/-- C19 on the example pair (levels 70 on CH1, 60 on CH2 and on sensor 0): in Series
`setOtpLevel(CH2, 55)` stores 55 on both pair sensors and leaves sensor 0; uncoupled it
stores 55 on CH2 and leaves CH1. -/
theorem otp_setters_cascade_witness :
    ((setOtpLevel (exampleState TYPE_SERIES) CH2 55).sensors CH1).prot_conf.level = 55 ∧
    ((setOtpLevel (exampleState TYPE_SERIES) CH2 55).sensors CH2).prot_conf.level = 55 ∧
    ((setOtpLevel (exampleState TYPE_SERIES) CH2 55).sensors 0).prot_conf.level = 60 ∧
    ((setOtpLevel (exampleState TYPE_NONE) CH2 55).sensors CH2).prot_conf.level = 55 ∧
    ((setOtpLevel (exampleState TYPE_NONE) CH2 55).sensors CH1).prot_conf.level = 70 := by
  have hs := (otp_setters_cascade (exampleState TYPE_SERIES) CH2 0 55 0).2.1.1
    ⟨Or.inr rfl, by decide⟩
  have hn := (otp_setters_cascade (exampleState TYPE_NONE) CH2 0 55 0).2.1.2.1
    (fun h => h.2 rfl)
  refine ⟨?_, ?_, ?_, ?_, ?_⟩
  · rw [hs.1]
    simp [TempSensorTemperature.set_level]
  · rw [hs.2.1]
    simp [TempSensorTemperature.set_level]
  · rw [hs.2.2 0 (by decide) (by decide)]
    simp [exampleState]
  · rw [hn.1]
    simp [TempSensorTemperature.set_level]
  · rw [hn.2 CH1 (by decide)]
    simp [exampleState, CH1]

/-! ## C20: output enable and protection clearing -/

/-- C20: `outputEnable`, `clearProtection` and `disableProtection` call the physical
operation of the same name on channel 0 and on channel 1 when the mode is not None,
and on the addressed channel alone when the mode is None; `clearOtpProtection(k)`
calls `clearProtection()` on both pair sensors when `k` is CH1 or CH2 and the mode is
not None, and on sensor `k` alone otherwise. -/
theorem output_and_protection_broadcast (s : State) (c k : Nat) (enable : Bool) :
    (s.g_channelCoupling ≠ TYPE_NONE →
      (outputEnable s c enable).calls =
        s.calls ++ [Call.outputEnable 0 enable, Call.outputEnable 1 enable] ∧
      (outputEnable s c enable).channels 0 = (s.channels 0).outputEnable enable ∧
      (outputEnable s c enable).channels 1 = (s.channels 1).outputEnable enable ∧
      (clearProtection s c).calls = s.calls ++ [Call.clearProtection 0, Call.clearProtection 1] ∧
      (clearProtection s c).channels 0 = (s.channels 0).clearProtection ∧
      (clearProtection s c).channels 1 = (s.channels 1).clearProtection ∧
      (disableProtection s c).calls =
        s.calls ++ [Call.disableProtection 0, Call.disableProtection 1] ∧
      (disableProtection s c).channels 0 = (s.channels 0).disableProtection ∧
      (disableProtection s c).channels 1 = (s.channels 1).disableProtection) ∧
    (s.g_channelCoupling = TYPE_NONE →
      (outputEnable s c enable).calls = s.calls ++ [Call.outputEnable c enable] ∧
      (outputEnable s c enable).channels c = (s.channels c).outputEnable enable ∧
      (∀ j, j ≠ c → (outputEnable s c enable).channels j = s.channels j) ∧
      (clearProtection s c).calls = s.calls ++ [Call.clearProtection c] ∧
      (clearProtection s c).channels c = (s.channels c).clearProtection ∧
      (∀ j, j ≠ c → (clearProtection s c).channels j = s.channels j) ∧
      (disableProtection s c).calls = s.calls ++ [Call.disableProtection c] ∧
      (disableProtection s c).channels c = (s.channels c).disableProtection ∧
      (∀ j, j ≠ c → (disableProtection s c).channels j = s.channels j)) ∧
    ((k = CH1 ∨ k = CH2) ∧ s.g_channelCoupling ≠ TYPE_NONE →
      (clearOtpProtection s k).calls =
        s.calls ++ [Call.sensorClearProtection CH1, Call.sensorClearProtection CH2] ∧
      (clearOtpProtection s k).sensors CH1 = (s.sensors CH1).clearProtection ∧
      (clearOtpProtection s k).sensors CH2 = (s.sensors CH2).clearProtection ∧
      (∀ j, j ≠ CH1 → j ≠ CH2 → (clearOtpProtection s k).sensors j = s.sensors j)) ∧
    (¬ ((k = CH1 ∨ k = CH2) ∧ s.g_channelCoupling ≠ TYPE_NONE) →
      (clearOtpProtection s k).calls = s.calls ++ [Call.sensorClearProtection k] ∧
      (clearOtpProtection s k).sensors k = (s.sensors k).clearProtection ∧
      (∀ j, j ≠ k → (clearOtpProtection s k).sensors j = s.sensors j)) := by
  refine ⟨?_, ?_, ?_, ?_⟩
  · intro h
    simp [outputEnable, clearProtection, disableProtection, h]
  · intro h
    simp only [outputEnable, clearProtection, disableProtection, h]
    refine ⟨by simp, by simp, ?_, by simp, by simp, ?_, by simp, by simp, ?_⟩
    · intro j hj
      simp [Function.update_noteq hj]
    · intro j hj
      simp [Function.update_noteq hj]
    · intro j hj
      simp [Function.update_noteq hj]
  · intro h
    simp only [clearOtpProtection, if_pos h]
    refine ⟨by simp, by simp [CH1, CH2], by simp [CH1, CH2], ?_⟩
    intro j h1 h2
    simp [Function.update_noteq h1, Function.update_noteq h2]
  · intro h
    simp only [clearOtpProtection, if_neg h]
    refine ⟨by simp, by simp, ?_⟩
    intro j hj
    simp [Function.update_noteq hj]

/-- C20 on the example pair: in Series `outputEnable(channel 1, false)` calls channel 0
and channel 1 and `clearOtpProtection(CH1)` clears both pair sensors; uncoupled each
reaches the addressed one alone. -/
theorem output_and_protection_broadcast_witness :
    (outputEnable (exampleState TYPE_SERIES) 1 false).calls =
      [Call.outputEnable 0 false, Call.outputEnable 1 false] ∧
    (outputEnable (exampleState TYPE_NONE) 1 false).calls = [Call.outputEnable 1 false] ∧
    (clearOtpProtection (exampleState TYPE_SERIES) CH1).calls =
      [Call.sensorClearProtection CH1, Call.sensorClearProtection CH2] ∧
    (clearOtpProtection (exampleState TYPE_NONE) CH1).calls = [Call.sensorClearProtection CH1] := by
  have hs := output_and_protection_broadcast (exampleState TYPE_SERIES) 1 CH1 false
  have hn := output_and_protection_broadcast (exampleState TYPE_NONE) 1 CH1 false
  refine ⟨?_, ?_, ?_, ?_⟩
  · rw [(hs.1 (by decide)).1]
    rfl
  · rw [(hn.2.1 rfl).1]
    rfl
  · rw [(hs.2.2.1 ⟨Or.inl rfl, by decide⟩).1]
    rfl
  · rw [(hn.2.2.2 (fun h => h.2 rfl)).1]
    rfl

/-! ## C21, C22: low ripple -/

/-- C21: when the mode is not None `isLowRippleAllowed(c)` is true exactly when the
feature masks of channel 0 and of channel 1 both contain the low-ripple bit; when the
mode is None it is true exactly when the feature mask of the addressed channel
contains it. -/
theorem isLowRippleAllowed_iff (s : State) (c : Nat) :
    (s.g_channelCoupling ≠ TYPE_NONE →
      (isLowRippleAllowed s c = true ↔
        (s.channels 0).features &&& CH_FEATURE_LRIPPLE ≠ 0 ∧
        (s.channels 1).features &&& CH_FEATURE_LRIPPLE ≠ 0)) ∧
    (s.g_channelCoupling = TYPE_NONE →
      (isLowRippleAllowed s c = true ↔ (s.channels c).features &&& CH_FEATURE_LRIPPLE ≠ 0)) := by
  constructor
  · intro h
    simp [isLowRippleAllowed, h, Channel.hasFeature]
  · intro h
    simp [isLowRippleAllowed, h, Channel.hasFeature]

/-- C21 on the example pair (channel 0 has the low-ripple bit, channel 1 lacks it):
coupled in Series low ripple is not allowed; uncoupled it is allowed for channel 0
and not for channel 1. -/
theorem isLowRippleAllowed_iff_witness :
    isLowRippleAllowed (exampleState TYPE_SERIES) 0 = false ∧
    isLowRippleAllowed (exampleState TYPE_NONE) 0 = true ∧
    isLowRippleAllowed (exampleState TYPE_NONE) 1 = false := by
  have hs := (isLowRippleAllowed_iff (exampleState TYPE_SERIES) 0).1 (by decide)
  have h0 := (isLowRippleAllowed_iff (exampleState TYPE_NONE) 0).2 rfl
  have h1 := (isLowRippleAllowed_iff (exampleState TYPE_NONE) 1).2 rfl
  refine ⟨?_, h0.2 (by decide), ?_⟩
  · cases h : isLowRippleAllowed (exampleState TYPE_SERIES) 0
    · rfl
    · exact absurd (hs.1 h).2 (by decide)
  · cases h : isLowRippleAllowed (exampleState TYPE_NONE) 1
    · rfl
    · exact absurd (h1.1 h) (by decide)

/-- C22: when the mode is not None `lowRippleAutoEnable(c, enable)` calls the physical
`lowRippleAutoEnable(enable)` on channel 0 and on channel 1 and makes no other call;
when the mode is None its only call is the physical `outputEnable(enable)` on the
addressed channel: no `lowRippleAutoEnable` is called on any channel, the addressed
channel changes as `outputEnable` says and no other channel changes. -/
theorem lowRippleAutoEnable_dispatch (s : State) (c : Nat) (enable : Bool) :
    (s.g_channelCoupling ≠ TYPE_NONE →
      (lowRippleAutoEnable s c enable).calls =
        s.calls ++ [Call.lowRippleAutoEnable 0 enable, Call.lowRippleAutoEnable 1 enable] ∧
      (lowRippleAutoEnable s c enable).channels 0 = (s.channels 0).lowRippleAutoEnable enable ∧
      (lowRippleAutoEnable s c enable).channels 1 = (s.channels 1).lowRippleAutoEnable enable) ∧
    (s.g_channelCoupling = TYPE_NONE →
      (lowRippleAutoEnable s c enable).calls = s.calls ++ [Call.outputEnable c enable] ∧
      (∀ j b, Call.lowRippleAutoEnable j b ∉ [Call.outputEnable c enable]) ∧
      (lowRippleAutoEnable s c enable).channels c = (s.channels c).outputEnable enable ∧
      (∀ j, j ≠ c → (lowRippleAutoEnable s c enable).channels j = s.channels j) ∧
      (∀ j, ((lowRippleAutoEnable s c enable).channels j).lripple_auto_enabled =
        (s.channels j).lripple_auto_enabled)) := by
  constructor
  · intro h
    simp [lowRippleAutoEnable, h]
  · intro h
    simp only [lowRippleAutoEnable, h]
    refine ⟨by simp, by simp, by simp, ?_, ?_⟩
    · intro j hj
      simp [Function.update_noteq hj]
    · intro j
      by_cases hj : j = c
      · subst hj
        simp [Channel.outputEnable]
      · simp [Function.update_noteq hj]

/-- C22 on the example pair: in Series the request reaches both channels as
`lowRippleAutoEnable`; uncoupled, addressed to channel 1, it arrives as
`outputEnable(false)` on channel 1, whose output goes off. -/
theorem lowRippleAutoEnable_dispatch_witness :
    (lowRippleAutoEnable (exampleState TYPE_SERIES) 1 true).calls =
      [Call.lowRippleAutoEnable 0 true, Call.lowRippleAutoEnable 1 true] ∧
    (lowRippleAutoEnable (exampleState TYPE_NONE) 1 false).calls = [Call.outputEnable 1 false] ∧
    ((exampleState TYPE_NONE).channels 1).output_enabled = true ∧
    ((lowRippleAutoEnable (exampleState TYPE_NONE) 1 false).channels 1).output_enabled = false := by
  have hs := (lowRippleAutoEnable_dispatch (exampleState TYPE_SERIES) 1 true).1 (by decide)
  have hn := (lowRippleAutoEnable_dispatch (exampleState TYPE_NONE) 1 false).2 rfl
  refine ⟨?_, ?_, ?_, ?_⟩
  · rw [hs.1]
    rfl
  · rw [hn.1]
    rfl
  · simp [exampleState, exampleChannel1]
  · rw [hn.2.2.1]
    simp [Channel.outputEnable]

/-! ## C23: the topology notifier -/

theorem notifications_append (a b : List Call) :
    notifications (a ++ b) = notifications a ++ notifications b := by
  simp [notifications, List.filterMap_append]

/-- The reset calls on a channel carry no notification. -/
theorem notifications_resetCalls (s : State) (i : Nat) : notifications (resetCalls s i) = [] := by
  unfold resetCalls
  by_cases hr : (s.channels i).hasFeature CH_FEATURE_RPROG = true <;>
  by_cases hl : (s.channels i).hasFeature CH_FEATURE_LRIPPLE = true <;>
  simp [notifications, hr, hl]

/-- The loop body of `setType` is its statements run in order. -/
theorem runStatements_body (s : State) (i : Nat) :
    runStatements s (setTypeBodyStatements i) = setTypeChannel s i := rfl

theorem runStatements_append (s : State) (fs gs : List (State → State)) :
    runStatements s (fs ++ gs) = runStatements (runStatements s fs) gs := by
  simp [runStatements, List.foldl_append]

/-- The statements before the notification leave the state after the loop. -/
theorem runStatements_writes (s : State) (m : CouplingType) :
    runStatements s (setTypeWrites m) =
      setTypeChannel (setTypeChannel { s with g_channelCoupling := m } 0) 1 := by
  unfold setTypeWrites
  rw [runStatements_append, runStatements_append, runStatements_body, runStatements_body]
  rfl

theorem statesThrough_concat (fs : List (State → State)) (s : State) (g : State → State) :
    statesThrough s (fs ++ [g]) = statesThrough s fs ++ [g (runStatements s fs)] := by
  induction fs generalizing s with
  | nil => rfl
  | cons f fs ih =>
    show s :: statesThrough (f s) (fs ++ [g]) = s :: statesThrough (f s) fs ++ _
    rw [ih (f s)]
    rfl

/-- The state a list of statements leaves is among the states it passes through. -/
theorem runStatements_mem (fs : List (State → State)) (s : State) :
    runStatements s fs ∈ statesThrough s fs := by
  induction fs generalizing s with
  | nil => exact List.mem_singleton.mpr rfl
  | cons f fs ih => exact List.mem_cons_of_mem _ (ih (f s))

/-- The states passed through by the first statements of a list are passed through by
the whole list. -/
theorem statesThrough_mem_append (fs gs : List (State → State)) (s st : State)
    (h : st ∈ statesThrough s fs) : st ∈ statesThrough s (fs ++ gs) := by
  induction fs generalizing s with
  | nil =>
    have e : st = s := List.mem_singleton.mp h
    subst e
    cases gs with
    | nil => exact List.mem_singleton.mpr rfl
    | cons g gs => exact List.mem_cons_self _ _
  | cons f fs ih =>
    rcases List.mem_cons.mp h with h | h
    · subst h
      exact List.mem_cons_self _ _
    · exact List.mem_cons_of_mem _ (ih (f s) h)

/-- Statements that send no event leave the events of the notifier as they were in
every state they pass through. -/
theorem statesThrough_quiet (fs : List (State → State))
    (hq : ∀ f ∈ fs, ∀ st : State, notifications (f st).calls = notifications st.calls)
    (s st : State) (h : st ∈ statesThrough s fs) :
    notifications st.calls = notifications s.calls := by
  induction fs generalizing s with
  | nil =>
    have e : st = s := List.mem_singleton.mp h
    rw [e]
  | cons f fs ih =>
    rcases List.mem_cons.mp h with h | h
    · rw [h]
    · rw [ih (fun g hg => hq g (List.mem_cons_of_mem _ hg)) (f s) h]
      exact hq f (List.mem_cons_self _ _) s

/-- No statement of the loop body sends an event. -/
theorem setTypeBodyStatements_quiet (i : Nat) :
    ∀ f ∈ setTypeBodyStatements i, ∀ st : State,
      notifications (f st).calls = notifications st.calls := by
  intro f hf st
  simp only [setTypeBodyStatements, List.mem_cons, List.mem_singleton, List.not_mem_nil,
    or_false] at hf
  rcases hf with rfl | rfl | rfl | rfl | rfl | rfl | rfl | rfl | rfl | rfl | rfl | rfl | rfl |
    rfl | rfl | rfl
  · simp [notifications]
  · by_cases hr : (st.channels i).hasFeature CH_FEATURE_RPROG = true <;>
      simp [notifications, hr]
  · by_cases hl : (st.channels i).hasFeature CH_FEATURE_LRIPPLE = true <;>
      simp [notifications, hl]
  · simp [notifications]
  · simp [notifications]
  all_goals simp

/-- No statement before the notification sends an event. -/
theorem setTypeWrites_quiet (m : CouplingType) :
    ∀ f ∈ setTypeWrites m, ∀ st : State,
      notifications (f st).calls = notifications st.calls := by
  intro f hf st
  simp only [setTypeWrites, List.mem_append, List.mem_singleton] at hf
  rcases hf with (rfl | hf) | hf
  · rfl
  · exact setTypeBodyStatements_quiet 0 f hf st
  · exact setTypeBodyStatements_quiet 1 f hf st

/-- The state a mode transition that goes through leaves is the state its statements
leave. -/
theorem setType_success_statements (s : State) (m : CouplingType)
    (hm : s.g_channelCoupling ≠ m) (hn : 2 ≤ s.CH_NUM) (h0 : (s.channels 0).isOk = true)
    (h1 : (s.channels 1).isOk = true) :
    (setType s m).2 = (runStatements s (setTypeWrites m)).switchChannelCoupling
      (runStatements s (setTypeWrites m)).g_channelCoupling := by
  have hn2 : ¬ s.CH_NUM < 2 := by omega
  rw [runStatements_writes]
  simp [setType, hm, hn2, h0, h1, range_two]

/-- The states a mode transition that goes through passes through. -/
theorem setTypeStates_success (s : State) (m : CouplingType)
    (hm : s.g_channelCoupling ≠ m) (hn : 2 ≤ s.CH_NUM) (h0 : (s.channels 0).isOk = true)
    (h1 : (s.channels 1).isOk = true) :
    setTypeStates s m = statesThrough s (setTypeWrites m) ++ [(setType s m).2] := by
  have hn2 : ¬ s.CH_NUM < 2 := by omega
  rw [setType_success_statements s m hm hn h0 h1]
  unfold setTypeStates setTypeStatements
  rw [statesThrough_concat]
  simp [hm, hn2, h0, h1]

/-- C23: the states that `setType(m)` passes through, statement by statement, end in
the state that `setType(m)` returns. When `setType(m)` returns true for a mode other
than the one in force, the topology notifier receives exactly one event, carrying `m`;
it is the last call of the transition; and it is emitted after all channel and sensor
writes: every state the transition passes through either shows the notifier no new
event or is the final state, while the states with the writes half done, such as the
one after the loop body on channel 0, are among those passed through. A `setType` that
returns false or asks for the mode in force passes through the pre-state alone, makes
no call and sends no event. -/
theorem setType_notifies_once (s : State) (m : CouplingType) :
    (setTypeStates s m).getLast? = some (setType s m).2 ∧
    ((setType s m).1 = true → s.g_channelCoupling ≠ m →
      notifications (setType s m).2.calls = notifications s.calls ++ [m] ∧
      (setType s m).2.calls.getLast? = some (Call.switchChannelCoupling m) ∧
      (∀ st ∈ setTypeStates s m,
        notifications st.calls = notifications s.calls ∨ st = (setType s m).2) ∧
      setTypeChannel { s with g_channelCoupling := m } 0 ∈ setTypeStates s m ∧
      setTypeChannel (setTypeChannel { s with g_channelCoupling := m } 0) 1 ∈
        setTypeStates s m ∧
      ∃ t : State, (setType s m).2 = t.switchChannelCoupling m ∧
        t.channels = (setType s m).2.channels ∧ t.sensors = (setType s m).2.sensors ∧
        notifications t.calls = notifications s.calls ∧
        (setType s m).2.calls = t.calls ++ [Call.switchChannelCoupling m]) ∧
    ((setType s m).1 = false ∨ s.g_channelCoupling = m →
      setTypeStates s m = [s] ∧
      (setType s m).2.calls = s.calls ∧
      notifications (setType s m).2.calls = notifications s.calls) := by
  rcases setType_cases s m with ⟨hm, h⟩ | ⟨hm, h⟩ | ⟨hm, hn, h0, h1⟩
  · have hst : setTypeStates s m = [s] := by simp [setTypeStates, hm]
    refine ⟨?_, fun _ hne => absurd hm hne, fun _ => ?_⟩
    · rw [hst, h]
      rfl
    · rw [h]
      exact ⟨hst, rfl, rfl⟩
  · have hst : setTypeStates s m = [s] := by
      have hf : (setType s m).1 = false := by rw [h]
      unfold setType at hf
      unfold setTypeStates
      by_cases hn : s.CH_NUM < 2
      · simp [hm, hn]
      · by_cases hok : (!(s.channels 0).isOk || !(s.channels 1).isOk) = true
        · simp [hm, hn, hok]
        · simp [hm, hn, hok] at hf
    refine ⟨?_, fun ht _ => ?_, fun _ => ?_⟩
    · rw [hst, h]
      rfl
    · rw [h] at ht
      simp at ht
    · rw [h]
      exact ⟨hst, rfl, rfl⟩
  · have hcalls := setType_success_calls s m hm hn h0 h1
    have hstates := setTypeStates_success s m hm hn h0 h1
    have hnote : notifications (setType s m).2.calls = notifications s.calls ++ [m] := by
      rw [hcalls]
      simp only [transitionCalls, notifications_append, notifications_resetCalls]
      simp [notifications]
    refine ⟨?_, fun _ _ => ⟨hnote, ?_, ?_, ?_, ?_, ?_⟩, fun hf => ?_⟩
    · rw [hstates]
      simp
    · rw [hcalls]
      simp [transitionCalls]
    · intro st hst
      rw [hstates] at hst
      rcases List.mem_append.mp hst with hst | hst
      · exact Or.inl (statesThrough_quiet _ (setTypeWrites_quiet m) s st hst)
      · exact Or.inr (List.mem_singleton.mp hst)
    · rw [hstates]
      refine List.mem_append_left _ ?_
      have e : setTypeChannel { s with g_channelCoupling := m } 0 =
          runStatements s ([fun s => { s with g_channelCoupling := m }] ++
            setTypeBodyStatements 0) := by
        rw [runStatements_append, runStatements_body]
        rfl
      rw [e]
      exact statesThrough_mem_append _ _ _ _ (runStatements_mem _ s)
    · rw [hstates, ← runStatements_writes]
      exact List.mem_append_left _ (runStatements_mem _ s)
    · rw [setType_success s m hm hn h0 h1]
      refine ⟨_, rfl, rfl, rfl, ?_, rfl⟩
      simp only [applyMerged_calls, setTypeReset_calls, notifications_append,
        notifications_resetCalls]
      simp
    · rcases hf with hf | hf
      · rw [setType_success s m hm hn h0 h1] at hf
        simp at hf
      · exact absurd hf hm

/-- C23 on the example pair: the transition from None to Series sends the single event
Series, as its last call; the refused request with channel 1 unhealthy and the request
for the mode in force pass through the pre-state alone and send none. -/
theorem setType_notifies_once_witness :
    notifications (setType (exampleState TYPE_NONE) TYPE_SERIES).2.calls = [TYPE_SERIES] ∧
    (setType (exampleState TYPE_NONE) TYPE_SERIES).2.calls.getLast? =
      some (Call.switchChannelCoupling TYPE_SERIES) ∧
    (∀ st ∈ setTypeStates (exampleState TYPE_NONE) TYPE_SERIES,
      notifications st.calls = [] ∨ st = (setType (exampleState TYPE_NONE) TYPE_SERIES).2) ∧
    setTypeStates (unhealthyState TYPE_NONE) TYPE_SERIES = [unhealthyState TYPE_NONE] ∧
    notifications (setType (unhealthyState TYPE_NONE) TYPE_SERIES).2.calls = [] ∧
    notifications (setType (exampleState TYPE_SERIES) TYPE_SERIES).2.calls = [] := by
  have t1 : (setType (exampleState TYPE_NONE) TYPE_SERIES).1 = true := by
    rw [setType_success (exampleState TYPE_NONE) TYPE_SERIES (by decide) (by decide) rfl rfl]
  have hu : (setType (unhealthyState TYPE_NONE) TYPE_SERIES).1 = false := by
    rcases setType_cases (unhealthyState TYPE_NONE) TYPE_SERIES with ⟨h, _⟩ | ⟨_, h⟩ | ⟨_, _, _, h⟩
    · exact absurd h (by decide)
    · rw [h]
    · exact absurd h (by decide)
  have a := (setType_notifies_once (exampleState TYPE_NONE) TYPE_SERIES).2.1 t1 (by decide)
  have b := (setType_notifies_once (unhealthyState TYPE_NONE) TYPE_SERIES).2.2 (Or.inl hu)
  have c := ((setType_notifies_once (exampleState TYPE_SERIES) TYPE_SERIES).2.2 (Or.inr rfl)).2.2
  exact ⟨a.1, a.2.1, a.2.2.1, b.1, b.2.2, c⟩

/-! ## C24: who changes the coupling mode -/

/-- C24: the coupling mode is None at start-up; `getType` returns the current mode (a
read: in the embedding it returns a value and no state); no operation other than
`setType` changes the mode; a `setType` that returns false or asks for the mode in
force leaves the mode as it was, so that the mode changes only in a `setType(m)` that
returns true with `m` different from the mode in force, and then becomes `m`. -/
theorem coupling_mode_changes_only_in_setType (s : State) :
    (∀ (n : Nat) (channels : Nat → Channel) (sensors : Nat → TempSensorTemperature),
      getType (initialState n channels sensors) = TYPE_NONE ∧
      Reachable (initialState n channels sensors)) ∧
    getType s = s.g_channelCoupling ∧
    (∀ op : Op, op.isSetType = false →
      (step s op).g_channelCoupling = s.g_channelCoupling) ∧
    (∀ m, (setType s m).1 = false ∨ s.g_channelCoupling = m →
      (setType s m).2.g_channelCoupling = s.g_channelCoupling) ∧
    (∀ m, (setType s m).2.g_channelCoupling ≠ s.g_channelCoupling →
      (setType s m).1 = true ∧ s.g_channelCoupling ≠ m ∧
      (setType s m).2.g_channelCoupling = m) := by
  refine ⟨fun n ch se => ⟨rfl, Reachable.init _ rfl⟩, rfl, fun op h => step_coupling s op h,
    ?_, ?_⟩
  · intro m hf
    rcases setType_cases s m with ⟨_, h⟩ | ⟨_, h⟩ | ⟨hm, hn, h0, h1⟩
    · rw [h]
    · rw [h]
    · rcases hf with hf | hf
      · rw [setType_success s m hm hn h0 h1] at hf
        simp at hf
      · exact absurd hf hm
  · intro m hne
    rcases setType_cases s m with ⟨_, h⟩ | ⟨_, h⟩ | ⟨hm, hn, h0, h1⟩
    · rw [h] at hne
      exact absurd rfl hne
    · rw [h] at hne
      exact absurd rfl hne
    · refine ⟨?_, hm, setType_success_coupling s m hm hn h0 h1⟩
      rw [setType_success s m hm hn h0 h1]

/-- C24 on the example pair: a voltage write in Series leaves the mode Series, a
refused transition leaves the mode None, and the transition that goes through is a
`setType` that returned true. -/
theorem coupling_mode_changes_only_in_setType_witness :
    (step (exampleState TYPE_SERIES) (Op.setVoltage 0 10)).g_channelCoupling = TYPE_SERIES ∧
    (setType (unhealthyState TYPE_NONE) TYPE_SERIES).2.g_channelCoupling = TYPE_NONE ∧
    (setType (exampleState TYPE_NONE) TYPE_SERIES).2.g_channelCoupling = TYPE_SERIES ∧
    (setType (exampleState TYPE_NONE) TYPE_SERIES).1 = true := by
  have hu : (setType (unhealthyState TYPE_NONE) TYPE_SERIES).1 = false := by
    rcases setType_cases (unhealthyState TYPE_NONE) TYPE_SERIES with ⟨h, _⟩ | ⟨_, h⟩ | ⟨_, _, _, h⟩
    · exact absurd h (by decide)
    · rw [h]
    · exact absurd h (by decide)
  have hc : (setType (exampleState TYPE_NONE) TYPE_SERIES).2.g_channelCoupling = TYPE_SERIES :=
    setType_success_coupling (exampleState TYPE_NONE) TYPE_SERIES (by decide) (by decide) rfl rfl
  have hne : (setType (exampleState TYPE_NONE) TYPE_SERIES).2.g_channelCoupling ≠
      (exampleState TYPE_NONE).g_channelCoupling := by
    rw [hc]
    decide
  exact ⟨(coupling_mode_changes_only_in_setType (exampleState TYPE_SERIES)).2.2.1
      (Op.setVoltage 0 10) rfl,
    (coupling_mode_changes_only_in_setType (unhealthyState TYPE_NONE)).2.2.2.1 TYPE_SERIES
      (Or.inl hu), hc,
    ((coupling_mode_changes_only_in_setType (exampleState TYPE_NONE)).2.2.2.2 TYPE_SERIES hne).1⟩

/-! ## C26: writing a protection level and reading it back -/

/-- What the protection-level reads return after the level writes, by mode: the OVP
level comes back in Series and comes back halved in Parallel, the OPP level comes back
in both coupled modes. -/
theorem protection_level_read_after_write (s : State) (c : Nat) (L : ℚ) :
    (s.g_channelCoupling = TYPE_SERIES → getUProtectionLevel (setOvpLevel s c L) c = L) ∧
    (s.g_channelCoupling = TYPE_PARALLEL → c = 0 ∨ c = 1 →
      getUProtectionLevel (setOvpLevel s c L) c = L / 2) ∧
    (s.g_channelCoupling ≠ TYPE_NONE → getPowerProtectionLevel (setOppLevel s c L) c = L) := by
  refine ⟨?_, ?_, ?_⟩
  · intro h
    simp [getUProtectionLevel, setOvpLevel, h, Channel.set_u_level]
  · intro h hc
    rcases hc with rfl | rfl <;>
      simp [getUProtectionLevel, setOvpLevel, h, Channel.set_u_level]
  · intro h
    simp [getPowerProtectionLevel, setOppLevel, h, Channel.set_p_level]

/-- C26 on the code: in Parallel `setOvpLevel(channel 0, 30)` stores 15 on channel 0
and on channel 1, and `getUProtectionLevel` then returns 15 for either channel, not
the 30 that was written; in Series the same write reads back as 30. -/
theorem ovp_level_reads_back_halved_in_parallel :
    (exampleState TYPE_PARALLEL).g_channelCoupling = TYPE_PARALLEL ∧
    ((setOvpLevel (exampleState TYPE_PARALLEL) 0 30).channels 0).prot_conf.u_level = 15 ∧
    ((setOvpLevel (exampleState TYPE_PARALLEL) 0 30).channels 1).prot_conf.u_level = 15 ∧
    getUProtectionLevel (setOvpLevel (exampleState TYPE_PARALLEL) 0 30) 0 = 15 ∧
    getUProtectionLevel (setOvpLevel (exampleState TYPE_PARALLEL) 0 30) 1 = 15 ∧
    getUProtectionLevel (setOvpLevel (exampleState TYPE_PARALLEL) 0 30) 0 ≠ 30 ∧
    getUProtectionLevel (setOvpLevel (exampleState TYPE_SERIES) 0 30) 0 = 30 := by
  have e0 : getUProtectionLevel (setOvpLevel (exampleState TYPE_PARALLEL) 0 30) 0 = 15 := by
    rw [(protection_level_read_after_write (exampleState TYPE_PARALLEL) 0 30).2.1 rfl
      (Or.inl rfl)]
    norm_num
  have e1 : getUProtectionLevel (setOvpLevel (exampleState TYPE_PARALLEL) 0 30) 1 = 15 := by
    have h : getUProtectionLevel (setOvpLevel (exampleState TYPE_PARALLEL) 0 30) 1 = 30 / 2 := by
      simp [getUProtectionLevel, setOvpLevel, exampleState, Channel.set_u_level]
    rw [h]
    norm_num
  have c0 : ((setOvpLevel (exampleState TYPE_PARALLEL) 0 30).channels 0).prot_conf.u_level =
      30 / 2 := by
    simp [setOvpLevel, exampleState, Channel.set_u_level]
  have c1 : ((setOvpLevel (exampleState TYPE_PARALLEL) 0 30).channels 1).prot_conf.u_level =
      30 / 2 := by
    simp [setOvpLevel, exampleState, Channel.set_u_level]
  refine ⟨rfl, ?_, ?_, e0, e1, ?_, ?_⟩
  · rw [c0]
    norm_num
  · rw [c1]
    norm_num
  · rw [e0]
    norm_num
  · exact (protection_level_read_after_write (exampleState TYPE_SERIES) 0 30).1 rfl

/-! ## C27: halved writes and the ratings -/

/-- C27: in Series, for every `x` with `getUMin(c) ≤ x ≤ getUMax(c)`, `setVoltage(c, x)`
passes `x / 2` to channel 0 and to channel 1, and `x / 2` lies within the own
`[u.min, u.max]` of each of them; in Parallel, for every `x` with
`getIMin(c) ≤ x ≤ getIMax(c)`, `setCurrent(c, x)` passes `x / 2` to both, and `x / 2`
lies within the own `[i.min, i.max]` of each of them. -/
theorem halved_writes_within_rating (s : State) (c : Nat) (x : ℚ) :
    (s.g_channelCoupling = TYPE_SERIES → getUMin s c ≤ x → x ≤ getUMax s c →
      (setVoltage s c x).calls =
        s.calls ++ [Call.setVoltage 0 (x / 2), Call.setVoltage 1 (x / 2)] ∧
      ∀ k, k = 0 ∨ k = 1 →
        ((setVoltage s c x).channels k).u.set = x / 2 ∧
        (s.channels k).u.min ≤ x / 2 ∧ x / 2 ≤ (s.channels k).u.max) ∧
    (s.g_channelCoupling = TYPE_PARALLEL → getIMin s c ≤ x → x ≤ getIMax s c →
      (setCurrent s c x).calls =
        s.calls ++ [Call.setCurrent 0 (x / 2), Call.setCurrent 1 (x / 2)] ∧
      ∀ k, k = 0 ∨ k = 1 →
        ((setCurrent s c x).channels k).i.set = x / 2 ∧
        (s.channels k).i.min ≤ x / 2 ∧ x / 2 ≤ (s.channels k).i.max) := by
  constructor
  · intro h hlo hhi
    simp only [getUMin, getUMax, h, if_true, max__eq_max, min__eq_min] at hlo hhi
    have a0 := le_max_left (s.channels 0).u.min (s.channels 1).u.min
    have a1 := le_max_right (s.channels 0).u.min (s.channels 1).u.min
    have b0 := min_le_left (s.channels 0).u.max (s.channels 1).u.max
    have b1 := min_le_right (s.channels 0).u.max (s.channels 1).u.max
    refine ⟨by simp [setVoltage, h], ?_⟩
    intro k hk
    rcases hk with rfl | rfl
    · refine ⟨by simp [setVoltage, h, Channel.setVoltage], by linarith, by linarith⟩
    · refine ⟨by simp [setVoltage, h, Channel.setVoltage], by linarith, by linarith⟩
  · intro h hlo hhi
    simp only [getIMin, getIMax, h, if_true, max__eq_max, min__eq_min] at hlo hhi
    have a0 := le_max_left (s.channels 0).i.min (s.channels 1).i.min
    have a1 := le_max_right (s.channels 0).i.min (s.channels 1).i.min
    have b0 := min_le_left (s.channels 0).i.max (s.channels 1).i.max
    have b1 := min_le_right (s.channels 0).i.max (s.channels 1).i.max
    refine ⟨by simp [setCurrent, h], ?_⟩
    intro k hk
    rcases hk with rfl | rfl
    · refine ⟨by simp [setCurrent, h, Channel.setCurrent], by linarith, by linarith⟩
    · refine ⟨by simp [setCurrent, h, Channel.setCurrent], by linarith, by linarith⟩

/-- C27 on the example pair in Series (`u.min` 0 and 1, `u.max` 40 and 30, so the
logical range is 2 to 60): the voltage 60 reaches both channels as 30, inside the
range of channel 0 and the range of channel 1. -/
theorem halved_writes_within_rating_witness :
    getUMin (exampleState TYPE_SERIES) 0 ≤ 60 ∧ 60 ≤ getUMax (exampleState TYPE_SERIES) 0 ∧
    ∀ k, k = 0 ∨ k = 1 →
      ((setVoltage (exampleState TYPE_SERIES) 0 60).channels k).u.set = 60 / 2 ∧
      ((exampleState TYPE_SERIES).channels k).u.min ≤ 60 / 2 ∧
      60 / 2 ≤ ((exampleState TYPE_SERIES).channels k).u.max := by
  have hlo : getUMin (exampleState TYPE_SERIES) 0 ≤ 60 := by
    simp [getUMin, exampleState, exampleChannel0, exampleChannel1, max_]
    norm_num
  have hhi : (60 : ℚ) ≤ getUMax (exampleState TYPE_SERIES) 0 := by
    simp [getUMax, exampleState, exampleChannel0, exampleChannel1, min_]
    norm_num
  exact ⟨hlo, hhi, ((halved_writes_within_rating (exampleState TYPE_SERIES) 0 60).1 rfl
    hlo hhi).2⟩

/-! ## C28: broadcast writes and the ratings -/

/-- C28 fails as stated: on the example pair in Parallel (`u.max` 40 and 30) the
voltage 40 is within `getUMin(channel 0)` and `getUMax(channel 0)`, and
`setVoltage(channel 0, 40)` passes 40 to channel 1, above its `u.max` of 30; in Series
(`i.max` 5 and 3) the current 5 is within the range read for channel 0 and
`setCurrent(channel 0, 5)` passes 5 to channel 1, above its `i.max` of 3. -/
theorem broadcast_write_exceeds_other_rating :
    getUMin (exampleState TYPE_PARALLEL) 0 ≤ 40 ∧ 40 ≤ getUMax (exampleState TYPE_PARALLEL) 0 ∧
    (setVoltage (exampleState TYPE_PARALLEL) 0 40).calls =
      [Call.setVoltage 0 40, Call.setVoltage 1 40] ∧
    ((setVoltage (exampleState TYPE_PARALLEL) 0 40).channels 1).u.set = 40 ∧
    ¬ (40 ≤ ((exampleState TYPE_PARALLEL).channels 1).u.max) ∧
    getIMin (exampleState TYPE_SERIES) 0 ≤ 5 ∧ 5 ≤ getIMax (exampleState TYPE_SERIES) 0 ∧
    (setCurrent (exampleState TYPE_SERIES) 0 5).calls =
      [Call.setCurrent 0 5, Call.setCurrent 1 5] ∧
    ((setCurrent (exampleState TYPE_SERIES) 0 5).channels 1).i.set = 5 ∧
    ¬ (5 ≤ ((exampleState TYPE_SERIES).channels 1).i.max) := by
  refine ⟨?_, ?_, ?_, ?_, ?_, ?_, ?_, ?_, ?_, ?_⟩
  · simp [getUMin, exampleState, exampleChannel0]
  · simp [getUMax, exampleState, exampleChannel0]
  · simp [setVoltage, exampleState]
  · simp [setVoltage, exampleState, Channel.setVoltage]
  · norm_num [exampleState, exampleChannel1]
  · simp [getIMin, exampleState, exampleChannel0]
  · simp [getIMax, exampleState, exampleChannel0]
  · simp [setCurrent, exampleState]
  · simp [setCurrent, exampleState, Channel.setCurrent]
  · norm_num [exampleState, exampleChannel1]

/-- C28, amended: in Parallel, for every addressed channel `c` and every `x` with
`getUMin(c) ≤ x ≤ getUMax(c)`, `setVoltage(c, x)` passes `x` to channel 0 and to
channel 1, and `x` lies within the own `[u.min, u.max]` of the addressed channel, hence
within the own range of each channel of the pair whose range contains that of the
addressed channel (both channels when the two ratings are equal); in Series the same
holds for `setCurrent(c, x)`, `getIMin`, `getIMax` and `[i.min, i.max]`. -/
theorem broadcast_writes_within_addressed_rating (s : State) (c : Nat) (x : ℚ) :
    (s.g_channelCoupling = TYPE_PARALLEL → getUMin s c ≤ x → x ≤ getUMax s c →
      (setVoltage s c x).calls = s.calls ++ [Call.setVoltage 0 x, Call.setVoltage 1 x] ∧
      ((s.channels c).u.min ≤ x ∧ x ≤ (s.channels c).u.max) ∧
      ∀ k, k = 0 ∨ k = 1 →
        ((setVoltage s c x).channels k).u.set = x ∧
        ((s.channels k).u.min ≤ (s.channels c).u.min →
          (s.channels c).u.max ≤ (s.channels k).u.max →
          (s.channels k).u.min ≤ x ∧ x ≤ (s.channels k).u.max)) ∧
    (s.g_channelCoupling = TYPE_SERIES → getIMin s c ≤ x → x ≤ getIMax s c →
      (setCurrent s c x).calls = s.calls ++ [Call.setCurrent 0 x, Call.setCurrent 1 x] ∧
      ((s.channels c).i.min ≤ x ∧ x ≤ (s.channels c).i.max) ∧
      ∀ k, k = 0 ∨ k = 1 →
        ((setCurrent s c x).channels k).i.set = x ∧
        ((s.channels k).i.min ≤ (s.channels c).i.min →
          (s.channels c).i.max ≤ (s.channels k).i.max →
          (s.channels k).i.min ≤ x ∧ x ≤ (s.channels k).i.max)) := by
  constructor
  · intro h hlo hhi
    have hlo2 : (s.channels c).u.min ≤ x := by simpa [getUMin, h] using hlo
    have hhi2 : x ≤ (s.channels c).u.max := by simpa [getUMax, h] using hhi
    refine ⟨by simp [setVoltage, h], ⟨hlo2, hhi2⟩, ?_⟩
    intro k hk
    refine ⟨?_, fun a b => ⟨le_trans a hlo2, le_trans hhi2 b⟩⟩
    rcases hk with rfl | rfl <;> simp [setVoltage, h, Channel.setVoltage]
  · intro h hlo hhi
    have hlo2 : (s.channels c).i.min ≤ x := by simpa [getIMin, h] using hlo
    have hhi2 : x ≤ (s.channels c).i.max := by simpa [getIMax, h] using hhi
    refine ⟨by simp [setCurrent, h], ⟨hlo2, hhi2⟩, ?_⟩
    intro k hk
    refine ⟨?_, fun a b => ⟨le_trans a hlo2, le_trans hhi2 b⟩⟩
    rcases hk with rfl | rfl <;> simp [setCurrent, h, Channel.setCurrent]

/-- C28, amended, on the example pair in Parallel: the voltage 30, within the range
read for channel 1 (1 to 30), reaches both channels as 30 and lies within the own range
of channel 1 and within that of channel 0 (0 to 40), which contains it. -/
theorem broadcast_writes_within_addressed_rating_witness :
    getUMin (exampleState TYPE_PARALLEL) 1 ≤ 30 ∧ 30 ≤ getUMax (exampleState TYPE_PARALLEL) 1 ∧
    ((setVoltage (exampleState TYPE_PARALLEL) 1 30).channels 0).u.set = 30 ∧
    ((exampleState TYPE_PARALLEL).channels 0).u.min ≤ 30 ∧
    30 ≤ ((exampleState TYPE_PARALLEL).channels 0).u.max ∧
    ((exampleState TYPE_PARALLEL).channels 1).u.min ≤ 30 ∧
    30 ≤ ((exampleState TYPE_PARALLEL).channels 1).u.max := by
  have hlo : getUMin (exampleState TYPE_PARALLEL) 1 ≤ 30 := by
    simp [getUMin, exampleState, exampleChannel1]
  have hhi : (30 : ℚ) ≤ getUMax (exampleState TYPE_PARALLEL) 1 := by
    simp [getUMax, exampleState, exampleChannel1]
  have h := (broadcast_writes_within_addressed_rating (exampleState TYPE_PARALLEL) 1 30).1 rfl
    hlo hhi
  have h0 := (h.2.2 0 (Or.inl rfl)).2
    (by norm_num [exampleState, exampleChannel0, exampleChannel1])
    (by norm_num [exampleState, exampleChannel0, exampleChannel1])
  exact ⟨hlo, hhi, (h.2.2 0 (Or.inl rfl)).1, h0.1, h0.2, h.2.1.1, h.2.1.2⟩

/-! ## C29: the set points read back after a mode transition -/

/-- The set points read back after a mode transition that goes through: each channel
was given the coupling-aware minimum unhalved, so the combined read is twice the
minimum for the voltage in Series and for the current in Parallel, and equals the
minimum for the reads that pass through. -/
theorem set_points_after_transition (s : State) (m : CouplingType)
    (hm : s.g_channelCoupling ≠ m) (hn : 2 ≤ s.CH_NUM) (h0 : (s.channels 0).isOk = true)
    (h1 : (s.channels 1).isOk = true) (c : Nat) (hc : c = 0 ∨ c = 1) :
    (m = TYPE_SERIES →
      getUSet (setType s m).2 c = 2 * getUMin (setType s m).2 c ∧
      getISet (setType s m).2 c = getIMin (setType s m).2 c) ∧
    (m = TYPE_PARALLEL →
      getISet (setType s m).2 c = 2 * getIMin (setType s m).2 c ∧
      getUSet (setType s m).2 c = getUMin (setType s m).2 c) ∧
    (m = TYPE_NONE →
      getUSet (setType s m).2 c = getUMin (setType s m).2 c ∧
      getISet (setType s m).2 c = getIMin (setType s m).2 c) := by
  have hmode := setType_success_coupling s m hm hn h0 h1
  have c0 := setType_success_channel s m hm hn h0 h1 0 (Or.inl rfl)
  have c1 := setType_success_channel s m hm hn h0 h1 1 (Or.inr rfl)
  refine ⟨?_, ?_, ?_⟩
  · intro h
    subst h
    rcases hc with rfl | rfl <;>
    · simp only [getUSet, getUMin, getISet, getIMin, hmode, c0, c1]
      simp [resetResult, getUMin, getIMin]
      ring
  · intro h
    subst h
    rcases hc with rfl | rfl <;>
    · simp only [getUSet, getUMin, getISet, getIMin, hmode, c0, c1]
      simp [resetResult, getUMin, getIMin]
      ring
  · intro h
    subst h
    rcases hc with rfl | rfl <;>
    · simp only [getUSet, getUMin, getISet, getIMin, hmode, c0, c1]
      simp [resetResult, getUMin, getIMin]

/-- C29 on the code: after the transition of the example pair (`u.min` 0 and 1,
`i.min` 0 and 1/10) from None to Series, which goes through, `getUSet` reads 4 while
`getUMin` reads 2; after the transition to Parallel `getISet` reads 2/5 while `getIMin`
reads 1/5. -/
theorem set_point_reads_twice_minimum_after_transition :
    (setType (exampleState TYPE_NONE) TYPE_SERIES).1 = true ∧
    getUMin (setType (exampleState TYPE_NONE) TYPE_SERIES).2 0 = 2 ∧
    getUSet (setType (exampleState TYPE_NONE) TYPE_SERIES).2 0 = 4 ∧
    getUSet (setType (exampleState TYPE_NONE) TYPE_SERIES).2 1 = 4 ∧
    (setType (exampleState TYPE_NONE) TYPE_PARALLEL).1 = true ∧
    getIMin (setType (exampleState TYPE_NONE) TYPE_PARALLEL).2 0 = 1 / 5 ∧
    getISet (setType (exampleState TYPE_NONE) TYPE_PARALLEL).2 0 = 2 / 5 ∧
    getISet (setType (exampleState TYPE_NONE) TYPE_PARALLEL).2 1 = 2 / 5 := by
  have t1 : (setType (exampleState TYPE_NONE) TYPE_SERIES).1 = true := by
    rw [setType_success (exampleState TYPE_NONE) TYPE_SERIES (by decide) (by decide) rfl rfl]
  have t2 : (setType (exampleState TYPE_NONE) TYPE_PARALLEL).1 = true := by
    rw [setType_success (exampleState TYPE_NONE) TYPE_PARALLEL (by decide) (by decide) rfl rfl]
  have hs := setType_success_coupling (exampleState TYPE_NONE) TYPE_SERIES (by decide)
    (by decide) rfl rfl
  have s0 := setType_success_channel (exampleState TYPE_NONE) TYPE_SERIES (by decide)
    (by decide) rfl rfl 0 (Or.inl rfl)
  have s1 := setType_success_channel (exampleState TYPE_NONE) TYPE_SERIES (by decide)
    (by decide) rfl rfl 1 (Or.inr rfl)
  have hp := setType_success_coupling (exampleState TYPE_NONE) TYPE_PARALLEL (by decide)
    (by decide) rfl rfl
  have p0 := setType_success_channel (exampleState TYPE_NONE) TYPE_PARALLEL (by decide)
    (by decide) rfl rfl 0 (Or.inl rfl)
  have p1 := setType_success_channel (exampleState TYPE_NONE) TYPE_PARALLEL (by decide)
    (by decide) rfl rfl 1 (Or.inr rfl)
  have umin : getUMin (setType (exampleState TYPE_NONE) TYPE_SERIES).2 0 = 2 := by
    simp only [getUMin, hs, s0, s1]
    simp [resetResult, exampleState, exampleChannel0, exampleChannel1, max_]
  have imin : getIMin (setType (exampleState TYPE_NONE) TYPE_PARALLEL).2 0 = 1 / 5 := by
    simp only [getIMin, hp, p0, p1]
    simp [resetResult, exampleState, exampleChannel0, exampleChannel1, max_]
    norm_num
  have hS := set_points_after_transition (exampleState TYPE_NONE) TYPE_SERIES (by decide)
    (by decide) rfl rfl
  have hP := set_points_after_transition (exampleState TYPE_NONE) TYPE_PARALLEL (by decide)
    (by decide) rfl rfl
  have umin1 : getUMin (setType (exampleState TYPE_NONE) TYPE_SERIES).2 1 = 2 := by
    simp only [getUMin, hs, s0, s1]
    simp [resetResult, exampleState, exampleChannel0, exampleChannel1, max_]
  have imin1 : getIMin (setType (exampleState TYPE_NONE) TYPE_PARALLEL).2 1 = 1 / 5 := by
    simp only [getIMin, hp, p0, p1]
    simp [resetResult, exampleState, exampleChannel0, exampleChannel1, max_]
    norm_num
  refine ⟨t1, umin, ?_, ?_, t2, imin, ?_, ?_⟩
  · rw [((hS 0 (Or.inl rfl)).1 rfl).1, umin]
    norm_num
  · rw [((hS 1 (Or.inr rfl)).1 rfl).1, umin1]
    norm_num
  · rw [((hP 0 (Or.inl rfl)).2.1 rfl).1, imin]
    norm_num
  · rw [((hP 1 (Or.inr rfl)).2.1 rfl).1, imin1]
    norm_num

/-! ## C30: over-power levels and the ratings -/

/-- C30: in Series and in Parallel `getOppMinLevel` returns twice the maximum of the two
`OPP_MIN_LEVEL` and `getOppMaxLevel` twice the minimum of the two `OPP_MAX_LEVEL`; for
every `L` with `getOppMinLevel(c) ≤ L ≤ getOppMaxLevel(c)`, `setOppLevel(c, L)` stores
`L / 2` as `p_level` on channel 0 and on channel 1, within the own
`[OPP_MIN_LEVEL, OPP_MAX_LEVEL]` of each; and for every `p ≤ getPowerMaxLimit(c)`,
`setPowerLimit(c, p)` passes `p / 2` to channel 0 and to channel 1, not above the own
`PTOT` of each. -/
theorem opp_levels_within_rating (s : State) (c : Nat) (L p : ℚ)
    (hm : s.g_channelCoupling = TYPE_SERIES ∨ s.g_channelCoupling = TYPE_PARALLEL) :
    getOppMinLevel s c = 2 * max (s.channels 0).OPP_MIN_LEVEL (s.channels 1).OPP_MIN_LEVEL ∧
    getOppMaxLevel s c = 2 * min (s.channels 0).OPP_MAX_LEVEL (s.channels 1).OPP_MAX_LEVEL ∧
    (getOppMinLevel s c ≤ L → L ≤ getOppMaxLevel s c →
      ∀ k, k = 0 ∨ k = 1 →
        ((setOppLevel s c L).channels k).prot_conf.p_level = L / 2 ∧
        (s.channels k).OPP_MIN_LEVEL ≤ L / 2 ∧ L / 2 ≤ (s.channels k).OPP_MAX_LEVEL) ∧
    (p ≤ getPowerMaxLimit s c →
      (setPowerLimit s c p).calls =
        s.calls ++ [Call.setPowerLimit 0 (p / 2), Call.setPowerLimit 1 (p / 2)] ∧
      ∀ k, k = 0 ∨ k = 1 →
        ((setPowerLimit s c p).channels k).p_limit = p / 2 ∧ p / 2 ≤ (s.channels k).PTOT) := by
  have hne : s.g_channelCoupling ≠ TYPE_NONE := by
    rcases hm with h | h <;> rw [h] <;> decide
  have emin : getOppMinLevel s c =
      2 * max (s.channels 0).OPP_MIN_LEVEL (s.channels 1).OPP_MIN_LEVEL := by
    simp [getOppMinLevel, hne, max__eq_max]
  have emax : getOppMaxLevel s c =
      2 * min (s.channels 0).OPP_MAX_LEVEL (s.channels 1).OPP_MAX_LEVEL := by
    simp [getOppMaxLevel, hne, min__eq_min]
  have eptot : getPowerMaxLimit s c = 2 * min (s.channels 0).PTOT (s.channels 1).PTOT := by
    simp [getPowerMaxLimit, hne, min__eq_min]
  refine ⟨emin, emax, ?_, ?_⟩
  · intro hlo hhi k hk
    rw [emin] at hlo
    rw [emax] at hhi
    have a0 := le_max_left (s.channels 0).OPP_MIN_LEVEL (s.channels 1).OPP_MIN_LEVEL
    have a1 := le_max_right (s.channels 0).OPP_MIN_LEVEL (s.channels 1).OPP_MIN_LEVEL
    have b0 := min_le_left (s.channels 0).OPP_MAX_LEVEL (s.channels 1).OPP_MAX_LEVEL
    have b1 := min_le_right (s.channels 0).OPP_MAX_LEVEL (s.channels 1).OPP_MAX_LEVEL
    rcases hk with rfl | rfl
    · refine ⟨by simp [setOppLevel, hne, Channel.set_p_level], by linarith, by linarith⟩
    · refine ⟨by simp [setOppLevel, hne, Channel.set_p_level], by linarith, by linarith⟩
  · intro hp
    rw [eptot] at hp
    have b0 := min_le_left (s.channels 0).PTOT (s.channels 1).PTOT
    have b1 := min_le_right (s.channels 0).PTOT (s.channels 1).PTOT
    refine ⟨by simp [setPowerLimit, hne], ?_⟩
    intro k hk
    rcases hk with rfl | rfl
    · refine ⟨by simp [setPowerLimit, hne, Channel.setPowerLimit], by linarith⟩
    · refine ⟨by simp [setPowerLimit, hne, Channel.setPowerLimit], by linarith⟩

/-- C30 on the example pair in Parallel (`OPP_MIN_LEVEL` 0 and 1, `OPP_MAX_LEVEL` 155
and 90, `PTOT` 155 and 90): the logical OPP range is 2 to 180; the level 180 is stored
as 90 on both channels, inside both own ranges, and the power limit 180 reaches both
channels as 90, not above either `PTOT`. -/
theorem opp_levels_within_rating_witness :
    getOppMinLevel (exampleState TYPE_PARALLEL) 0 = 2 ∧
    getOppMaxLevel (exampleState TYPE_PARALLEL) 0 = 180 ∧
    (∀ k, k = 0 ∨ k = 1 →
      ((setOppLevel (exampleState TYPE_PARALLEL) 0 180).channels k).prot_conf.p_level = 180 / 2 ∧
      ((exampleState TYPE_PARALLEL).channels k).OPP_MIN_LEVEL ≤ 180 / 2 ∧
      180 / 2 ≤ ((exampleState TYPE_PARALLEL).channels k).OPP_MAX_LEVEL) ∧
    (∀ k, k = 0 ∨ k = 1 →
      ((setPowerLimit (exampleState TYPE_PARALLEL) 0 180).channels k).p_limit = 180 / 2 ∧
      180 / 2 ≤ ((exampleState TYPE_PARALLEL).channels k).PTOT) := by
  have h := opp_levels_within_rating (exampleState TYPE_PARALLEL) 0 180 180 (Or.inr rfl)
  have emin : getOppMinLevel (exampleState TYPE_PARALLEL) 0 = 2 := by
    rw [h.1]
    norm_num [exampleState, exampleChannel0, exampleChannel1]
  have emax : getOppMaxLevel (exampleState TYPE_PARALLEL) 0 = 180 := by
    rw [h.2.1]
    norm_num [exampleState, exampleChannel0, exampleChannel1]
  have eptot : (180 : ℚ) ≤ getPowerMaxLimit (exampleState TYPE_PARALLEL) 0 := by
    simp [getPowerMaxLimit, exampleState, exampleChannel0, exampleChannel1, min_]
    norm_num
  refine ⟨emin, emax, h.2.2.1 ?_ ?_, (h.2.2.2 eptot).2⟩
  · rw [emin]
    norm_num
  · rw [emax]

end channel_coupling
